import Mathlib

/-!
# BOUT example models: `lapd_drift` (2-fluid) and `gem` (gyro-fluid)

A shallow embedding of the right-hand-side functions of
`examples/lapd-drift/lapd_drift.cxx` and `examples/gyro-gem/gem.cxx`.

* `BoutReal` is modelled by `ℚ` (exact arithmetic); decimal literals of the
  source are the corresponding fractions (`0.25 = 1/4`, `0.51 = 51/100`).
* `Field2D` / `Field3D` are total functions of integer grid indices; field
  arithmetic is pointwise.
* Operators of the BOUT library that are not part of the two source files
  (elliptic inversion, parallel derivatives, brackets, filters, halo
  exchange, `exp`, `log`, real powers) are fields of an `Ops` structure:
  general theorems are stated for arbitrary such operators, evaluations at
  concrete inputs use the finite-difference instances `demoOps`.
* The global variables of each source file are split into a configuration
  record (set once by `physics_init`) and a state record (fields that
  `physics_run` reads and writes).
-/

set_option linter.unusedVariables false

namespace Bout

/-- A 2D field: value at grid point `[jx][jy]`. -/
abbrev Field2D := Int → Int → ℚ

/-- A 3D field: value at grid point `[jx][jy][jz]`. -/
abbrev Field3D := Int → Int → Int → ℚ

/-- Implicit conversion of a `Field2D` to a `Field3D` (constant in z). -/
def Field2D.to3D (f : Field2D) : Field3D := fun jx jy _ => f jx jy

/-- A C loop `for(int i=0; i<n; i++) body(i)` threading a value of type `α`. -/
def forLoop {α : Type} (n : Int) (body : Int → α → α) (init : α) : α :=
  (List.range n.toNat).foldl (fun acc i => body (i : Int) acc) init

/-- Array element assignment `f[i][j][k] = v`. -/
def setAt (f : Field3D) (i j k : Int) (v : ℚ) : Field3D :=
  fun x y z => if x = i ∧ y = j ∧ z = k then v else f x y z

/-- BOUT library `where(test, gt0, lt0)`: `gt0` where `test > 0`, else `lt0`
(source comment: "Sn*Ni0 if Sn > 0, Sn*Nit if Sn < 0"). -/
def whereF (test : Field2D) (gt0 lt0 : Field3D) : Field3D :=
  fun x y z => if test x y > 0 then gt0 x y z else lt0 x y z

end Bout

open Bout

/-! ## lapd_drift.cxx -/

namespace LapdDrift

/-- The parts of the global `mesh` object read by `lapd_drift.cxx`. -/
structure Mesh where
  ngx : Int
  ngy : Int
  ngz : Int
  xstart : Int
  xend : Int
  ystart : Int
  yend : Int
  dx : Field2D
  dz : ℚ
  Bxy : Field2D
  firstX : Bool
  lastX : Bool

/-- BOUT library operators called by `lapd_drift.cxx`. -/
structure Ops where
  /-- The solver `invert_laplace(b, flags, a, c)`; `none` is a `NULL` pointer. -/
  invert_laplace : Field3D → Int → Option Field2D → Option Field2D → Field3D
  /-- Halo exchange of one field of a `mesh->communicate` call. -/
  communicate : Field3D → Field3D
  Grad_par_LtoC : Field3D → Field3D
  Div_par_CtoL : Field3D → Field3D
  /-- The filter `filter(f, n)`: keep a single toroidal mode number. -/
  filter : Field3D → Int → Field3D
  /-- The toroidal average `f.DC()`. -/
  DC : Field3D → Field2D
  averageY : Field2D → Field2D
  /-- The boundary condition `jpar.applyBoundary()`. -/
  applyBoundary : Field3D → Field3D
  exp : ℚ → ℚ
  log : ℚ → ℚ
  /-- Pointwise real power `f ^ e`. -/
  pow : Field3D → ℚ → Field3D
  DDX : Field3D → Field3D
  DDZ : Field3D → Field3D
  VDDX : Field3D → Field3D → Field3D
  VDDZ : Field3D → Field3D → Field3D
  b0xGrad_dot_Grad : Field3D → Field3D → Field3D
  /-- Contents of a freshly allocated field (`result.allocate()`). -/
  alloc : Field3D

/-- Settings and parameters: the globals fixed by `physics_init`. -/
structure Config where
  Ni0 : Field2D
  Ti0 : Field2D
  Te0 : Field2D
  fmei : ℚ
  nu_hat : ℚ
  mui_hat : ℚ
  wci : ℚ
  nueix : ℚ
  nuiix : ℚ
  beta_p : ℚ
  nuIonNeutral : ℚ
  estatic : Bool
  ZeroElMass : Bool
  arakawa : Bool
  bout_exb : Bool
  evolve_rho : Bool
  evolve_ni : Bool
  evolve_ajpar : Bool
  nonlinear : Bool
  log_density : Bool
  filter_z : Bool
  filter_z_mode : Int
  phi_flags : Int
  apar_flags : Int
  niprofile : Bool
  evolve_source : Bool
  source_response : ℚ
  source_converge : ℚ
  input_source : Bool

/-- The fields read and written by `physics_run`, the time derivatives
`ddt(.)` and the function-local statics `acoeff`, `aset`. -/
structure State where
  rho : Field3D
  Ni : Field3D
  Ajpar : Field3D
  Sn : Field2D
  phi : Field3D
  Apar : Field3D
  Ve : Field3D
  jpar : Field3D
  nu : Field3D
  mu_i : Field3D
  kapa_Te : Field3D
  kapa_Ti : Field3D
  Nit : Field3D
  Tit : Field3D
  Tet : Field3D
  pei : Field3D
  pe : Field3D
  ddt_rho : Field3D
  ddt_Ni : Field3D
  ddt_Ajpar : Field3D
  ddt_Sn : Field2D
  acoeff : Field2D
  aset : Bool

/-- Option post-processing of `physics_init` (lines 147-164): logarithmic
density forces the nonlinear terms on, zero electron mass forces
`evolve_ajpar` off. -/
def physics_init_options (c : Config) : Config :=
  let c1 := if c.log_density then { c with nonlinear := true } else c
  if c1.ZeroElMass then { c1 with evolve_ajpar := false } else c1

/-- Start-up conversion of `physics_init` (lines 289-293): with
`log_density` the evolved `Ni` holds the logarithm of the total density. -/
def physics_init_state (ops : Ops) (cfg : Config) (s : State) : State :=
  if cfg.log_density then
    { s with Ni := fun x y z => ops.log ((s.Ni + cfg.Ni0.to3D) x y z) }
  else s

/-- Loop body of the Arakawa branch of
`vE_Grad(const Field3D &f, const Field3D &p)` (lines 603-626): the value
stored in `result[jx][jy][jz]`. -/
def arakawa33 (mesh : Mesh) (f p : Field3D) (jx jy jz : Int) : ℚ :=
  let ncz := mesh.ngz - 1
  let jzp := Int.tmod (jz + 1) ncz
  let jzm := Int.tmod (jz - 1 + ncz) ncz
  let Jpp := (1/4) * ( (p jx jy jzp - p jx jy jzm) *
                       (f (jx+1) jy jz - f (jx-1) jy jz) -
                       (p (jx+1) jy jz - p (jx-1) jy jz) *
                       (f jx jy jzp - f jx jy jzm) )
    / (mesh.dx jx jy * mesh.dz)
  let Jpx := (1/4) * ( f (jx+1) jy jz * (p (jx+1) jy jzp - p (jx+1) jy jzm) -
                       f (jx-1) jy jz * (p (jx-1) jy jzp - p (jx-1) jy jzm) -
                       f jx jy jzp * (p (jx+1) jy jzp - p (jx-1) jy jzp) +
                       f jx jy jzm * (p (jx+1) jy jzm - p (jx-1) jy jzm) )
    / (mesh.dx jx jy * mesh.dz)
  let Jxp := (1/4) * ( f (jx+1) jy jzp * (p jx jy jzp - p (jx+1) jy jz) -
                       f (jx-1) jy jzm * (p (jx-1) jy jz - p jx jy jzm) -
                       f (jx-1) jy jzp * (p jx jy jzp - p (jx-1) jy jz) +
                       f (jx+1) jy jzm * (p (jx+1) jy jz - p jx jy jzm) )
    / (mesh.dx jx jy * mesh.dz)
  (Jpp + Jpx + Jxp) / 3

/-- Loop body of the Arakawa branch of
`vE_Grad(const Field2D &f, const Field3D &p)` (lines 544-565). -/
def arakawa23 (mesh : Mesh) (f : Field2D) (p : Field3D) (jx jy jz : Int) : ℚ :=
  let ncz := mesh.ngz - 1
  let jzp := Int.tmod (jz + 1) ncz
  let jzm := Int.tmod (jz - 1 + ncz) ncz
  let Jpp := (1/4) * ( (p jx jy jzp - p jx jy jzm) *
                       (f (jx+1) jy - f (jx-1) jy) )
    / (mesh.dx jx jy * mesh.dz)
  let Jpx := (1/4) * ( f (jx+1) jy * (p (jx+1) jy jzp - p (jx+1) jy jzm) -
                       f (jx-1) jy * (p (jx-1) jy jzp - p (jx-1) jy jzm) -
                       f jx jy * (p (jx+1) jy jzp - p (jx-1) jy jzp) +
                       f jx jy * (p (jx+1) jy jzm - p (jx-1) jy jzm) )
    / (mesh.dx jx jy * mesh.dz)
  let Jxp := (1/4) * ( f (jx+1) jy * (p jx jy jzp - p (jx+1) jy jz) -
                       f (jx-1) jy * (p (jx-1) jy jz - p jx jy jzm) -
                       f (jx-1) jy * (p jx jy jzp - p (jx-1) jy jz) +
                       f (jx+1) jy * (p (jx+1) jy jz - p jx jy jzm) )
    / (mesh.dx jx jy * mesh.dz)
  (Jpp + Jpx + Jxp) / 3

/-- The index set of the loop nest `jx = xstart..xend`, `jy = ystart..yend`,
`jz = 0..ncz-1` of the Arakawa branches. -/
def inArakawaLoop (mesh : Mesh) (jx jy jz : Int) : Prop :=
  mesh.xstart ≤ jx ∧ jx ≤ mesh.xend ∧ mesh.ystart ≤ jy ∧ jy ≤ mesh.yend ∧
    0 ≤ jz ∧ jz < mesh.ngz - 1

instance (mesh : Mesh) (jx jy jz : Int) : Decidable (inArakawaLoop mesh jx jy jz) := by
  unfold inArakawaLoop; infer_instance

/-- The overload `vE_Grad(const Field2D &f, const Field3D &p)` (lines 533-576).
Every loop iteration writes one point of `result` from `f` and `p` alone;
points outside the loop nest keep the allocated contents. -/
def vE_Grad23 (ops : Ops) (mesh : Mesh) (cfg : Config) (f : Field2D) (p : Field3D) :
    Field3D :=
  if cfg.arakawa then
    fun jx jy jz =>
      if inArakawaLoop mesh jx jy jz then arakawa23 mesh f p jx jy jz
      else ops.alloc jx jy jz
  else if cfg.bout_exb then ops.VDDX (ops.DDZ p) f.to3D
  else ops.b0xGrad_dot_Grad p f.to3D / mesh.Bxy.to3D

/-- The overload `vE_Grad(const Field3D &f, const Field3D &p)` (lines 591-637). -/
def vE_Grad33 (ops : Ops) (mesh : Mesh) (cfg : Config) (f p : Field3D) : Field3D :=
  if cfg.arakawa then
    fun jx jy jz =>
      if inArakawaLoop mesh jx jy jz then arakawa33 mesh f p jx jy jz
      else ops.alloc jx jy jz
  else if cfg.bout_exb then ops.VDDX (ops.DDZ p) f + ops.VDDZ (-(ops.DDX p)) f
  else ops.b0xGrad_dot_Grad p f / mesh.Bxy.to3D

/-- Lines 335-339: with `log_density` the evolved `Ni` (logarithm of the
total density) is converted in place to the density perturbation. -/
def convertDensity (ops : Ops) (cfg : Config) (s : State) : State :=
  if cfg.log_density then
    { s with Ni := (fun x y z => ops.exp (s.Ni x y z)) - cfg.Ni0.to3D }
  else s

/-- Lines 346-349: invert vorticity to get `phi`. -/
def invertPhi (ops : Ops) (cfg : Config) (s : State) : State :=
  if cfg.nonlinear then
    { s with phi := ops.invert_laplace (s.rho / (cfg.Ni0.to3D + s.Ni)) cfg.phi_flags
                      none (some cfg.Ni0) }
  else
    { s with phi := ops.invert_laplace (s.rho / cfg.Ni0.to3D) cfg.phi_flags
                      none (some cfg.Ni0) }

/-- Lines 351-364: `Apar`, with the function-local statics `acoeff`, `aset`. -/
def invertApar (ops : Ops) (cfg : Config) (s : State) : State :=
  if cfg.estatic || cfg.ZeroElMass then
    { s with Apar := 0 }
  else
    let acoeff : Field2D :=
      if !s.aset then (-(1/2) * cfg.beta_p / cfg.fmei) • cfg.Ni0 else s.acoeff
    { s with acoeff := acoeff, aset := true,
             Apar := ops.invert_laplace (-acoeff.to3D * s.Ajpar) cfg.apar_flags
                       (some acoeff) none }

/-- Line 367: `mesh->communicate(comms)`; `comms` holds the evolved fields
registered by `physics_init` (lines 268-287) and `phi`, `Apar` (line 307). -/
def communicateComms (ops : Ops) (cfg : Config) (s : State) : State :=
  { s with rho := if cfg.evolve_rho then ops.communicate s.rho else s.rho,
           Ni := if cfg.evolve_ni then ops.communicate s.Ni else s.Ni,
           Ajpar := if cfg.evolve_ajpar then ops.communicate s.Ajpar else s.Ajpar,
           phi := ops.communicate s.phi,
           Apar := ops.communicate s.Apar }

/-- Lines 370-378: total profiles. -/
def updateProfiles (cfg : Config) (s : State) : State :=
  if cfg.nonlinear then
    { s with Nit := cfg.Ni0.to3D + s.Ni, Tit := cfg.Ti0.to3D, Tet := cfg.Te0.to3D }
  else
    { s with Nit := cfg.Ni0.to3D, Tit := cfg.Ti0.to3D, Tet := cfg.Te0.to3D }

/-- Lines 380-386: source response. -/
def source_alpha (ops : Ops) (cfg : Config) (t : ℚ) : ℚ :=
  if cfg.source_converge > 0 then
    cfg.source_response * ops.exp (-1 * t / cfg.source_converge)
  else cfg.source_response

/-- Lines 388-396: non-linear coefficients and pressures. -/
def updateCoefficients (ops : Ops) (cfg : Config) (s : State) : State :=
  { s with nu := cfg.nu_hat • s.Nit / ops.pow s.Tet (3/2),
           mu_i := cfg.mui_hat • s.Nit / ops.pow s.Tit (1/2),
           kapa_Te := ((16/5) * (1 / cfg.fmei) * (cfg.wci / cfg.nueix)) • ops.pow s.Tet (5/2),
           kapa_Ti := ((39/10) * (cfg.wci / cfg.nuiix)) • ops.pow s.Tit (5/2),
           pei := (s.Tet + s.Tit) * s.Nit,
           pe := s.Tet * s.Nit }

/-- Lines 398-415: parallel current and electron velocity. -/
def ohmsLaw (ops : Ops) (cfg : Config) (s : State) : State :=
  if cfg.ZeroElMass then
    let jpar0 : Field3D :=
      ((s.Tet * ops.Grad_par_LtoC s.Ni) - (s.Nit * ops.Grad_par_LtoC s.phi))
        / ((cfg.fmei * (51/100)) • s.nu)
    let jpar := ops.communicate (ops.applyBoundary jpar0)
    let Ve : Field3D := -jpar / s.Nit
    { s with jpar := jpar, Ve := Ve, Ajpar := Ve }
  else
    let Ve : Field3D := s.Ajpar + s.Apar
    { s with Ve := Ve, jpar := -s.Nit * Ve }

/-- Lines 438-448: inner-boundary relaxation loop of the `niprofile` branch. -/
def niprofileInner (mesh : Mesh) (Ni : Field3D) (d : Field3D) : Field3D :=
  forLoop 3 (fun i d =>
    forLoop mesh.ngy (fun j d =>
      forLoop mesh.ngz (fun k d =>
        if Ni i j k < 0 then setAt d i j k (d i j k - (1/10) * Ni i j k) else d) d) d) d

/-- Lines 449-459: outer-boundary relaxation loop of the `niprofile` branch. -/
def niprofileOuter (mesh : Mesh) (Ni : Field3D) (d : Field3D) : Field3D :=
  forLoop 3 (fun i d =>
    forLoop mesh.ngy (fun j d =>
      forLoop mesh.ngz (fun k d =>
        if Ni (mesh.ngx - 1 - i) j k > 0 then
          setAt d (mesh.ngx - 1 - i) j k
            (d (mesh.ngx - 1 - i) j k - (1/10) * Ni (mesh.ngx - 1 - i) j k)
        else d) d) d) d

/-- Lines 417-467, the density equation: the value of `ddt(Ni)` before the
z filter. -/
def rhsNi (ops : Ops) (mesh : Mesh) (cfg : Config) (t : ℚ) (s : State) : Field3D :=
  let d0 : Field3D := 0
  if cfg.evolve_ni then
    let d1 : Field3D := d0 - vE_Grad23 ops mesh cfg cfg.Ni0 s.phi
    let d2 : Field3D := if cfg.nonlinear then d1 - vE_Grad33 ops mesh cfg s.Ni s.phi else d1
    let d3 : Field3D := d2 + ops.Div_par_CtoL s.jpar
    let d6 : Field3D :=
      if cfg.evolve_source || cfg.input_source then
        d3 + s.Sn.to3D * whereF s.Sn cfg.Ni0.to3D s.Nit
      else if cfg.niprofile then
        let d4 := if mesh.firstX then niprofileInner mesh s.Ni d3 else d3
        if mesh.lastX then niprofileOuter mesh s.Ni d4 else d4
      else
        d3 - (ops.DC d3).to3D
    if cfg.log_density then d6 / s.Nit else d6
  else d0

/-- Lines 428-431: `ddt(Sn)` is assigned inside the density equation when the
source is evolved, and keeps its contents otherwise. -/
def rhsSn (ops : Ops) (cfg : Config) (t : ℚ) (s : State) : Field2D :=
  if cfg.evolve_ni then
    if cfg.evolve_source || cfg.input_source then
      if cfg.evolve_source then
        ops.averageY ((-1 * source_alpha ops cfg t) • ops.DC s.Ni / cfg.Ni0)
      else s.ddt_Sn
    else s.ddt_Sn
  else s.ddt_Sn

/-- Lines 469-487, the vorticity equation: the value of `ddt(rho)` before
the z filter. -/
def rhsRho (ops : Ops) (mesh : Mesh) (cfg : Config) (s : State) : Field3D :=
  let d0 : Field3D := 0
  if cfg.evolve_rho then
    let d1 : Field3D := if cfg.nonlinear then d0 - vE_Grad33 ops mesh cfg s.rho s.phi else d0
    let d2 : Field3D := d1 + mesh.Bxy.to3D * mesh.Bxy.to3D * ops.Div_par_CtoL s.jpar
    let d3 : Field3D := if cfg.nuIonNeutral > 0 then d2 - cfg.nuIonNeutral • s.rho else d2
    if cfg.evolve_source || cfg.input_source then
      d3 + s.Sn.to3D * whereF s.Sn 0 s.rho
    else d3
  else d0

/-- Lines 489-501, the `Ajpar` equation: the value of `ddt(Ajpar)` before
the z filter. -/
def rhsAjpar (ops : Ops) (cfg : Config) (s : State) : Field3D :=
  let d0 : Field3D := 0
  if cfg.evolve_ajpar then
    let d1 : Field3D := d0 + (1 / cfg.fmei) • ops.Grad_par_LtoC s.phi
    let d2 : Field3D := d1 - (1 / cfg.fmei) • (s.Tet / s.Nit) * ops.Grad_par_LtoC s.Ni
    d2 + (51/100 : ℚ) • s.nu * s.jpar / cfg.Ni0.to3D
  else d0

/-- Lines 503-510: z filtering of a time derivative. -/
def zFilter (ops : Ops) (cfg : Config) (d : Field3D) : Field3D :=
  if cfg.filter_z then ops.filter d cfg.filter_z_mode else d

/-- Lines 335-415 of `physics_run`: density conversion, inversions, halo
exchange, profiles, coefficients and parallel current. -/
def derivedStage (ops : Ops) (cfg : Config) (s : State) : State :=
  let s1 := convertDensity ops cfg s
  let s2 := invertPhi ops cfg s1
  let s3 := invertApar ops cfg s2
  let s4 := communicateComms ops cfg s3
  let s5 := updateProfiles cfg s4
  let s6 := updateCoefficients ops cfg s5
  ohmsLaw ops cfg s6

/-- Lines 417-510 of `physics_run`: the three equations and the z filter.
Each equation assigns its time derivative from fields other than the time
derivatives of the three evolved fields. -/
def residualStage (ops : Ops) (mesh : Mesh) (cfg : Config) (t : ℚ) (s : State) : State :=
  { s with ddt_Ni := zFilter ops cfg (rhsNi ops mesh cfg t s),
           ddt_Sn := rhsSn ops cfg t s,
           ddt_rho := zFilter ops cfg (rhsRho ops mesh cfg s),
           ddt_Ajpar := zFilter ops cfg (rhsAjpar ops cfg s) }

/-- The right-hand-side function `physics_run(BoutReal t)` (lines 333-513);
it always returns 0, the result here is the state it leaves behind. -/
def physics_run (ops : Ops) (mesh : Mesh) (cfg : Config) (s : State) (t : ℚ) : State :=
  residualStage ops mesh cfg t (derivedStage ops cfg s)

/-- Lines 335-396 of `physics_run`: the state in which the parallel current
is computed (density conversion, inversions, halo exchange, profiles and
coefficients). -/
def preOhm (ops : Ops) (cfg : Config) (s : State) : State :=
  updateCoefficients ops cfg (updateProfiles cfg (communicateComms ops cfg
    (invertApar ops cfg (invertPhi ops cfg (convertDensity ops cfg s)))))

/-- Line 401: the zero-electron-mass current, before its boundary condition
and halo exchange. -/
def jparZeroElMass (ops : Ops) (cfg : Config) (s : State) : Field3D :=
  ((s.Tet * ops.Grad_par_LtoC s.Ni) - (s.Nit * ops.Grad_par_LtoC s.phi))
    / ((cfg.fmei * (51/100)) • s.nu)

/-- Lines 491-500: the sum of the terms of the `Ajpar` equation, for a
parallel current `jpar`. -/
def ajparTerms (ops : Ops) (cfg : Config) (s : State) (jpar : Field3D) : Field3D :=
  let d0 : Field3D := 0
  let d1 : Field3D := d0 + (1 / cfg.fmei) • ops.Grad_par_LtoC s.phi
  let d2 : Field3D := d1 - (1 / cfg.fmei) • (s.Tet / s.Nit) * ops.Grad_par_LtoC s.Ni
  d2 + (51/100 : ℚ) • s.nu * jpar / cfg.Ni0.to3D

end LapdDrift

/-! ## gem.cxx -/

namespace Gem

/-- The parts of the global `mesh` object read by `gem.cxx`. -/
structure Mesh where
  ngx : Int
  ngy : Int
  ngz : Int
  Bxy : Field2D
  firstX : Bool
  lastX : Bool

/-- BOUT library operators called by `gem.cxx`. -/
structure Ops where
  /-- The bracket `bracket(p, f, bm)` with the fixed method `bm = BRACKET_SIMPLE`. -/
  bracket : Field3D → Field3D → Field3D
  Delp2 : Field3D → Field3D
  Grad2_par2 : Field3D → Field3D
  Grad_par : Field3D → Field3D
  Grad_par_CtoL : Field3D → Field3D
  Grad_par_LtoC : Field3D → Field3D
  /-- `Grad_par` of a `Field2D` (used for `Grad_par_logB` in `physics_init`). -/
  Grad_par2D : Field2D → Field2D
  /-- The gyro-average `gyroPade1(f, rho, flags)`. -/
  gyroPade1 : Field3D → ℚ → Int → Field3D
  /-- The gyro-average `gyroPade2(f, rho, flags)`. -/
  gyroPade2 : Field3D → ℚ → Int → Field3D
  /-- The default `flags` argument of `gyroPade1` / `gyroPade2`. -/
  gyroFlagsDefault : Int
  /-- The constant `INVERT_IN_RHS | INVERT_OUT_RHS`. -/
  gyroFlagsRHS : Int
  /-- The solver `invert_laplace(b, flags, a)`; `none` is an omitted `a`. -/
  invert_laplace : Field3D → Int → Option Field2D → Field3D
  lowPass : Field3D → Int → Field3D
  /-- The toroidal average `f.DC()`. -/
  DC : Field3D → Field2D
  averageY : Field2D → Field2D
  /-- The boundary condition `applyBoundary("neumann")`. -/
  applyBoundaryNeumann : Field3D → Field3D
  /-- Halo exchange of one field of a `mesh->communicate` call. -/
  communicate : Field3D → Field3D
  log : ℚ → ℚ

/-- Collisional transport coefficients (lines 72-80). -/
def eta : ℚ := 51/100

def alpha_e : ℚ := 71/100

def kappa_e : ℚ := 16/5

def pi_e : ℚ := 73/100

def kappa_i : ℚ := 39/10

def pi_i : ℚ := 73/100

/-- Options, parameters and equilibrium: the globals fixed by `physics_init`. -/
structure Config where
  logB : Field2D
  Grad_par_logB : Field2D
  Ni0 : Field2D
  Ne0 : Field2D
  Ti0 : Field2D
  Te0 : Field2D
  tau_e : ℚ
  tau_i : ℚ
  mu_e : ℚ
  mu_i : ℚ
  beta_e : ℚ
  rho_e : ℚ
  rho_i : ℚ
  adiabatic_electrons : Bool
  small_rho_e : Bool
  include_grad_par_B : Bool
  curv_logB : Bool
  Landau : ℚ
  nu_e : ℚ
  nu_i : ℚ
  nu_perp : ℚ
  nu_par : ℚ
  fix_profiles : Bool
  jpar_bndry_width : Int
  phi_flags : Int
  apar_flags : Int
  low_pass_z : Int
  ne_ddt : Bool
  ne_ne1 : Bool
  ne_te0 : Bool
  ne_te1 : Bool
  ne_ue : Bool
  ne_curv : Bool
  apue_ddt : Bool
  apue_uet : Bool
  apue_qe : Bool
  apue_phi : Bool
  apue_parP : Bool
  apue_curv : Bool
  apue_gradB : Bool
  apue_Rei : Bool
  tepar_ddt : Bool
  teperp_ddt : Bool
  qepar_ddt : Bool
  qeperp_ddt : Bool
  ni_ddt : Bool
  ni_ni1 : Bool
  ni_ti0 : Bool
  ni_ti1 : Bool
  ni_ui : Bool
  ni_curv : Bool
  apui_ddt : Bool
  apui_uit : Bool
  apui_qi : Bool
  apui_phi : Bool
  apui_parP : Bool
  apui_curv : Bool
  apui_gradB : Bool
  apui_Rei : Bool
  tipar_ddt : Bool
  tiperp_ddt : Bool
  qipar_ddt : Bool
  qiperp_ddt : Bool

/-- The twelve evolving quantities (lines 30-40); the same record holds
their time derivatives `ddt(.)`. -/
structure Evolved where
  Ni : Field3D
  ApUi : Field3D
  Tipar : Field3D
  Tiperp : Field3D
  qipar : Field3D
  qiperp : Field3D
  Ne : Field3D
  ApUe : Field3D
  Tepar : Field3D
  Teperp : Field3D
  qepar : Field3D
  qeperp : Field3D

/-- Names of the twelve evolving quantities. -/
inductive Var where
  | Ni | ApUi | Tipar | Tiperp | qipar | qiperp
  | Ne | ApUe | Tepar | Teperp | qepar | qeperp
  deriving DecidableEq

/-- The field of a record with a given name. -/
def Evolved.get (e : Evolved) : Var → Field3D
  | .Ni => e.Ni
  | .ApUi => e.ApUi
  | .Tipar => e.Tipar
  | .Tiperp => e.Tiperp
  | .qipar => e.qipar
  | .qiperp => e.qiperp
  | .Ne => e.Ne
  | .ApUe => e.ApUe
  | .Tepar => e.Tepar
  | .Teperp => e.Teperp
  | .qepar => e.qepar
  | .qeperp => e.qeperp

/-- The equation flag `*_ddt` of each evolving quantity. -/
def Config.ddtFlag (c : Config) : Var → Bool
  | .Ni => c.ni_ddt
  | .ApUi => c.apui_ddt
  | .Tipar => c.tipar_ddt
  | .Tiperp => c.tiperp_ddt
  | .qipar => c.qipar_ddt
  | .qiperp => c.qiperp_ddt
  | .Ne => c.ne_ddt
  | .ApUe => c.apue_ddt
  | .Tepar => c.tepar_ddt
  | .Teperp => c.teperp_ddt
  | .qepar => c.qepar_ddt
  | .qeperp => c.qeperp_ddt

/-- Whether a quantity belongs to the electron species. -/
def Var.isElectron : Var → Bool
  | .Ne | .ApUe | .Tepar | .Teperp | .qepar | .qeperp => true
  | _ => false

/-- Whether `physics_init` passes the quantity to `SOLVE_FOR` and adds it to
`comms` (lines 357-426): its flag is set and, for electrons, the run is not
adiabatic. -/
def Config.solved (c : Config) (v : Var) : Bool :=
  c.ddtFlag v && (!v.isElectron || !c.adiabatic_electrons)

/-- The globals read and written by `physics_run` / `physics_dissipation`. -/
structure State where
  ev : Evolved
  ddt : Evolved
  phi : Field3D
  Apar : Field3D
  Ui : Field3D
  Ue : Field3D
  Jpar : Field3D
  phi_G : Field3D
  Phi_G : Field3D
  Rei : Field3D

/-- Division of a field by a real number, `f / c`. -/
def divS (f : Field3D) (c : ℚ) : Field3D := fun x y z => f x y z / c

/-- What `physics_init` leaves behind: its return value, the quantities
passed to `SOLVE_FOR` (and added to `comms`) in order, and the state. -/
structure InitResult where
  code : Int
  solved : List Var
  state : State

/-- One `if(flag) { SOLVE_FOR(v); comms.add(v); } else v = 0.;` step. -/
def registerOrZero (flag : Bool) (v : Var) (zero : Evolved → Evolved)
    (r : List Var × Evolved) : List Var × Evolved :=
  if flag then (r.1 ++ [v], r.2) else (r.1, zero r.2)

/-- The registration part of `physics_init` (lines 357-426) and its
`return 0` (line 494). -/
def physics_init (cfg : Config) (s : State) : InitResult :=
  let r0 : List Var × Evolved := ([], s.ev)
  let r1 := registerOrZero cfg.ni_ddt .Ni (fun e => { e with Ni := 0 }) r0
  let r2 := registerOrZero cfg.apui_ddt .ApUi (fun e => { e with ApUi := 0 }) r1
  let r3 := registerOrZero cfg.tipar_ddt .Tipar (fun e => { e with Tipar := 0 }) r2
  let r4 := registerOrZero cfg.tiperp_ddt .Tiperp (fun e => { e with Tiperp := 0 }) r3
  let r5 := registerOrZero cfg.qipar_ddt .qipar (fun e => { e with qipar := 0 }) r4
  let r6 := registerOrZero cfg.qiperp_ddt .qiperp (fun e => { e with qiperp := 0 }) r5
  let r12 :=
    if cfg.adiabatic_electrons then r6
    else
      let r7 := registerOrZero cfg.ne_ddt .Ne (fun e => { e with Ne := 0 }) r6
      let r8 := registerOrZero cfg.apue_ddt .ApUe (fun e => { e with ApUe := 0 }) r7
      let r9 := registerOrZero cfg.tepar_ddt .Tepar (fun e => { e with Tepar := 0 }) r8
      let r10 := registerOrZero cfg.teperp_ddt .Teperp (fun e => { e with Teperp := 0 }) r9
      let r11 := registerOrZero cfg.qepar_ddt .qepar (fun e => { e with qepar := 0 }) r10
      registerOrZero cfg.qeperp_ddt .qeperp (fun e => { e with qeperp := 0 }) r11
  { code := 0, solved := r12.1, state := { s with ev := r12.2 } }

/-- The mass and temperature ratios and equilibrium copies set by
`physics_init` (lines 190-191, 233-237, 347-353) from the ion mass `AA`
and charge `ZZ`. -/
def physics_init_config (ops : Ops) (mesh : Mesh) (AA ZZ : ℚ) (c : Config) : Config :=
  { c with Ti0 := c.Te0, Ne0 := c.Ni0,
           mu_i := 1 / ZZ, mu_e := -1 / (AA * 1860),
           tau_e := -1, tau_i := 1 / ZZ,
           Grad_par_logB :=
             if c.include_grad_par_B then
               if c.curv_logB then ops.Grad_par2D c.logB
               else ops.Grad_par2D (fun x y => ops.log (mesh.Bxy x y))
             else 0 }

/-- The curvature operator `curvature(f)` (lines 946-963). -/
def curvature (ops : Ops) (mesh : Mesh) (cfg : Config) (f : Field3D) : Field3D :=
  if cfg.curv_logB then
    -ops.bracket ((2 : ℚ) • cfg.logB).to3D f
  else
    -ops.bracket (Field2D.to3D (fun x y => ops.log ((mesh.Bxy ^ 2) x y))) f

/-- ExB advection `UE_Grad(f, p)` (lines 969-972). -/
def UE_Grad (ops : Ops) (f p : Field3D) : Field3D := ops.bracket p f

/-- Artificial dissipation `UE_Grad_D(f, p)` (lines 975-985). -/
def UE_Grad_D (ops : Ops) (mesh : Mesh) (cfg : Config) (f p : Field3D) : Field3D :=
  let delp2 := ops.communicate (ops.applyBoundaryNeumann (ops.Delp2 f))
  cfg.nu_perp • ops.Delp2 (delp2 * (((1 : Field2D) / mesh.Bxy) ^ 4).to3D)
    - cfg.nu_par • ops.Grad2_par2 f

/-- The operator `WE_Grad(f, p)` (lines 987-990). -/
def WE_Grad (ops : Ops) (f p : Field3D) : Field3D := ops.bracket p f

/-- Parallel derivative `Grad_parP(f)` (lines 995-998); reads the global `Apar`. -/
def Grad_parP (ops : Ops) (cfg : Config) (s : State) (f : Field3D) : Field3D :=
  ops.Grad_par f - cfg.beta_e • ops.bracket s.Apar f

/-- Parallel derivative `Grad_parP_CtoL(f)` (lines 1000-1003). -/
def Grad_parP_CtoL (ops : Ops) (cfg : Config) (s : State) (f : Field3D) : Field3D :=
  ops.Grad_par_CtoL f - cfg.beta_e • ops.bracket s.Apar f

/-- Parallel derivative `Grad_parP_LtoC(f)` (lines 1005-1008). -/
def Grad_parP_LtoC (ops : Ops) (cfg : Config) (s : State) (f : Field3D) : Field3D :=
  ops.Grad_par_LtoC f - cfg.beta_e • ops.bracket s.Apar f

/-- Parallel divergence `Div_parP(f)` (lines 1010-1013). -/
def Div_parP (ops : Ops) (mesh : Mesh) (cfg : Config) (s : State) (f : Field3D) : Field3D :=
  mesh.Bxy.to3D * Grad_parP ops cfg s (f / mesh.Bxy.to3D)

/-- Parallel divergence `Div_parP_CtoL(f)` (lines 1015-1018). -/
def Div_parP_CtoL (ops : Ops) (mesh : Mesh) (cfg : Config) (s : State) (f : Field3D) :
    Field3D :=
  mesh.Bxy.to3D * Grad_parP_CtoL ops cfg s (f / mesh.Bxy.to3D)

/-- Parallel divergence `Div_parP_LtoC(f)` (lines 1020-1023). -/
def Div_parP_LtoC (ops : Ops) (mesh : Mesh) (cfg : Config) (s : State) (f : Field3D) :
    Field3D :=
  mesh.Bxy.to3D * Grad_parP_LtoC ops cfg s (f / mesh.Bxy.to3D)

/-- Lines 528-535: adiabatic electrons from the surface-averaged `phi`. -/
def adiabaticNe (ops : Ops) (cfg : Config) (s : State) : State :=
  if cfg.adiabatic_electrons then
    let phi_zonal : Field2D := ops.averageY (ops.DC s.phi)
    { s with ev := { s.ev with Ne := s.phi - phi_zonal.to3D } }
  else s

/-- The density difference `dn` of the polarisation equation (lines 543, 548-549). -/
def polarisation_dn (ops : Ops) (cfg : Config) (s : State) : Field3D :=
  if cfg.small_rho_e then
    s.ev.Ne - ops.gyroPade1 s.ev.Ni cfg.rho_i ops.gyroFlagsDefault
      - ops.gyroPade2 s.ev.Tiperp cfg.rho_i ops.gyroFlagsDefault
  else
    ops.gyroPade1 s.ev.Ne cfg.rho_e ops.gyroFlagsDefault
      + ops.gyroPade2 s.ev.Teperp cfg.rho_e ops.gyroFlagsDefault
      - ops.gyroPade1 s.ev.Ni cfg.rho_i ops.gyroFlagsDefault
      - ops.gyroPade2 s.ev.Tiperp cfg.rho_i ops.gyroFlagsDefault

/-- Lines 540-554: polarisation equation (quasi-neutrality) for `phi`. -/
def polarisation (ops : Ops) (cfg : Config) (s : State) : State :=
  if cfg.small_rho_e then
    let dn := polarisation_dn ops cfg s
    let phi := ops.invert_laplace (divS (cfg.tau_i • dn) (cfg.rho_i ^ 2)) cfg.phi_flags none
    { s with phi := phi - cfg.tau_i • dn }
  else
    let dn := polarisation_dn ops cfg s
    let phi := ops.invert_laplace (divS (cfg.tau_i • dn) (cfg.rho_i * cfg.rho_i))
                 cfg.phi_flags none
    { s with phi := phi - cfg.tau_i • dn }

/-- Lines 559-563: Helmholtz equation for `Apar` and the parallel velocities. -/
def helmholtz (ops : Ops) (cfg : Config) (s : State) : State :=
  let a : Field2D := fun _ _ => cfg.beta_e * (1 / cfg.mu_e - 1 / cfg.mu_i)
  let Apar := ops.invert_laplace (divS s.ev.ApUe cfg.mu_e - divS s.ev.ApUi cfg.mu_i)
                cfg.apar_flags (some a)
  { s with Apar := Apar,
           Ui := divS (s.ev.ApUi - cfg.beta_e • Apar) cfg.mu_i,
           Ue := divS (s.ev.ApUe - cfg.beta_e • Apar) cfg.mu_e }

/-- Body of the boundary loop (lines 572-579) at indices `i`, `j`, `k`,
acting on the pair `(Ui, Ue)`. -/
def jparBndryBody (mesh : Mesh) (i j k : Int) (u : Field3D × Field3D) :
    Field3D × Field3D :=
  let u1 := if mesh.firstX then (setAt u.1 i j k 0, setAt u.2 i j k 0) else u
  if mesh.lastX then
    (setAt u1.1 (mesh.ngx - 1 - i) j k 0, setAt u1.2 (mesh.ngx - 1 - i) j k 0)
  else u1

/-- Lines 565-581: zero `Ui`, `Ue` in the radial boundary regions. -/
def jparBndry (mesh : Mesh) (cfg : Config) (s : State) : State :=
  if cfg.jpar_bndry_width > 0 then
    let u := forLoop cfg.jpar_bndry_width (fun i u =>
      forLoop mesh.ngy (fun j u =>
        forLoop (mesh.ngz - 1) (fun k u => jparBndryBody mesh i j k u) u) u) (s.Ui, s.Ue)
    { s with Ui := u.1, Ue := u.2 }
  else s

/-- Line 583: the parallel current. -/
def setJpar (s : State) : State := { s with Jpar := s.Ui - s.Ue }

/-- Halo exchange of one evolving quantity by `mesh->communicate(comms)`:
only quantities added to `comms` by `physics_init` take part. -/
def commIf (ops : Ops) (cfg : Config) (v : Var) (f : Field3D) : Field3D :=
  if cfg.solved v then ops.communicate f else f

/-- The call `mesh->communicate(comms)` (lines 588, 870); `comms` holds the
registered evolving quantities and `phi, Apar, Ui, Ue, Jpar` (line 471). -/
def communicateComms (ops : Ops) (cfg : Config) (s : State) : State :=
  { s with
    ev := { Ni := commIf ops cfg .Ni s.ev.Ni,
            ApUi := commIf ops cfg .ApUi s.ev.ApUi,
            Tipar := commIf ops cfg .Tipar s.ev.Tipar,
            Tiperp := commIf ops cfg .Tiperp s.ev.Tiperp,
            qipar := commIf ops cfg .qipar s.ev.qipar,
            qiperp := commIf ops cfg .qiperp s.ev.qiperp,
            Ne := commIf ops cfg .Ne s.ev.Ne,
            ApUe := commIf ops cfg .ApUe s.ev.ApUe,
            Tepar := commIf ops cfg .Tepar s.ev.Tepar,
            Teperp := commIf ops cfg .Teperp s.ev.Teperp,
            qepar := commIf ops cfg .qepar s.ev.qepar,
            qeperp := commIf ops cfg .qeperp s.ev.qeperp },
    phi := ops.communicate s.phi,
    Apar := ops.communicate s.Apar,
    Ui := ops.communicate s.Ui,
    Ue := ops.communicate s.Ue,
    Jpar := ops.communicate s.Jpar }

/-- Lines 593-594: the resistive friction term `Rei`. -/
def setRei (cfg : Config) (s : State) : State :=
  { s with Rei := (cfg.mu_e * cfg.nu_e) •
      (eta • s.Jpar + (alpha_e / kappa_e) • (s.ev.qepar + s.ev.qeperp + alpha_e • s.Jpar)) }

/-- Lines 528-594: the closure, from the evolving quantities to the derived
fields `phi, Apar, Ui, Ue, Jpar, Rei`. -/
def closure (ops : Ops) (mesh : Mesh) (cfg : Config) (s : State) : State :=
  setRei cfg (communicateComms ops cfg (setJpar (jparBndry mesh cfg
    (helmholtz ops cfg (polarisation ops cfg (adiabaticNe ops cfg s))))))

/-- Lines 602-612 and 876-886: the electron gyro-reduced potentials. -/
def electronPotentials (ops : Ops) (cfg : Config) (s : State) : State :=
  if cfg.small_rho_e then
    { s with phi_G := s.phi, Phi_G := 0 }
  else
    { s with phi_G := ops.communicate (ops.gyroPade1 s.phi cfg.rho_e ops.gyroFlagsRHS),
             Phi_G := ops.communicate (ops.gyroPade2 s.phi cfg.rho_e ops.gyroFlagsRHS) }

/-- Lines 738-741: the ion gyro-reduced potentials. -/
def ionPotentials (ops : Ops) (cfg : Config) (s : State) : State :=
  { s with phi_G := ops.communicate (ops.gyroPade1 s.phi cfg.rho_i ops.gyroFlagsRHS),
           Phi_G := ops.communicate (ops.gyroPade2 s.phi cfg.rho_i ops.gyroFlagsRHS) }

/-- The post-processing that ends every equation block: optional low-pass
filter, then optional subtraction of the toroidal average. -/
def postProcess (ops : Ops) (cfg : Config) (R : Field3D) : Field3D :=
  let L := if cfg.low_pass_z > 0 then ops.lowPass R cfg.low_pass_z else R
  if cfg.fix_profiles then L - (ops.DC L).to3D else L

/-- Electron collisional dissipation terms (lines 615-618). -/
def S_D_e (cfg : Config) (s : State) : Field3D :=
  (cfg.nu_e / (3 * pi_e)) • (s.ev.Tepar - s.ev.Teperp)

def K_par_e (cfg : Config) (s : State) : Field3D :=
  (cfg.mu_e * cfg.tau_e * cfg.nu_e * ((5/2) / kappa_e)) •
    (s.ev.qepar + ((3/5) * alpha_e) • s.Jpar)

def K_perp_e (cfg : Config) (s : State) : Field3D :=
  (cfg.mu_e * cfg.tau_e * cfg.nu_e * ((5/2) / kappa_e)) •
    (s.ev.qeperp + ((2/5) * alpha_e) • s.Jpar)

def K_D_e (cfg : Config) (s : State) : Field3D :=
  ((32/25) * cfg.mu_e * cfg.tau_e * cfg.nu_e * ((5/2) / kappa_e)) •
    (s.ev.qepar - (3/2 : ℚ) • s.ev.qeperp)

/-- Ion collisional dissipation terms (lines 744-747). -/
def S_D_i (cfg : Config) (s : State) : Field3D :=
  (cfg.nu_i / (3 * pi_i)) • (s.ev.Tipar - s.ev.Tiperp)

def K_par_i (cfg : Config) (s : State) : Field3D :=
  (cfg.mu_i * cfg.tau_i * cfg.nu_i * ((5/2) / kappa_i)) • s.ev.qipar

def K_perp_i (cfg : Config) (s : State) : Field3D :=
  (cfg.mu_i * cfg.tau_i * cfg.nu_i * ((5/2) / kappa_i)) • s.ev.qiperp

def K_D_i (cfg : Config) (s : State) : Field3D :=
  ((32/25) * cfg.mu_i * cfg.tau_i * cfg.nu_i * ((5/2) / kappa_i)) •
    (s.ev.qipar - (3/2 : ℚ) • s.ev.qiperp)

/-- Lines 621-633: the flag-gated terms of the electron density equation. -/
def rhsNe (ops : Ops) (mesh : Mesh) (cfg : Config) (s : State) : Field3D :=
  let d0 : Field3D := -UE_Grad ops cfg.Ne0.to3D s.phi_G
  let d1 := if cfg.ne_ne1 then d0 - UE_Grad ops s.ev.Ne s.phi_G else d0
  let d2 := if cfg.ne_te0 then d1 - WE_Grad ops cfg.Te0.to3D s.Phi_G else d1
  let d3 := if cfg.ne_te1 then d2 - WE_Grad ops s.ev.Teperp s.Phi_G else d2
  let d4 := if cfg.ne_ue then d3 - Div_parP_LtoC ops mesh cfg s s.Ue else d3
  if cfg.ne_curv then
    d4 + curvature ops mesh cfg (s.phi_G + cfg.tau_e • s.ev.Ne
           + (1/2 : ℚ) • (cfg.tau_e • s.ev.Tepar + cfg.tau_e • s.ev.Teperp + s.Phi_G))
  else d4

/-- Lines 643-663: the flag-gated terms of the electron momentum equation. -/
def rhsApUe (ops : Ops) (mesh : Mesh) (cfg : Config) (s : State) : Field3D :=
  let d0 : Field3D := if cfg.apue_uet then -cfg.mu_e • UE_Grad ops s.Ue s.phi_G else 0
  let d1 := if cfg.apue_qe then d0 - cfg.mu_e • WE_Grad ops s.ev.qeperp s.Phi_G else d0
  let d2 := if cfg.apue_phi then d1 - Grad_parP_CtoL ops cfg s s.phi_G else d1
  let d3 :=
    if cfg.apue_parP then
      d2 - cfg.tau_e • Grad_parP_CtoL ops cfg s
             (cfg.Ne0.to3D + cfg.Te0.to3D + s.ev.Ne + s.ev.Tepar)
    else d2
  let d4 :=
    if cfg.apue_curv then
      d3 + (cfg.mu_e * cfg.tau_e) •
        curvature ops mesh cfg ((2 : ℚ) • s.Ue + s.ev.qepar + (1/2 : ℚ) • s.ev.qeperp)
    else d3
  let d5 :=
    if cfg.apue_gradB then
      d4 - cfg.tau_e • (s.Phi_G + cfg.tau_e • s.ev.Teperp - cfg.tau_e • s.ev.Tepar)
             * cfg.Grad_par_logB.to3D
    else d4
  if cfg.apue_Rei then d5 - s.Rei else d5

/-- Lines 673-677: the electron parallel temperature equation. -/
def rhsTepar (ops : Ops) (mesh : Mesh) (cfg : Config) (s : State) : Field3D :=
  - UE_Grad ops (cfg.Te0.to3D + s.ev.Tepar) s.phi_G
    - (2 : ℚ) • Div_parP_LtoC ops mesh cfg s (s.Ue + s.ev.qepar)
    + curvature ops mesh cfg
        (s.phi_G + cfg.tau_e • (s.ev.Ne + s.ev.Tepar) + (2 * cfg.tau_e) • s.ev.Tepar)
    - (s.Ue + s.ev.qeperp) * cfg.Grad_par_logB.to3D
    - (2 : ℚ) • S_D_e cfg s

/-- Lines 687-693: the electron perpendicular temperature equation. -/
def rhsTeperp (ops : Ops) (mesh : Mesh) (cfg : Config) (s : State) : Field3D :=
  - UE_Grad ops (cfg.Te0.to3D + s.ev.Teperp) s.phi_G
    - WE_Grad ops (cfg.Ne0.to3D + s.ev.Ne + (2 : ℚ) • (cfg.Te0.to3D + s.ev.Teperp)) s.Phi_G
    - Div_parP_LtoC ops mesh cfg s s.ev.qeperp
    + (1/2 : ℚ) • curvature ops mesh cfg
        (s.phi_G + s.Phi_G + cfg.tau_e • (s.ev.Ne + s.ev.Teperp)
          + (3 : ℚ) • (s.Phi_G + cfg.tau_e • s.ev.Teperp))
    + (s.Ue + s.ev.qeperp) * cfg.Grad_par_logB.to3D
    + S_D_e cfg s

/-- Lines 703-708: the electron parallel heat flux equation. -/
def rhsQepar (ops : Ops) (mesh : Mesh) (cfg : Config) (s : State) : Field3D :=
  - UE_Grad ops s.ev.qepar s.phi_G
    - ((3/2) * (1 / cfg.mu_e)) • Grad_parP_CtoL ops cfg s
        (cfg.tau_e • (cfg.Te0.to3D + s.ev.Tepar))
    + ((1/2) * cfg.mu_e * cfg.tau_e) •
        curvature ops mesh cfg ((3 : ℚ) • s.Ue + (8 : ℚ) • s.ev.qepar)
    - (cfg.Landau * (cfg.tau_e / cfg.mu_e)) • (1 - (1/8 : ℚ) • ops.Grad2_par2 s.ev.qepar)
    - (1 / cfg.mu_e) • K_par_e cfg s
    - (1 / cfg.mu_e) • K_D_e cfg s

/-- Lines 718-724: the electron perpendicular heat flux equation. -/
def rhsQeperp (ops : Ops) (mesh : Mesh) (cfg : Config) (s : State) : Field3D :=
  - UE_Grad ops s.ev.qeperp s.phi_G
    - WE_Grad ops (s.Ue + (2 : ℚ) • s.ev.qeperp) s.Phi_G
    - (1 / cfg.mu_e) • Grad_parP_CtoL ops cfg s
        (s.Phi_G + cfg.tau_e • (cfg.Te0.to3D + s.ev.Teperp))
    + ((1/2) * cfg.tau_e) • curvature ops mesh cfg (s.Ue + (6 : ℚ) • s.ev.qeperp)
    - (cfg.tau_e / cfg.mu_e) • (s.Phi_G + cfg.tau_e • s.ev.Teperp - cfg.tau_e • s.ev.Tepar)
        * cfg.Grad_par_logB.to3D
    - (1 / cfg.mu_e) • K_perp_e cfg s
    + (1 / cfg.mu_e) • K_D_e cfg s

/-- Lines 750-762: the flag-gated terms of the ion density equation. -/
def rhsNi (ops : Ops) (mesh : Mesh) (cfg : Config) (s : State) : Field3D :=
  let d0 : Field3D := -UE_Grad ops cfg.Ni0.to3D s.phi_G
  let d1 := if cfg.ni_ni1 then d0 - UE_Grad ops s.ev.Ni s.phi_G else d0
  let d2 := if cfg.ni_ti0 then d1 - WE_Grad ops cfg.Ti0.to3D s.Phi_G else d1
  let d3 := if cfg.ni_ti1 then d2 - WE_Grad ops s.ev.Tiperp s.Phi_G else d2
  let d4 := if cfg.ni_ui then d3 - Div_parP_LtoC ops mesh cfg s s.Ui else d3
  if cfg.ni_curv then
    d4 + curvature ops mesh cfg (s.phi_G + cfg.tau_i • s.ev.Ni
           + (1/2 : ℚ) • (cfg.tau_i • s.ev.Tipar + cfg.tau_i • s.ev.Tiperp + s.Phi_G))
  else d4

/-- Lines 772-792: the flag-gated terms of the ion momentum equation. The
pressure-gradient term on line 782 is guarded by `apue_parP`, as written in
the source. -/
def rhsApUi (ops : Ops) (mesh : Mesh) (cfg : Config) (s : State) : Field3D :=
  let d0 : Field3D := if cfg.apui_uit then -cfg.mu_i • UE_Grad ops s.Ui s.phi_G else 0
  let d1 := if cfg.apui_qi then d0 - cfg.mu_i • WE_Grad ops s.ev.qiperp s.Phi_G else d0
  let d2 := if cfg.apui_phi then d1 - Grad_parP_CtoL ops cfg s s.phi_G else d1
  let d3 :=
    if cfg.apue_parP then
      d2 - cfg.tau_i • Grad_parP_CtoL ops cfg s
             (cfg.Ni0.to3D + cfg.Ti0.to3D + s.ev.Ni + s.ev.Tipar)
    else d2
  let d4 :=
    if cfg.apui_curv then
      d3 + (cfg.mu_i * cfg.tau_i) •
        curvature ops mesh cfg ((2 : ℚ) • s.Ui + s.ev.qipar + (1/2 : ℚ) • s.ev.qiperp)
    else d3
  let d5 :=
    if cfg.apui_gradB then
      d4 - cfg.tau_i • (s.Phi_G + cfg.tau_i • s.ev.Tiperp - cfg.tau_i • s.ev.Tipar)
             * cfg.Grad_par_logB.to3D
    else d4
  if cfg.apui_Rei then d5 - s.Rei else d5

/-- Lines 802-806: the ion parallel temperature equation. -/
def rhsTipar (ops : Ops) (mesh : Mesh) (cfg : Config) (s : State) : Field3D :=
  - UE_Grad ops (cfg.Ti0.to3D + s.ev.Tipar) s.phi_G
    - (2 : ℚ) • Div_parP_LtoC ops mesh cfg s (s.Ui + s.ev.qipar)
    + curvature ops mesh cfg
        (s.phi_G + cfg.tau_i • (s.ev.Ni + s.ev.Tipar) + (2 * cfg.tau_i) • s.ev.Tipar)
    - (s.Ui + s.ev.qiperp) * cfg.Grad_par_logB.to3D
    - (2 : ℚ) • S_D_i cfg s

/-- Lines 816-822: the ion perpendicular temperature equation. -/
def rhsTiperp (ops : Ops) (mesh : Mesh) (cfg : Config) (s : State) : Field3D :=
  - UE_Grad ops (cfg.Ti0.to3D + s.ev.Tiperp) s.phi_G
    - WE_Grad ops (cfg.Ni0.to3D + s.ev.Ni + (2 : ℚ) • (cfg.Ti0.to3D + s.ev.Tiperp)) s.Phi_G
    - Div_parP_LtoC ops mesh cfg s s.ev.qiperp
    + (1/2 : ℚ) • curvature ops mesh cfg
        (s.phi_G + s.Phi_G + cfg.tau_i • (s.ev.Ni + s.ev.Tiperp)
          + (3 : ℚ) • (s.Phi_G + cfg.tau_i • s.ev.Tiperp))
    + (s.Ui + s.ev.qiperp) * cfg.Grad_par_logB.to3D
    + S_D_i cfg s

/-- Lines 832-836: the ion parallel heat flux equation (with `1/mu_e` in the
collisional terms and no Landau term, as written in the source). -/
def rhsQipar (ops : Ops) (mesh : Mesh) (cfg : Config) (s : State) : Field3D :=
  - UE_Grad ops s.ev.qipar s.phi_G
    - ((3/2) * (1 / cfg.mu_i)) • Grad_parP_CtoL ops cfg s
        (cfg.tau_i • (cfg.Ti0.to3D + s.ev.Tipar))
    + ((1/2) * cfg.tau_i) •
        curvature ops mesh cfg ((3 : ℚ) • s.Ui + (8 : ℚ) • s.ev.qipar)
    - (1 / cfg.mu_e) • K_par_i cfg s
    - (1 / cfg.mu_e) • K_D_i cfg s

/-- Lines 846-852: the ion perpendicular heat flux equation. -/
def rhsQiperp (ops : Ops) (mesh : Mesh) (cfg : Config) (s : State) : Field3D :=
  - UE_Grad ops s.ev.qiperp s.phi_G
    - WE_Grad ops (s.Ui + (2 : ℚ) • s.ev.qiperp) s.Phi_G
    - (1 / cfg.mu_i) • Grad_parP_CtoL ops cfg s
        (s.Phi_G + cfg.tau_i • (cfg.Ti0.to3D + s.ev.Tiperp))
    + ((1/2) * cfg.tau_i) • curvature ops mesh cfg (s.Ui + (6 : ℚ) • s.ev.qiperp)
    - (cfg.tau_i / cfg.mu_i) • (s.Phi_G + cfg.tau_i • s.ev.Tiperp - cfg.tau_i • s.ev.Tipar)
        * cfg.Grad_par_logB.to3D
    - (1 / cfg.mu_e) • K_perp_i cfg s
    + (1 / cfg.mu_e) • K_D_i cfg s

/-- Lines 599-732: the electron equations. Each `if(x_ddt)` block assigns
`ddt(x)` from fields other than the time derivatives. -/
def electronEqs (ops : Ops) (mesh : Mesh) (cfg : Config) (s : State) : State :=
  if !cfg.adiabatic_electrons then
    let s1 := electronPotentials ops cfg s
    { s1 with ddt := { s1.ddt with
        Ne := if cfg.ne_ddt then postProcess ops cfg (rhsNe ops mesh cfg s1) else s1.ddt.Ne,
        ApUe :=
          if cfg.apue_ddt then postProcess ops cfg (rhsApUe ops mesh cfg s1) else s1.ddt.ApUe,
        Tepar :=
          if cfg.tepar_ddt then postProcess ops cfg (rhsTepar ops mesh cfg s1)
          else s1.ddt.Tepar,
        Teperp :=
          if cfg.teperp_ddt then postProcess ops cfg (rhsTeperp ops mesh cfg s1)
          else s1.ddt.Teperp,
        qepar :=
          if cfg.qepar_ddt then postProcess ops cfg (rhsQepar ops mesh cfg s1)
          else s1.ddt.qepar,
        qeperp :=
          if cfg.qeperp_ddt then postProcess ops cfg (rhsQeperp ops mesh cfg s1)
          else s1.ddt.qeperp } }
  else s

/-- Lines 734-859: the ion equations. -/
def ionEqs (ops : Ops) (mesh : Mesh) (cfg : Config) (s : State) : State :=
  let s1 := ionPotentials ops cfg s
  { s1 with ddt := { s1.ddt with
      Ni := if cfg.ni_ddt then postProcess ops cfg (rhsNi ops mesh cfg s1) else s1.ddt.Ni,
      ApUi :=
        if cfg.apui_ddt then postProcess ops cfg (rhsApUi ops mesh cfg s1) else s1.ddt.ApUi,
      Tipar :=
        if cfg.tipar_ddt then postProcess ops cfg (rhsTipar ops mesh cfg s1)
        else s1.ddt.Tipar,
      Tiperp :=
        if cfg.tiperp_ddt then postProcess ops cfg (rhsTiperp ops mesh cfg s1)
        else s1.ddt.Tiperp,
      qipar :=
        if cfg.qipar_ddt then postProcess ops cfg (rhsQipar ops mesh cfg s1)
        else s1.ddt.qipar,
      qiperp :=
        if cfg.qiperp_ddt then postProcess ops cfg (rhsQiperp ops mesh cfg s1)
        else s1.ddt.qiperp } }

/-- The right-hand-side function `physics_run(BoutReal time)` (lines
517-862); it always returns 0, the result here is the state it leaves
behind. The argument `time` is not used by the source. -/
def physics_run (ops : Ops) (mesh : Mesh) (cfg : Config) (s : State) : State :=
  ionEqs ops mesh cfg (electronEqs ops mesh cfg (closure ops mesh cfg s))

/-- Lines 888-909: the electron blocks of `physics_dissipation`. -/
def dissipationElectrons (ops : Ops) (mesh : Mesh) (cfg : Config) (s : State) : State :=
  if !cfg.adiabatic_electrons then
    let s1 := electronPotentials ops cfg s
    { s1 with ddt := { s1.ddt with
        Ne :=
          if cfg.ne_ddt then
            (if cfg.ne_ne1 then (0 : Field3D) - UE_Grad_D ops mesh cfg s1.ev.Ne s1.phi_G
             else 0)
          else s1.ddt.Ne,
        ApUe :=
          if cfg.apue_ddt then
            (if cfg.apue_uet then
               (0 : Field3D) - cfg.mu_e • UE_Grad_D ops mesh cfg s1.Ue s1.phi_G
             else 0)
          else s1.ddt.ApUe,
        Tepar :=
          if cfg.tepar_ddt then -UE_Grad_D ops mesh cfg s1.ev.Tepar s1.phi_G
          else s1.ddt.Tepar,
        Teperp :=
          if cfg.teperp_ddt then -UE_Grad_D ops mesh cfg s1.ev.Teperp s1.phi_G
          else s1.ddt.Teperp,
        qepar :=
          if cfg.qepar_ddt then -UE_Grad_D ops mesh cfg s1.ev.qepar s1.phi_G
          else s1.ddt.qepar,
        qeperp :=
          if cfg.qeperp_ddt then -UE_Grad_D ops mesh cfg s1.ev.qeperp s1.phi_G
          else s1.ddt.qeperp } }
  else s

/-- Lines 915-936: the ion blocks of `physics_dissipation`. -/
def dissipationIons (ops : Ops) (mesh : Mesh) (cfg : Config) (s : State) : State :=
  { s with ddt := { s.ddt with
      Ni :=
        if cfg.ni_ddt then
          (if cfg.ni_ni1 then (0 : Field3D) - UE_Grad_D ops mesh cfg s.ev.Ni s.phi_G else 0)
        else s.ddt.Ni,
      ApUi :=
        if cfg.apui_ddt then
          (if cfg.apui_uit then -cfg.mu_i • UE_Grad_D ops mesh cfg s.Ui s.phi_G else 0)
        else s.ddt.ApUi,
      Tipar :=
        if cfg.tipar_ddt then -UE_Grad_D ops mesh cfg s.ev.Tipar s.phi_G else s.ddt.Tipar,
      Tiperp :=
        if cfg.tiperp_ddt then -UE_Grad_D ops mesh cfg s.ev.Tiperp s.phi_G
        else s.ddt.Tiperp,
      qipar :=
        if cfg.qipar_ddt then -UE_Grad_D ops mesh cfg s.ev.qipar s.phi_G else s.ddt.qipar,
      qiperp :=
        if cfg.qiperp_ddt then -UE_Grad_D ops mesh cfg s.ev.qiperp s.phi_G
        else s.ddt.qiperp } }

/-- The artificial-dissipation function `physics_dissipation(BoutReal time)`
(lines 865-939), the second half of the split operator. -/
def physics_dissipation (ops : Ops) (mesh : Mesh) (cfg : Config) (s : State) : State :=
  dissipationIons ops mesh cfg (dissipationElectrons ops mesh cfg (communicateComms ops cfg s))

/-- Lines 528-583 of `physics_run`: the derived fields as they stand after
line 583, before the halo exchange of line 588. -/
def derivedFields (ops : Ops) (mesh : Mesh) (cfg : Config) (s : State) : State :=
  setJpar (jparBndry mesh cfg (helmholtz ops cfg (polarisation ops cfg (adiabaticNe ops cfg s))))

/-- The nested loop of lines 569-580 as a function of the pair `(Ui, Ue)`. -/
def jparBndryLoop (mesh : Mesh) (w : Int) (u : Field3D × Field3D) : Field3D × Field3D :=
  forLoop w (fun i u =>
    forLoop mesh.ngy (fun j u =>
      forLoop (mesh.ngz - 1) (fun k u => jparBndryBody mesh i j k u) u) u) u

/-- Whether iteration `(i, j, k)` of the boundary loop assigns `[x][y][z]`
(lines 572-579). -/
def jparBndryHit (mesh : Mesh) (x y z i j k : Int) : Prop :=
  (mesh.firstX = true ∧ x = i ∧ y = j ∧ z = k) ∨
  (mesh.lastX = true ∧ x = mesh.ngx - 1 - i ∧ y = j ∧ z = k)

/-- The grid indices `[x][y][z]` assigned by the boundary loop of width `w`
(lines 569-580): `y` in `0..ngy-1`, `z` in `0..ngz-2`, and `x` in `0..w-1`
at the first radial boundary or in `ngx-w..ngx-1` at the last one. -/
def jparBndryWritten (mesh : Mesh) (w : Int) (x y z : Int) : Prop :=
  0 ≤ y ∧ y < mesh.ngy ∧ 0 ≤ z ∧ z < mesh.ngz - 1 ∧
    ((mesh.firstX = true ∧ 0 ≤ x ∧ x < w) ∨
     (mesh.lastX = true ∧ mesh.ngx - w ≤ x ∧ x < mesh.ngx))

instance (mesh : Mesh) (w x y z : Int) : Decidable (jparBndryWritten mesh w x y z) := by
  unfold jparBndryWritten; infer_instance

/-- The density difference of the polarisation equation when the electron
gyro-radius is neglected: `dn = Ne - gyroPade1(Ni, rho_i) - gyroPade2(Tiperp,
rho_i)`. -/
def directDn (ops : Ops) (cfg : Config) (s : State) : Field3D :=
  s.ev.Ne - ops.gyroPade1 s.ev.Ni cfg.rho_i ops.gyroFlagsDefault
    - ops.gyroPade2 s.ev.Tiperp cfg.rho_i ops.gyroFlagsDefault

/-- The gyro-averaged density difference of the polarisation equation:
`dn = gyroPade1(Ne, rho_e) + gyroPade2(Teperp, rho_e) - gyroPade1(Ni, rho_i)
- gyroPade2(Tiperp, rho_i)`. -/
def gyroAveragedDn (ops : Ops) (cfg : Config) (s : State) : Field3D :=
  ops.gyroPade1 s.ev.Ne cfg.rho_e ops.gyroFlagsDefault
    + ops.gyroPade2 s.ev.Teperp cfg.rho_e ops.gyroFlagsDefault
    - ops.gyroPade1 s.ev.Ni cfg.rho_i ops.gyroFlagsDefault
    - ops.gyroPade2 s.ev.Tiperp cfg.rho_i ops.gyroFlagsDefault

/-- The potential `phi = invert_laplace(tau_i*dn/rho_i^2, phi_flags) - tau_i*dn`
of a density difference `dn`. -/
def phiOfDn (ops : Ops) (cfg : Config) (dn : Field3D) : Field3D :=
  ops.invert_laplace (divS (cfg.tau_i • dn) (cfg.rho_i ^ 2)) cfg.phi_flags none
    - cfg.tau_i • dn

/-- The flag-gated sum of terms of each equation block of `physics_run`,
before post-processing: the electron blocks read the state left by the
closure and the electron potentials, the ion blocks the state left by the
electron equations and the ion potentials. -/
def residual (ops : Ops) (mesh : Mesh) (cfg : Config) (s : State) : Var → Field3D
  | .Ne => rhsNe ops mesh cfg (electronPotentials ops cfg (closure ops mesh cfg s))
  | .ApUe => rhsApUe ops mesh cfg (electronPotentials ops cfg (closure ops mesh cfg s))
  | .Tepar => rhsTepar ops mesh cfg (electronPotentials ops cfg (closure ops mesh cfg s))
  | .Teperp => rhsTeperp ops mesh cfg (electronPotentials ops cfg (closure ops mesh cfg s))
  | .qepar => rhsQepar ops mesh cfg (electronPotentials ops cfg (closure ops mesh cfg s))
  | .qeperp => rhsQeperp ops mesh cfg (electronPotentials ops cfg (closure ops mesh cfg s))
  | .Ni => rhsNi ops mesh cfg
      (ionPotentials ops cfg (electronEqs ops mesh cfg (closure ops mesh cfg s)))
  | .ApUi => rhsApUi ops mesh cfg
      (ionPotentials ops cfg (electronEqs ops mesh cfg (closure ops mesh cfg s)))
  | .Tipar => rhsTipar ops mesh cfg
      (ionPotentials ops cfg (electronEqs ops mesh cfg (closure ops mesh cfg s)))
  | .Tiperp => rhsTiperp ops mesh cfg
      (ionPotentials ops cfg (electronEqs ops mesh cfg (closure ops mesh cfg s)))
  | .qipar => rhsQipar ops mesh cfg
      (ionPotentials ops cfg (electronEqs ops mesh cfg (closure ops mesh cfg s)))
  | .qiperp => rhsQiperp ops mesh cfg
      (ionPotentials ops cfg (electronEqs ops mesh cfg (closure ops mesh cfg s)))

/-- Line 559: the coefficient `a = beta_e * (1./mu_e - 1./mu_i)` of the
Helmholtz equation for `Apar`. -/
def helmholtzA (cfg : Config) : Field2D :=
  fun _ _ => cfg.beta_e * (1 / cfg.mu_e - 1 / cfg.mu_i)

/-- Line 560: the source `ApUe/mu_e - ApUi/mu_i` of the Helmholtz equation. -/
def helmholtzB (cfg : Config) (s : State) : Field3D :=
  divS s.ev.ApUe cfg.mu_e - divS s.ev.ApUi cfg.mu_i

/-- Defaults of the options read on lines 156-170 and 249 of `physics_init`. -/
def defaultOptions (c : Config) : Config :=
  { c with adiabatic_electrons := false, small_rho_e := true, include_grad_par_B := true,
           Landau := 1, nu_perp := 1/100, nu_par := 3/1000, phi_flags := 0, apar_flags := 0,
           low_pass_z := -1, curv_logB := false, fix_profiles := false,
           jpar_bndry_width := -1 }

/-- Defaults of the equation and term switches (lines 251-264 of
`physics_init`): every equation and every term is enabled. -/
def defaultTermFlags (c : Config) : Config :=
  { c with
    ne_ddt := true, ne_ne1 := true, ne_te0 := true, ne_te1 := true,
    ne_ue := true, ne_curv := true, apue_ddt := true, apue_uet := true,
    apue_qe := true, apue_phi := true, apue_parP := true, apue_curv := true,
    apue_gradB := true, apue_Rei := true, tepar_ddt := true, teperp_ddt := true,
    qepar_ddt := true, qeperp_ddt := true, ni_ddt := true, ni_ni1 := true,
    ni_ti0 := true, ni_ti1 := true, ni_ui := true, ni_curv := true,
    apui_ddt := true, apui_uit := true, apui_qi := true, apui_phi := true,
    apui_parP := true, apui_curv := true, apui_gradB := true, apui_Rei := true,
    tipar_ddt := true, tiperp_ddt := true, qipar_ddt := true, qiperp_ddt := true }

end Gem

/-! ## Concrete instances used to evaluate the models -/

namespace LapdDrift

/-- A small mesh: 5 x 4 x 4 points, interior `jx = 1..3`, `jy = 1..2`, three
periodic z points, unit spacing and unit magnetic field. -/
def demoMesh : Mesh :=
  { ngx := 5, ngy := 4, ngz := 4, xstart := 1, xend := 3, ystart := 1, yend := 2,
    dx := fun _ _ => 1, dz := 1, Bxy := fun _ _ => 1, firstX := true, lastX := true }

/-- Mean over the three periodic z points of `demoMesh`. -/
def demoDC (f : Field3D) : Field2D := fun x y => (f x y 0 + f x y 1 + f x y 2) / 3

/-- Finite-difference stand-ins for the library operators on `demoMesh`:
one-sided differences along y, central differences along x and z, toroidal
mean over the three z points, y average over the two interior y points, a
filter that removes the toroidal mean, identity halo exchange and boundary
condition. The solver returns `b x^2 / 2` when `a` is omitted and `b / a`
otherwise: for uniform `c` and the five-point Laplacian of unit spacing these
solve the equation exactly when `b` does not depend on x and is affine in z
(in particular for `b = 0`). `exp` is exact at 0, `log` at 1 and `pow` for
the base 1. -/
def demoOps : Ops :=
  { invert_laplace := fun b _ a _ =>
      match a with
      | none => fun x y z => b x y z * ((x : ℚ) * x / 2)
      | some a => b / a.to3D
    communicate := fun f => f
    Grad_par_LtoC := fun f x y z => f x (y + 1) z - f x y z
    Div_par_CtoL := fun f x y z => f x y z - f x (y - 1) z
    filter := fun f _ => f - (demoDC f).to3D
    DC := demoDC
    averageY := fun f x _ => (f x 1 + f x 2) / 2
    applyBoundary := fun f => f
    exp := fun x => 1 + x + x ^ 2 / 2
    log := fun x => x - 1
    pow := fun f _ => f
    DDX := fun f x y z => (f (x + 1) y z - f (x - 1) y z) / 2
    DDZ := fun f x y z => (f x y (z + 1) - f x y (z - 1)) / 2
    VDDX := fun v f x y z => v x y z * ((f (x + 1) y z - f (x - 1) y z) / 2)
    VDDZ := fun v f x y z => v x y z * ((f x y (z + 1) - f x y (z - 1)) / 2)
    b0xGrad_dot_Grad := fun p f x y z =>
      (p (x + 1) y z - p (x - 1) y z) / 2 * ((f x y (z + 1) - f x y (z - 1)) / 2)
        - (p x y (z + 1) - p x y (z - 1)) / 2 * ((f (x + 1) y z - f (x - 1) y z) / 2)
    alloc := 0 }

/-- A configuration with unit parameters, unit background profiles and every
switch off. -/
def demoCfg : Config :=
  { Ni0 := fun _ _ => 1, Ti0 := fun _ _ => 1, Te0 := fun _ _ => 1,
    fmei := 1, nu_hat := 1, mui_hat := 1, wci := 1, nueix := 1, nuiix := 1,
    beta_p := 1, nuIonNeutral := -1,
    estatic := false, ZeroElMass := false, arakawa := false, bout_exb := false,
    evolve_rho := false, evolve_ni := false, evolve_ajpar := false,
    nonlinear := false, log_density := false,
    filter_z := false, filter_z_mode := 1, phi_flags := 0, apar_flags := 0,
    niprofile := false, evolve_source := false,
    source_response := 1, source_converge := 100, input_source := false }

/-- The state with every field zero. -/
def zeroState : State :=
  { rho := 0, Ni := 0, Ajpar := 0, Sn := 0, phi := 0, Apar := 0, Ve := 0, jpar := 0,
    nu := 0, mu_i := 0, kapa_Te := 0, kapa_Ti := 0, Nit := 0, Tit := 0, Tet := 0,
    pei := 0, pe := 0, ddt_rho := 0, ddt_Ni := 0, ddt_Ajpar := 0, ddt_Sn := 0,
    acoeff := 0, aset := false }

/-- Two sample fields for the Arakawa bracket. -/
def demoF : Field3D := fun x _ z => (x : ℚ) * x + z

def demoP : Field3D := fun x _ z => (x : ℚ) * z

/-- The operators of `demoOps` on memory whose freshly allocated fields hold
1 at every point. -/
def demoOpsStale : Ops := { demoOps with alloc := fun _ _ _ => 1 }

/-- A sample 2D field. -/
def demoF2 : Field2D := fun x _ => (x : ℚ) * x

/-- The field `y`. -/
def demoNi : Field3D := fun _ y _ => (y : ℚ)

end LapdDrift

namespace Gem

/-- A small mesh: 5 x 4 x 4 points with three periodic z points and unit
magnetic field, on a processor holding both radial boundaries. -/
def demoMesh : Mesh :=
  { ngx := 5, ngy := 4, ngz := 4, Bxy := fun _ _ => 1, firstX := true, lastX := true }

/-- Mean over the three periodic z points of `demoMesh`. -/
def demoDC (f : Field3D) : Field2D := fun x y => (f x y 0 + f x y 1 + f x y 2) / 3

/-- Finite-difference stand-ins for the library operators on `demoMesh`
(unit grid spacing): central-difference bracket, five-point `Delp2`,
second difference along y for `Grad2_par2`, central / backward / forward
differences for `Grad_par` / `Grad_par_CtoL` / `Grad_par_LtoC`, gyro-averages
in the zero-gyroradius limit (exact on fields with zero `Delp2`), toroidal
mean over the three z points, y average over the two interior y points, a
low-pass filter that keeps every mode of the three-point z grid for
`n >= 1`, identity halo exchange and boundary condition. The solver returns
`b x^2 / 2` when `a` is omitted and `b / a` otherwise: with the `Delp2` above
these satisfy `Delp2 X + a X = b` exactly when `b` does not depend on x and is
affine in z (and `a` is a non-zero constant). `log` is exact at 1. -/
def demoOps : Ops :=
  { bracket := fun p f x y z =>
      (p (x + 1) y z - p (x - 1) y z) / 2 * ((f x y (z + 1) - f x y (z - 1)) / 2)
        - (p x y (z + 1) - p x y (z - 1)) / 2 * ((f (x + 1) y z - f (x - 1) y z) / 2)
    Delp2 := fun f x y z =>
      (f (x + 1) y z - 2 * f x y z + f (x - 1) y z)
        + (f x y (z + 1) - 2 * f x y z + f x y (z - 1))
    Grad2_par2 := fun f x y z => f x (y + 1) z - 2 * f x y z + f x (y - 1) z
    Grad_par := fun f x y z => (f x (y + 1) z - f x (y - 1) z) / 2
    Grad_par_CtoL := fun f x y z => f x y z - f x (y - 1) z
    Grad_par_LtoC := fun f x y z => f x (y + 1) z - f x y z
    Grad_par2D := fun f x y => (f x (y + 1) - f x (y - 1)) / 2
    gyroPade1 := fun f _ _ => f
    gyroPade2 := fun _ _ _ => 0
    gyroFlagsDefault := 0
    gyroFlagsRHS := 3
    invert_laplace := fun b _ a =>
      match a with
      | none => fun x y z => b x y z * ((x : ℚ) * x / 2)
      | some a => b / a.to3D
    lowPass := fun f n => if n ≥ 1 then f else (demoDC f).to3D
    DC := demoDC
    averageY := fun f x _ => (f x 1 + f x 2) / 2
    applyBoundaryNeumann := fun f => f
    communicate := fun f => f
    log := fun x => x - 1 }

/-- A configuration with unit parameters (`tau_e = mu_e = -1`), unit
equilibrium profiles, no filtering and every equation and term switched off. -/
def demoCfg : Config :=
  { logB := 0, Grad_par_logB := 0,
    Ni0 := fun _ _ => 1, Ne0 := fun _ _ => 1, Ti0 := fun _ _ => 1, Te0 := fun _ _ => 1,
    tau_e := -1, tau_i := 1, mu_e := -1, mu_i := 1, beta_e := 1, rho_e := 1, rho_i := 1,
    adiabatic_electrons := false, small_rho_e := true, include_grad_par_B := false,
    curv_logB := false, Landau := 1, nu_e := 1, nu_i := 1, nu_perp := 1, nu_par := 1,
    fix_profiles := false, jpar_bndry_width := -1, phi_flags := 0, apar_flags := 0,
    low_pass_z := -1,
    ne_ddt := false, ne_ne1 := false, ne_te0 := false, ne_te1 := false, ne_ue := false,
    ne_curv := false,
    apue_ddt := false, apue_uet := false, apue_qe := false, apue_phi := false,
    apue_parP := false, apue_curv := false, apue_gradB := false, apue_Rei := false,
    tepar_ddt := false, teperp_ddt := false, qepar_ddt := false, qeperp_ddt := false,
    ni_ddt := false, ni_ni1 := false, ni_ti0 := false, ni_ti1 := false, ni_ui := false,
    ni_curv := false,
    apui_ddt := false, apui_uit := false, apui_qi := false, apui_phi := false,
    apui_parP := false, apui_curv := false, apui_gradB := false, apui_Rei := false,
    tipar_ddt := false, tiperp_ddt := false, qipar_ddt := false, qiperp_ddt := false }

/-- The record with every quantity zero. -/
def zeroEvolved : Evolved :=
  { Ni := 0, ApUi := 0, Tipar := 0, Tiperp := 0, qipar := 0, qiperp := 0,
    Ne := 0, ApUe := 0, Tepar := 0, Teperp := 0, qepar := 0, qeperp := 0 }

/-- The state with every field zero. -/
def zeroState : State :=
  { ev := zeroEvolved, ddt := zeroEvolved, phi := 0, Apar := 0, Ui := 0, Ue := 0,
    Jpar := 0, phi_G := 0, Phi_G := 0, Rei := 0 }

/-- The field `y^2`, whose second difference along y is 2. -/
def ySquared : Field3D := fun _ y _ => (y : ℚ) * y

/-- The field `y`, whose one-sided differences along y are 1. -/
def yLinear : Field3D := fun _ y _ => (y : ℚ)

/-- The field `z`. -/
def zLinear : Field3D := fun _ _ z => (z : ℚ)

/-- The field that is 1 everywhere. -/
def unitField : Field3D := fun _ _ _ => 1

/-- The exponent of 2 in a rational number: the logarithm to base 2 on the
powers of two, with `log2adic (b^2) = 2 * log2adic b` for every non-zero `b`. -/
def log2adic (b : ℚ) : ℚ := (padicValRat 2 b : ℚ)

/-- The operators of `demoOps` with `log2adic` for the logarithm. -/
def demoOpsLog2 : Ops := { demoOps with log := log2adic }

/-- The mesh `demoMesh` with a magnetic field that is 2 for `x <= 0` and 4
for `x > 0`. -/
def demoMeshB : Mesh := { demoMesh with Bxy := fun x _ => if x ≤ 0 then 2 else 4 }

/-- The configuration left by `physics_init` with every option at its default
(deuterium: `AA = 2`, `ZZ = 1`, so `mu_e = -1/3720`, `tau_e = -1`), unit
equilibrium profiles and the unit magnetic field of `demoMesh`. -/
def steadyCfg : Config :=
  physics_init_config demoOps demoMesh 2 1 (defaultTermFlags (defaultOptions demoCfg))

end Gem

/-! ## Theorems: lapd_drift.cxx -/

namespace LapdDrift

theorem arakawa33_antisymm (mesh : Mesh) (f p : Field3D) (jx jy jz : Int) :
    arakawa33 mesh f p jx jy jz = - arakawa33 mesh p f jx jy jz := by
  simp only [arakawa33]
  ring

/-- C1 (as amended). Antisymmetry of the Arakawa branch of
`vE_Grad(const Field3D &f, const Field3D &p)`: at every point of the loop
nest (interior `jx` in `[xstart, xend]`, interior `jy` in `[ystart, yend]`,
periodic `0 <= jz < ncz`), swapping the two arguments negates the result. -/
theorem vE_Grad33_arakawa_antisymm (ops : Ops) (mesh : Mesh) (cfg : Config)
    (f p : Field3D) (jx jy jz : Int) (harakawa : cfg.arakawa = true)
    (hx : mesh.xstart ≤ jx ∧ jx ≤ mesh.xend) (hy : mesh.ystart ≤ jy ∧ jy ≤ mesh.yend)
    (hz : 0 ≤ jz ∧ jz < mesh.ngz - 1) :
    vE_Grad33 ops mesh cfg f p jx jy jz = - vE_Grad33 ops mesh cfg p f jx jy jz := by
  have hin : inArakawaLoop mesh jx jy jz := ⟨hx.1, hx.2, hy.1, hy.2, hz.1, hz.2⟩
  simp only [vE_Grad33, harakawa, if_true, hin]
  exact arakawa33_antisymm mesh f p jx jy jz

/-- C1 (as amended), at a concrete point: on `demoMesh` with the Arakawa
scheme switched on, the bracket of `demoF` and `demoP` at `[2][1][1]` changes sign when the
arguments are swapped; its value there is 22/3. -/
theorem vE_Grad33_arakawa_antisymm_witness :
    vE_Grad33 demoOps demoMesh { demoCfg with arakawa := true } demoF demoP 2 1 1
      = - vE_Grad33 demoOps demoMesh { demoCfg with arakawa := true } demoP demoF 2 1 1
    ∧ vE_Grad33 demoOps demoMesh { demoCfg with arakawa := true } demoF demoP 2 1 1
      = 22/3 := by
  refine ⟨vE_Grad33_arakawa_antisymm demoOps demoMesh { demoCfg with arakawa := true }
    demoF demoP 2 1 1 rfl (by decide) (by decide) (by decide), ?_⟩
  simp [vE_Grad33, inArakawaLoop, arakawa33, demoMesh, demoCfg, demoF, demoP, Int.tmod]
  norm_num

/-- C1, counterexample: on `demoMesh` (`ystart = 1`) the point `[2][0][1]` has
an interior `jx` and a periodic `jz`, but `jy = 0` is a guard row, which the
loop nest of lines 600-602 does not visit. There the result keeps the
contents of `result.allocate()`: with memory holding 1, `vE_Grad(f, p)` and
`vE_Grad(p, f)` are both 1 at that point, not each other's negative. -/
theorem arakawa_guard_row_not_negated :
    demoMesh.xstart ≤ 2 ∧ 2 ≤ demoMesh.xend ∧ (0 : Int) ≤ 1 ∧ 1 < demoMesh.ngz - 1 ∧
    (0 : Int) < demoMesh.ystart ∧
    vE_Grad33 demoOpsStale demoMesh { demoCfg with arakawa := true } demoF demoP 2 0 1 = 1 ∧
    - vE_Grad33 demoOpsStale demoMesh { demoCfg with arakawa := true } demoP demoF 2 0 1 = -1 ∧
    vE_Grad33 demoOpsStale demoMesh { demoCfg with arakawa := true } demoF demoP 2 0 1
      ≠ - vE_Grad33 demoOpsStale demoMesh { demoCfg with arakawa := true } demoP demoF 2 0 1 := by
  have h1 : vE_Grad33 demoOpsStale demoMesh { demoCfg with arakawa := true } demoF demoP 2 0 1
      = 1 := by
    simp [vE_Grad33, inArakawaLoop, demoMesh, demoOpsStale]
  have h2 : vE_Grad33 demoOpsStale demoMesh { demoCfg with arakawa := true } demoP demoF 2 0 1
      = 1 := by
    simp [vE_Grad33, inArakawaLoop, demoMesh, demoOpsStale]
  refine ⟨by decide, by decide, by decide, by decide, by decide, h1, by rw [h2], ?_⟩
  rw [h1, h2]
  norm_num

/-! ### Disabled equations of `physics_run` -/

theorem zFilter_zero (ops : Ops) (cfg : Config) (hfilter : ∀ n, ops.filter 0 n = 0) :
    zFilter ops cfg 0 = 0 := by
  unfold zFilter
  split_ifs
  · exact hfilter _
  · rfl

theorem physics_run_ddt_disabled (ops : Ops) (mesh : Mesh) (cfg : Config) (s : State)
    (t : ℚ) (hfilter : ∀ n, ops.filter 0 n = 0) :
    (cfg.evolve_rho = false → (physics_run ops mesh cfg s t).ddt_rho = 0) ∧
    (cfg.evolve_ni = false → (physics_run ops mesh cfg s t).ddt_Ni = 0) ∧
    (cfg.evolve_ajpar = false → (physics_run ops mesh cfg s t).ddt_Ajpar = 0) := by
  refine ⟨fun h => ?_, fun h => ?_, fun h => ?_⟩
  · simp [physics_run, residualStage, rhsRho, h, zFilter_zero ops cfg hfilter]
  · simp [physics_run, residualStage, rhsNi, h, zFilter_zero ops cfg hfilter]
  · simp [physics_run, residualStage, rhsAjpar, h, zFilter_zero ops cfg hfilter]

end LapdDrift

/-! ## Theorems: gem.cxx -/

namespace Gem

/-! ### Which globals each stage writes -/

theorem closure_ddt (ops : Ops) (mesh : Mesh) (cfg : Config) (s : State) :
    (closure ops mesh cfg s).ddt = s.ddt := by
  simp only [closure, setRei, communicateComms, setJpar, jparBndry, helmholtz, polarisation,
    adiabaticNe]
  split_ifs <;> rfl

theorem electronPotentials_ddt (ops : Ops) (cfg : Config) (s : State) :
    (electronPotentials ops cfg s).ddt = s.ddt := by
  simp only [electronPotentials]
  split_ifs <;> rfl

theorem electronPotentials_ev (ops : Ops) (cfg : Config) (s : State) :
    (electronPotentials ops cfg s).ev = s.ev := by
  simp only [electronPotentials]
  split_ifs <;> rfl

theorem electronEqs_ddt_get (ops : Ops) (mesh : Mesh) (cfg : Config) (s : State) (v : Var)
    (h : cfg.ddtFlag v = false) :
    (electronEqs ops mesh cfg s).ddt.get v = s.ddt.get v := by
  unfold electronEqs
  cases ha : cfg.adiabatic_electrons
  · cases v <;> simp_all [Evolved.get, Config.ddtFlag, electronPotentials_ddt]
  · simp

theorem ionEqs_ddt_get (ops : Ops) (mesh : Mesh) (cfg : Config) (s : State) (v : Var)
    (h : cfg.ddtFlag v = false) :
    (ionEqs ops mesh cfg s).ddt.get v = s.ddt.get v := by
  unfold ionEqs
  cases v <;> simp_all [Evolved.get, Config.ddtFlag, ionPotentials]

theorem physics_run_ddt_get (ops : Ops) (mesh : Mesh) (cfg : Config) (s : State) (v : Var)
    (h : cfg.ddtFlag v = false) :
    (physics_run ops mesh cfg s).ddt.get v = s.ddt.get v := by
  unfold physics_run
  rw [ionEqs_ddt_get ops mesh cfg _ v h, electronEqs_ddt_get ops mesh cfg _ v h, closure_ddt]

theorem communicateComms_ddt (ops : Ops) (cfg : Config) (s : State) :
    (communicateComms ops cfg s).ddt = s.ddt := rfl

theorem dissipationElectrons_ddt_get (ops : Ops) (mesh : Mesh) (cfg : Config) (s : State)
    (v : Var) (h : cfg.ddtFlag v = false) :
    (dissipationElectrons ops mesh cfg s).ddt.get v = s.ddt.get v := by
  unfold dissipationElectrons
  cases ha : cfg.adiabatic_electrons
  · cases v <;> simp_all [Evolved.get, Config.ddtFlag, electronPotentials_ddt]
  · simp

theorem dissipationIons_ddt_get (ops : Ops) (mesh : Mesh) (cfg : Config) (s : State)
    (v : Var) (h : cfg.ddtFlag v = false) :
    (dissipationIons ops mesh cfg s).ddt.get v = s.ddt.get v := by
  unfold dissipationIons
  cases v <;> simp_all [Evolved.get, Config.ddtFlag]

theorem physics_dissipation_ddt_get (ops : Ops) (mesh : Mesh) (cfg : Config) (s : State)
    (v : Var) (h : cfg.ddtFlag v = false) :
    (physics_dissipation ops mesh cfg s).ddt.get v = s.ddt.get v := by
  unfold physics_dissipation
  rw [dissipationIons_ddt_get ops mesh cfg _ v h,
    dissipationElectrons_ddt_get ops mesh cfg _ v h, communicateComms_ddt]

end Gem

namespace Gem

/-! ### C2: the dissipation step and the term flags -/

/-- C2 (as amended). `physics_dissipation` does not read the term flags
`ne_te0, ne_te1, ne_ue, ne_curv, apue_qe, apue_phi, apue_parP, apue_curv,
apue_gradB, apue_Rei` nor their ion counterparts: two configurations that
differ only in these twenty flags leave the same state behind. -/
theorem physics_dissipation_term_flags (ops : Ops) (mesh : Mesh) (cfg : Config) (s : State)
    (e1 e2 e3 e4 e5 e6 e7 e8 e9 e10 i1 i2 i3 i4 i5 i6 i7 i8 i9 i10 : Bool) :
    physics_dissipation ops mesh
      { cfg with ne_te0 := e1, ne_te1 := e2, ne_ue := e3, ne_curv := e4, apue_qe := e5,
                 apue_phi := e6, apue_parP := e7, apue_curv := e8, apue_gradB := e9,
                 apue_Rei := e10, ni_ti0 := i1, ni_ti1 := i2, ni_ui := i3, ni_curv := i4,
                 apui_qi := i5, apui_phi := i6, apui_parP := i7, apui_curv := i8,
                 apui_gradB := i9, apui_Rei := i10 } s
      = physics_dissipation ops mesh cfg s := by
  rfl

end Gem

namespace Gem

/-- C2, counterexample: with the electron density equation enabled and
`Ne = y^2`, switching the term flag `ne_ne1` changes the time derivative
`ddt(Ne)` written by `physics_dissipation` at `[0][0][0]` from 2 to 0; the
two configurations differ in `ne_ne1` only. -/
theorem physics_dissipation_depends_on_ne_ne1 :
    (physics_dissipation demoOps demoMesh { demoCfg with ne_ddt := true, ne_ne1 := true }
        { zeroState with ev := { zeroEvolved with Ne := ySquared } }).ddt.Ne 0 0 0 = 2
    ∧ (physics_dissipation demoOps demoMesh { demoCfg with ne_ddt := true, ne_ne1 := false }
        { zeroState with ev := { zeroEvolved with Ne := ySquared } }).ddt.Ne 0 0 0 = 0 := by
  constructor
  · simp [physics_dissipation, dissipationIons, dissipationElectrons, communicateComms,
      electronPotentials, UE_Grad_D, commIf, demoOps, demoMesh, demoCfg, zeroState,
      zeroEvolved, ySquared, Config.solved, Config.ddtFlag, Var.isElectron, Field2D.to3D]
    norm_num
  · simp [physics_dissipation, dissipationIons, dissipationElectrons, communicateComms,
      electronPotentials, UE_Grad_D, commIf, demoOps, demoMesh, demoCfg, zeroState,
      zeroEvolved, ySquared, Config.solved, Config.ddtFlag, Var.isElectron, Field2D.to3D]

/-! ### C7: what the dissipation step reads -/

theorem electronPotentials_Ui (ops : Ops) (cfg : Config) (s : State) :
    (electronPotentials ops cfg s).Ui = s.Ui := by
  simp only [electronPotentials]
  split_ifs <;> rfl

theorem electronPotentials_Ue (ops : Ops) (cfg : Config) (s : State) :
    (electronPotentials ops cfg s).Ue = s.Ue := by
  simp only [electronPotentials]
  split_ifs <;> rfl

/-- C7 (as amended). Two calls of `physics_dissipation` with the same
configuration, the same evolving quantities and the same velocities `Ui`,
`Ue` write the same time derivative for every registered quantity, whatever
`phi, Apar, Jpar, phi_G, Phi_G, Rei` and the time derivatives held before. -/
theorem physics_dissipation_stateless (ops : Ops) (mesh : Mesh) (cfg : Config)
    (s1 s2 : State) (v : Var) (hev : s1.ev = s2.ev) (hUi : s1.Ui = s2.Ui)
    (hUe : s1.Ue = s2.Ue) (hv : cfg.solved v = true) :
    (physics_dissipation ops mesh cfg s1).ddt.get v
      = (physics_dissipation ops mesh cfg s2).ddt.get v := by
  obtain ⟨ev1, ddt1, phi1, Apar1, Ui1, Ue1, J1, pG1, PG1, R1⟩ := s1
  obtain ⟨ev2, ddt2, phi2, Apar2, Ui2, Ue2, J2, pG2, PG2, R2⟩ := s2
  simp only at hev hUi hUe
  subst hev hUi hUe
  cases ha : cfg.adiabatic_electrons <;> cases v <;>
    simp [Config.solved, Config.ddtFlag, Var.isElectron, ha] at hv <;>
    simp [physics_dissipation, dissipationIons, dissipationElectrons, communicateComms,
      electronPotentials_ev, electronPotentials_Ui, electronPotentials_Ue, UE_Grad_D,
      Evolved.get, hv, ha]

/-- C7 (as amended), at a concrete input: with the ion momentum equation
enabled and `Ui = y^2` in both states, the states with zero and with
non-zero `phi, Apar, Jpar` get the same `ddt(ApUi)`. -/
theorem physics_dissipation_stateless_witness :
    (physics_dissipation demoOps demoMesh { demoCfg with apui_ddt := true, apui_uit := true }
        { zeroState with Ui := ySquared }).ddt.get Var.ApUi
      = (physics_dissipation demoOps demoMesh
          { demoCfg with apui_ddt := true, apui_uit := true }
          { zeroState with Ui := ySquared, phi := zLinear, Apar := yLinear,
                           Jpar := ySquared }).ddt.get Var.ApUi :=
  physics_dissipation_stateless demoOps demoMesh
    { demoCfg with apui_ddt := true, apui_uit := true }
    { zeroState with Ui := ySquared }
    { zeroState with Ui := ySquared, phi := zLinear, Apar := yLinear, Jpar := ySquared }
    Var.ApUi rfl rfl rfl rfl

/-- C7, counterexample: two states with the same (zero) evolving quantities
that differ in the derived velocity `Ui` (0 and `y^2`) get different
`ddt(ApUi)` from `physics_dissipation`: 0 and 2 at `[0][0][0]`. -/
theorem physics_dissipation_reads_stale_Ui :
    (physics_dissipation demoOps demoMesh { demoCfg with apui_ddt := true, apui_uit := true }
        zeroState).ddt.ApUi 0 0 0 = 0
    ∧ (physics_dissipation demoOps demoMesh
        { demoCfg with apui_ddt := true, apui_uit := true }
        { zeroState with Ui := ySquared }).ddt.ApUi 0 0 0 = 2
    ∧ ({ zeroState with Ui := ySquared } : State).ev = zeroState.ev := by
  refine ⟨?_, ?_, rfl⟩
  · simp [physics_dissipation, dissipationIons, dissipationElectrons, communicateComms,
      electronPotentials, UE_Grad_D, commIf, demoOps, demoMesh, demoCfg, zeroState,
      zeroEvolved, ySquared, Config.solved, Config.ddtFlag, Var.isElectron, Field2D.to3D]
  · simp [physics_dissipation, dissipationIons, dissipationElectrons, communicateComms,
      electronPotentials, UE_Grad_D, commIf, demoOps, demoMesh, demoCfg, zeroState,
      zeroEvolved, ySquared, Config.solved, Config.ddtFlag, Var.isElectron, Field2D.to3D]
    norm_num

end Gem

namespace Bout

/-! ### C5: disabled equations -/

/-- C5. Disabled-field invariant. In `lapd_drift`, when the z filter maps the
zero field to zero, `physics_run` leaves `ddt(rho)`, `ddt(Ni)`, `ddt(Ajpar)`
zero whenever `evolve_rho`, `evolve_ni`, `evolve_ajpar` is off. In `gem`, a
quantity whose `*_ddt` flag is off and whose time derivative is zero before
the call has a zero time derivative after `physics_run` and after
`physics_dissipation`. -/
theorem disabled_field_invariant
    (lops : LapdDrift.Ops) (lmesh : LapdDrift.Mesh) (lcfg : LapdDrift.Config)
    (ls : LapdDrift.State) (t : ℚ)
    (gops : Gem.Ops) (gmesh : Gem.Mesh) (gcfg : Gem.Config) (gs : Gem.State) (v : Gem.Var)
    (hfilter : ∀ n, lops.filter 0 n = 0)
    (hflag : gcfg.ddtFlag v = false) (hzero : gs.ddt.get v = 0) :
    ((lcfg.evolve_rho = false → (LapdDrift.physics_run lops lmesh lcfg ls t).ddt_rho = 0) ∧
     (lcfg.evolve_ni = false → (LapdDrift.physics_run lops lmesh lcfg ls t).ddt_Ni = 0) ∧
     (lcfg.evolve_ajpar = false →
        (LapdDrift.physics_run lops lmesh lcfg ls t).ddt_Ajpar = 0)) ∧
    (Gem.physics_run gops gmesh gcfg gs).ddt.get v = 0 ∧
    (Gem.physics_dissipation gops gmesh gcfg gs).ddt.get v = 0 := by
  refine ⟨LapdDrift.physics_run_ddt_disabled lops lmesh lcfg ls t hfilter, ?_, ?_⟩
  · rw [Gem.physics_run_ddt_get gops gmesh gcfg gs v hflag, hzero]
  · rw [Gem.physics_dissipation_ddt_get gops gmesh gcfg gs v hflag, hzero]

end Bout
namespace Bout

/-- C5, at concrete inputs: `lapd_drift` with every `evolve_*` flag off and
the z filter on, and `gem` with the ion density equation off. -/
theorem disabled_field_invariant_witness :
    (LapdDrift.physics_run LapdDrift.demoOps LapdDrift.demoMesh
        { LapdDrift.demoCfg with filter_z := true }
        { LapdDrift.zeroState with rho := LapdDrift.demoF, ddt_rho := LapdDrift.demoP }
        0).ddt_rho = 0 ∧
    (Gem.physics_run Gem.demoOps Gem.demoMesh { Gem.demoCfg with apui_ddt := true }
        { Gem.zeroState with ev := { Gem.zeroEvolved with Ni := Gem.ySquared } }).ddt.get
      Gem.Var.Ni = 0 ∧
    (Gem.physics_dissipation Gem.demoOps Gem.demoMesh { Gem.demoCfg with apui_ddt := true }
        { Gem.zeroState with ev := { Gem.zeroEvolved with Ni := Gem.ySquared } }).ddt.get
      Gem.Var.Ni = 0 :=
  have h := disabled_field_invariant LapdDrift.demoOps LapdDrift.demoMesh
    { LapdDrift.demoCfg with filter_z := true }
    { LapdDrift.zeroState with rho := LapdDrift.demoF, ddt_rho := LapdDrift.demoP } 0
    Gem.demoOps Gem.demoMesh { Gem.demoCfg with apui_ddt := true }
    { Gem.zeroState with ev := { Gem.zeroEvolved with Ni := Gem.ySquared } } Gem.Var.Ni
    (by intro n; funext x y z; simp [LapdDrift.demoOps, LapdDrift.demoDC, Field2D.to3D])
    rfl rfl
  ⟨h.1.1 rfl, h.2.1, h.2.2⟩

end Bout

namespace Gem

/-! ### C8: the closure -/

theorem electronEqs_frame (ops : Ops) (mesh : Mesh) (cfg : Config) (s : State) :
    (electronEqs ops mesh cfg s).ev = s.ev ∧ (electronEqs ops mesh cfg s).phi = s.phi ∧
    (electronEqs ops mesh cfg s).Apar = s.Apar ∧ (electronEqs ops mesh cfg s).Ui = s.Ui ∧
    (electronEqs ops mesh cfg s).Ue = s.Ue ∧ (electronEqs ops mesh cfg s).Jpar = s.Jpar := by
  unfold electronEqs electronPotentials
  cases cfg.adiabatic_electrons <;> cases cfg.small_rho_e <;> simp

theorem ionEqs_frame (ops : Ops) (mesh : Mesh) (cfg : Config) (s : State) :
    (ionEqs ops mesh cfg s).ev = s.ev ∧ (ionEqs ops mesh cfg s).phi = s.phi ∧
    (ionEqs ops mesh cfg s).Apar = s.Apar ∧ (ionEqs ops mesh cfg s).Ui = s.Ui ∧
    (ionEqs ops mesh cfg s).Ue = s.Ue ∧ (ionEqs ops mesh cfg s).Jpar = s.Jpar := by
  unfold ionEqs ionPotentials
  simp

theorem physics_run_frame (ops : Ops) (mesh : Mesh) (cfg : Config) (s : State) :
    (physics_run ops mesh cfg s).ev = (closure ops mesh cfg s).ev ∧
    (physics_run ops mesh cfg s).phi = (closure ops mesh cfg s).phi ∧
    (physics_run ops mesh cfg s).Apar = (closure ops mesh cfg s).Apar ∧
    (physics_run ops mesh cfg s).Ui = (closure ops mesh cfg s).Ui ∧
    (physics_run ops mesh cfg s).Ue = (closure ops mesh cfg s).Ue ∧
    (physics_run ops mesh cfg s).Jpar = (closure ops mesh cfg s).Jpar := by
  unfold physics_run
  obtain ⟨h1, h2, h3, h4, h5, h6⟩ := ionEqs_frame ops mesh cfg
    (electronEqs ops mesh cfg (closure ops mesh cfg s))
  obtain ⟨g1, g2, g3, g4, g5, g6⟩ := electronEqs_frame ops mesh cfg (closure ops mesh cfg s)
  exact ⟨h1.trans g1, h2.trans g2, h3.trans g3, h4.trans g4, h5.trans g5, h6.trans g6⟩

theorem closure_deterministic (ops : Ops) (mesh : Mesh) (cfg : Config) (s1 s2 : State)
    (hev : s1.ev = s2.ev) (hphi : cfg.adiabatic_electrons = true → s1.phi = s2.phi) :
    (closure ops mesh cfg s1).ev = (closure ops mesh cfg s2).ev ∧
    (closure ops mesh cfg s1).phi = (closure ops mesh cfg s2).phi ∧
    (closure ops mesh cfg s1).Apar = (closure ops mesh cfg s2).Apar ∧
    (closure ops mesh cfg s1).Ui = (closure ops mesh cfg s2).Ui ∧
    (closure ops mesh cfg s1).Ue = (closure ops mesh cfg s2).Ue ∧
    (closure ops mesh cfg s1).Jpar = (closure ops mesh cfg s2).Jpar := by
  obtain ⟨ev1, ddt1, phi1, Apar1, Ui1, Ue1, J1, pG1, PG1, R1⟩ := s1
  obtain ⟨ev2, ddt2, phi2, Apar2, Ui2, Ue2, J2, pG2, PG2, R2⟩ := s2
  simp only at hev hphi
  subst hev
  cases ha : cfg.adiabatic_electrons
  · cases hs : cfg.small_rho_e <;> by_cases hw : cfg.jpar_bndry_width > 0 <;>
      simp [closure, setRei, communicateComms, setJpar, jparBndry, helmholtz, polarisation,
        polarisation_dn, adiabaticNe, ha, hs, hw]
  · have hp := hphi ha
    subst hp
    cases hs : cfg.small_rho_e <;> by_cases hw : cfg.jpar_bndry_width > 0 <;>
      simp [closure, setRei, communicateComms, setJpar, jparBndry, helmholtz, polarisation,
        polarisation_dn, adiabaticNe, ha, hs, hw]

end Gem

namespace Gem

/-- C8 (as amended). For `physics_run`, two states with the same evolving
quantities (and, when `adiabatic_electrons` is set, the same `phi` before
the call) get the same derived fields `phi, Apar, Ui, Ue, Jpar`, whatever the
other derived fields held before. -/
theorem physics_run_closure_deterministic (ops : Ops) (mesh : Mesh) (cfg : Config)
    (s1 s2 : State) (hev : s1.ev = s2.ev)
    (hphi : cfg.adiabatic_electrons = true → s1.phi = s2.phi) :
    (physics_run ops mesh cfg s1).phi = (physics_run ops mesh cfg s2).phi ∧
    (physics_run ops mesh cfg s1).Apar = (physics_run ops mesh cfg s2).Apar ∧
    (physics_run ops mesh cfg s1).Ui = (physics_run ops mesh cfg s2).Ui ∧
    (physics_run ops mesh cfg s1).Ue = (physics_run ops mesh cfg s2).Ue ∧
    (physics_run ops mesh cfg s1).Jpar = (physics_run ops mesh cfg s2).Jpar := by
  obtain ⟨_, h2, h3, h4, h5, h6⟩ := physics_run_frame ops mesh cfg s1
  obtain ⟨_, g2, g3, g4, g5, g6⟩ := physics_run_frame ops mesh cfg s2
  obtain ⟨_, c2, c3, c4, c5, c6⟩ := closure_deterministic ops mesh cfg s1 s2 hev hphi
  rw [h2, h3, h4, h5, h6, g2, g3, g4, g5, g6]
  exact ⟨c2, c3, c4, c5, c6⟩

/-- C8 (as amended), at a concrete input: without adiabatic electrons, the
states with `ApUi = y` and zero resp. non-zero prior `phi, Apar, Ui` get the
same derived fields. -/
theorem physics_run_closure_deterministic_witness :
    (physics_run demoOps demoMesh demoCfg
        { zeroState with ev := { zeroEvolved with ApUi := yLinear } }).phi
      = (physics_run demoOps demoMesh demoCfg
        { zeroState with ev := { zeroEvolved with ApUi := yLinear },
                         phi := zLinear, Apar := ySquared, Ui := zLinear }).phi ∧
    (physics_run demoOps demoMesh demoCfg
        { zeroState with ev := { zeroEvolved with ApUi := yLinear } }).Ui
      = (physics_run demoOps demoMesh demoCfg
        { zeroState with ev := { zeroEvolved with ApUi := yLinear },
                         phi := zLinear, Apar := ySquared, Ui := zLinear }).Ui :=
  have h := physics_run_closure_deterministic demoOps demoMesh demoCfg
    { zeroState with ev := { zeroEvolved with ApUi := yLinear } }
    { zeroState with ev := { zeroEvolved with ApUi := yLinear },
                     phi := zLinear, Apar := ySquared, Ui := zLinear }
    rfl (fun h => Bool.noConfusion h)
  ⟨h.1, h.2.2.1⟩

/-- C8, counterexample: with `adiabatic_electrons = true`, two states with the
same (zero) evolving quantities whose prior `phi` differs (0 and `z`) get a
different `phi` from `physics_run`: 0 and 1 at `[0][0][0]`. -/
theorem physics_run_adiabatic_reads_stale_phi :
    (physics_run demoOps demoMesh { demoCfg with adiabatic_electrons := true }
        zeroState).phi 0 0 0 = 0
    ∧ (physics_run demoOps demoMesh { demoCfg with adiabatic_electrons := true }
        { zeroState with phi := zLinear }).phi 0 0 0 = 1
    ∧ ({ zeroState with phi := zLinear } : State).ev = zeroState.ev := by
  refine ⟨?_, ?_, rfl⟩
  · rw [(physics_run_frame _ _ _ _).2.1]
    simp [closure, setRei, communicateComms, setJpar, jparBndry, helmholtz, polarisation,
      polarisation_dn, adiabaticNe, demoOps, demoMesh, demoCfg, zeroState, zeroEvolved,
      demoDC, Field2D.to3D, divS]
  · rw [(physics_run_frame _ _ _ _).2.1]
    simp [closure, setRei, communicateComms, setJpar, jparBndry, helmholtz, polarisation,
      polarisation_dn, adiabaticNe, demoOps, demoMesh, demoCfg, zeroState, zeroEvolved,
      demoDC, Field2D.to3D, divS, zLinear]
    norm_num

end Gem
namespace Gem

/-! ### C3: the density equations -/

theorem postProcess_off (ops : Ops) (cfg : Config) (R : Field3D)
    (hlow : cfg.low_pass_z ≤ 0) (hfix : cfg.fix_profiles = false) :
    postProcess ops cfg R = R := by
  simp [postProcess, not_lt.mpr hlow, hfix]

/-- C3 (as amended). In `physics_run` without low-pass filtering and profile
fixing, with the density equation enabled, its terms `ni_ni1, ni_ti0, ni_ti1,
ni_curv` off and `ni_ui` on, the residual is
`ddt(Ni) = -UE_Grad(Ni0, phi_G) - Div_parP_LtoC(Ui)`: the background
advection term has no flag and carries the dependence on `phi`, and the
parallel divergence enters with a minus sign. Likewise, without adiabatic
electrons, `ddt(Ne) = -UE_Grad(Ne0, phi_G) - Div_parP_LtoC(Ue)` with the
electron gyro-reduced potential. -/
theorem density_residual (ops : Ops) (mesh : Mesh) (cfg : Config) (s : State)
    (hlow : cfg.low_pass_z ≤ 0) (hfix : cfg.fix_profiles = false) :
    (cfg.ni_ddt = true → cfg.ni_ni1 = false → cfg.ni_ti0 = false → cfg.ni_ti1 = false →
      cfg.ni_curv = false → cfg.ni_ui = true →
      (physics_run ops mesh cfg s).ddt.Ni
        = - UE_Grad ops cfg.Ni0.to3D (physics_run ops mesh cfg s).phi_G
          - Div_parP_LtoC ops mesh cfg (physics_run ops mesh cfg s)
              (physics_run ops mesh cfg s).Ui) ∧
    (cfg.adiabatic_electrons = false → cfg.ne_ddt = true → cfg.ne_ne1 = false →
      cfg.ne_te0 = false → cfg.ne_te1 = false → cfg.ne_curv = false → cfg.ne_ue = true →
      (physics_run ops mesh cfg s).ddt.Ne
        = - UE_Grad ops cfg.Ne0.to3D
              (electronPotentials ops cfg (physics_run ops mesh cfg s)).phi_G
          - Div_parP_LtoC ops mesh cfg (physics_run ops mesh cfg s)
              (physics_run ops mesh cfg s).Ue) := by
  constructor
  · intro h1 h2 h3 h4 h5 h6
    simp [physics_run, ionEqs, rhsNi, postProcess_off ops cfg _ hlow hfix, h1, h2, h3, h4, h5,
      h6, Div_parP_LtoC, Grad_parP_LtoC, ionPotentials]
  · intro ha h1 h2 h3 h4 h5 h6
    cases hs : cfg.small_rho_e <;>
    simp [physics_run, ionEqs, electronEqs, rhsNe, postProcess_off ops cfg _ hlow hfix, ha,
      h1, h2, h3, h4, h5, h6, Div_parP_LtoC, Grad_parP_LtoC, ionPotentials,
      electronPotentials, hs]
/-- C3 (as amended), at a concrete input: ion and electron density equations
with only the parallel-divergence term switched on, ion momentum equation
enabled, `ApUi = y`. -/
theorem density_residual_witness :
    (physics_run demoOps demoMesh
        { demoCfg with ni_ddt := true, ni_ui := true, ne_ddt := true, ne_ue := true,
                       apui_ddt := true }
        { zeroState with ev := { zeroEvolved with ApUi := yLinear } }).ddt.Ni
      = - UE_Grad demoOps demoCfg.Ni0.to3D
            (physics_run demoOps demoMesh
              { demoCfg with ni_ddt := true, ni_ui := true, ne_ddt := true, ne_ue := true,
                             apui_ddt := true }
              { zeroState with ev := { zeroEvolved with ApUi := yLinear } }).phi_G
        - Div_parP_LtoC demoOps demoMesh
            { demoCfg with ni_ddt := true, ni_ui := true, ne_ddt := true, ne_ue := true,
                           apui_ddt := true }
            (physics_run demoOps demoMesh
              { demoCfg with ni_ddt := true, ni_ui := true, ne_ddt := true, ne_ue := true,
                             apui_ddt := true }
              { zeroState with ev := { zeroEvolved with ApUi := yLinear } })
            (physics_run demoOps demoMesh
              { demoCfg with ni_ddt := true, ni_ui := true, ne_ddt := true, ne_ue := true,
                             apui_ddt := true }
              { zeroState with ev := { zeroEvolved with ApUi := yLinear } }).Ui :=
  (density_residual demoOps demoMesh
    { demoCfg with ni_ddt := true, ni_ui := true, ne_ddt := true, ne_ue := true,
                   apui_ddt := true }
    { zeroState with ev := { zeroEvolved with ApUi := yLinear } }
    (by decide) rfl).1 rfl rfl rfl rfl rfl rfl

/-- C3, counterexample: ion density equation enabled with only `ni_ui` on,
ion momentum and electron density equations enabled (no terms), no
filtering, `Ni0 = Ne0 = x`, `ApUi = y`; `physics_init` leaves both states as
they are. With `Ne = 0` (so `phi = 0`) the residual `ddt(Ni)` at `[0][0][0]`
is -1/2 while `Div_parP_LtoC(Ui)` is 1/2; with `Ne = z` (a different `phi`,
the same `Ui`) the residual is -3/2. -/
theorem ddt_Ni_differs_from_div_parP :
    ((physics_init
        { demoCfg with ni_ddt := true, ni_ui := true, apui_ddt := true, ne_ddt := true,
                       Ni0 := fun x _ => x, Ne0 := fun x _ => x }
        { zeroState with ev := { zeroEvolved with ApUi := yLinear } }).state
      = { zeroState with ev := { zeroEvolved with ApUi := yLinear } }
    ∧ (physics_init
        { demoCfg with ni_ddt := true, ni_ui := true, apui_ddt := true, ne_ddt := true,
                       Ni0 := fun x _ => x, Ne0 := fun x _ => x }
        { zeroState with ev := { zeroEvolved with ApUi := yLinear, Ne := zLinear } }).state
      = { zeroState with ev := { zeroEvolved with ApUi := yLinear, Ne := zLinear } })
    ∧ (physics_run demoOps demoMesh
        { demoCfg with ni_ddt := true, ni_ui := true, apui_ddt := true, ne_ddt := true,
                       Ni0 := fun x _ => x, Ne0 := fun x _ => x }
        { zeroState with ev := { zeroEvolved with ApUi := yLinear } }).ddt.Ni 0 0 0 = -(1/2)
    ∧ Div_parP_LtoC demoOps demoMesh
        { demoCfg with ni_ddt := true, ni_ui := true, apui_ddt := true, ne_ddt := true,
                       Ni0 := fun x _ => x, Ne0 := fun x _ => x }
        (physics_run demoOps demoMesh
          { demoCfg with ni_ddt := true, ni_ui := true, apui_ddt := true, ne_ddt := true,
                         Ni0 := fun x _ => x, Ne0 := fun x _ => x }
          { zeroState with ev := { zeroEvolved with ApUi := yLinear } })
        (physics_run demoOps demoMesh
          { demoCfg with ni_ddt := true, ni_ui := true, apui_ddt := true, ne_ddt := true,
                         Ni0 := fun x _ => x, Ne0 := fun x _ => x }
          { zeroState with ev := { zeroEvolved with ApUi := yLinear } }).Ui 0 0 0 = 1/2
    ∧ (physics_run demoOps demoMesh
        { demoCfg with ni_ddt := true, ni_ui := true, apui_ddt := true, ne_ddt := true,
                       Ni0 := fun x _ => x, Ne0 := fun x _ => x }
        { zeroState with ev := { zeroEvolved with ApUi := yLinear, Ne := zLinear } }).ddt.Ni
          0 0 0 = -(3/2) := by
  refine ⟨⟨rfl, rfl⟩, ?_, ?_, ?_⟩
  · simp [physics_run, ionEqs, electronEqs, rhsNi, postProcess, ionPotentials,
      electronPotentials, closure, setRei, communicateComms, setJpar, jparBndry, helmholtz,
      polarisation, polarisation_dn, adiabaticNe, Div_parP_LtoC, Grad_parP_LtoC, UE_Grad,
      commIf, demoOps, demoMesh, demoCfg, zeroState, zeroEvolved, yLinear, Field2D.to3D, divS]
    norm_num
  · simp [physics_run, ionEqs, electronEqs, rhsNi, postProcess, ionPotentials,
      electronPotentials, closure, setRei, communicateComms, setJpar, jparBndry, helmholtz,
      polarisation, polarisation_dn, adiabaticNe, Div_parP_LtoC, Grad_parP_LtoC, UE_Grad,
      commIf, demoOps, demoMesh, demoCfg, zeroState, zeroEvolved, yLinear, Field2D.to3D, divS]
    norm_num
  · simp [physics_run, ionEqs, electronEqs, rhsNi, postProcess, ionPotentials,
      electronPotentials, closure, setRei, communicateComms, setJpar, jparBndry, helmholtz,
      polarisation, polarisation_dn, adiabaticNe, Div_parP_LtoC, Grad_parP_LtoC, UE_Grad,
      commIf, demoOps, demoMesh, demoCfg, zeroState, zeroEvolved, yLinear, zLinear,
      Field2D.to3D, divS]
    norm_num

/-! ### C4: the ion momentum equation -/

/-- C4, evaluation at the failing input: ion density and ion momentum
equations enabled, `apui_parP = true`, `apue_parP = false` and `Ni = y`
(a state `physics_init` leaves as it is). The pressure-gradient term
`tau_i*Grad_parP_CtoL(Ni0 + Ti0 + Ni + Tipar)` is 1 at `[0][0][0]`, yet
`ddt(ApUi)` is 0 there: the term is not subtracted. It is subtracted (giving
-1) once the electron flag `apue_parP` is set, also with `apui_parP` off. -/
theorem ion_parP_guarded_by_electron_flag :
    (physics_init { demoCfg with ni_ddt := true, apui_ddt := true, apui_parP := true }
        { zeroState with ev := { zeroEvolved with Ni := yLinear } }).state
      = { zeroState with ev := { zeroEvolved with Ni := yLinear } }
    ∧ (physics_run demoOps demoMesh
        { demoCfg with ni_ddt := true, apui_ddt := true, apui_parP := true }
        { zeroState with ev := { zeroEvolved with Ni := yLinear } }).ddt.ApUi 0 0 0 = 0
    ∧ (demoCfg.tau_i • Grad_parP_CtoL demoOps
          { demoCfg with ni_ddt := true, apui_ddt := true, apui_parP := true }
          (physics_run demoOps demoMesh
            { demoCfg with ni_ddt := true, apui_ddt := true, apui_parP := true }
            { zeroState with ev := { zeroEvolved with Ni := yLinear } })
          (demoCfg.Ni0.to3D + demoCfg.Ti0.to3D + yLinear + 0)) 0 0 0 = 1
    ∧ (physics_run demoOps demoMesh
        { demoCfg with ni_ddt := true, apui_ddt := true, apui_parP := false,
                       apue_parP := true }
        { zeroState with ev := { zeroEvolved with Ni := yLinear } }).ddt.ApUi 0 0 0 = -1 := by
  refine ⟨rfl, ?_, ?_, ?_⟩
  · simp [physics_run, ionEqs, electronEqs, rhsApUi, postProcess, ionPotentials,
      electronPotentials, closure, setRei, communicateComms, setJpar, jparBndry, helmholtz,
      polarisation, polarisation_dn, adiabaticNe, Grad_parP_CtoL, UE_Grad,
      commIf, demoOps, demoMesh, demoCfg, zeroState, zeroEvolved, yLinear, Field2D.to3D, divS]
  · simp [physics_run, ionEqs, electronEqs, rhsApUi, postProcess, ionPotentials,
      electronPotentials, closure, setRei, communicateComms, setJpar, jparBndry, helmholtz,
      polarisation, polarisation_dn, adiabaticNe, Grad_parP_CtoL, UE_Grad,
      commIf, demoOps, demoMesh, demoCfg, zeroState, zeroEvolved, yLinear, Field2D.to3D, divS]
  · simp [physics_run, ionEqs, electronEqs, rhsApUi, postProcess, ionPotentials,
      electronPotentials, closure, setRei, communicateComms, setJpar, jparBndry, helmholtz,
      polarisation, polarisation_dn, adiabaticNe, Grad_parP_CtoL, UE_Grad,
      commIf, demoOps, demoMesh, demoCfg, zeroState, zeroEvolved, yLinear, Field2D.to3D, divS]

end Gem

namespace LapdDrift

/-! ### C9, C6: what `physics_run` of lapd_drift changes -/

theorem derivedStage_ddt (ops : Ops) (cfg : Config) (s : State) (a c d : Field3D)
    (b : Field2D) :
    derivedStage ops cfg { s with ddt_Ni := a, ddt_Sn := b, ddt_rho := c, ddt_Ajpar := d }
      = { derivedStage ops cfg s with ddt_Ni := a, ddt_Sn := b, ddt_rho := c, ddt_Ajpar := d } := by
  unfold derivedStage ohmsLaw updateCoefficients updateProfiles communicateComms invertApar
    invertPhi convertDensity
  cases cfg.log_density <;> cases cfg.nonlinear <;> cases cfg.estatic <;>
    cases cfg.ZeroElMass <;> rfl

theorem derivedStage_frame (ops : Ops) (cfg : Config) (s : State) :
    (derivedStage ops cfg s).rho = (if cfg.evolve_rho then ops.communicate s.rho else s.rho) ∧
    (cfg.log_density = false →
      (derivedStage ops cfg s).Ni = (if cfg.evolve_ni then ops.communicate s.Ni else s.Ni)) ∧
    (cfg.ZeroElMass = false →
      (derivedStage ops cfg s).Ajpar
        = (if cfg.evolve_ajpar then ops.communicate s.Ajpar else s.Ajpar)) := by
  unfold derivedStage ohmsLaw updateCoefficients updateProfiles communicateComms invertApar
    invertPhi convertDensity
  cases cfg.log_density <;> cases cfg.nonlinear <;> cases cfg.estatic <;>
    cases cfg.ZeroElMass <;> simp

theorem derivedStage_idempotent (ops : Ops) (cfg : Config) (s : State)
    (hcomm : ∀ f, ops.communicate f = f) (hlog : cfg.log_density = false) :
    derivedStage ops cfg (derivedStage ops cfg s) = derivedStage ops cfg s := by
  obtain ⟨rho, Ni, Ajpar, Sn, phi, Apar, Ve, jpar, nu, mu_i, kTe, kTi, Nit, Tit, Tet, pei, pe,
    drho, dNi, dAj, dSn, acoeff, aset⟩ := s
  unfold derivedStage ohmsLaw updateCoefficients updateProfiles communicateComms invertApar
    invertPhi convertDensity
  cases hn : cfg.nonlinear <;> cases he : cfg.estatic <;>
    cases hz : cfg.ZeroElMass <;> cases aset <;> simp [hcomm, hlog]

theorem rhsSn_residualStage (ops : Ops) (mesh : Mesh) (cfg : Config) (t : ℚ) (s : State) :
    rhsSn ops cfg t (residualStage ops mesh cfg t s) = rhsSn ops cfg t s := by
  unfold rhsSn residualStage
  simp only
  unfold rhsSn
  split_ifs <;> rfl

theorem residualStage_idempotent (ops : Ops) (mesh : Mesh) (cfg : Config) (t : ℚ)
    (s : State) :
    residualStage ops mesh cfg t (residualStage ops mesh cfg t s)
      = residualStage ops mesh cfg t s := by
  have h : residualStage ops mesh cfg t (residualStage ops mesh cfg t s)
      = { residualStage ops mesh cfg t s with
            ddt_Ni := zFilter ops cfg (rhsNi ops mesh cfg t s),
            ddt_Sn := rhsSn ops cfg t (residualStage ops mesh cfg t s),
            ddt_rho := zFilter ops cfg (rhsRho ops mesh cfg s),
            ddt_Ajpar := zFilter ops cfg (rhsAjpar ops cfg s) } := rfl
  rw [h, rhsSn_residualStage]
  rfl

theorem physics_run_idempotent (ops : Ops) (mesh : Mesh) (cfg : Config) (s : State) (t : ℚ)
    (hcomm : ∀ f, ops.communicate f = f) (hlog : cfg.log_density = false) :
    physics_run ops mesh cfg (physics_run ops mesh cfg s t) t = physics_run ops mesh cfg s t := by
  have h : derivedStage ops cfg (residualStage ops mesh cfg t (derivedStage ops cfg s))
      = residualStage ops mesh cfg t (derivedStage ops cfg s) := by
    have h1 := derivedStage_ddt ops cfg (derivedStage ops cfg s)
      (zFilter ops cfg (rhsNi ops mesh cfg t (derivedStage ops cfg s)))
      (zFilter ops cfg (rhsRho ops mesh cfg (derivedStage ops cfg s)))
      (zFilter ops cfg (rhsAjpar ops cfg (derivedStage ops cfg s)))
      (rhsSn ops cfg t (derivedStage ops cfg s))
    rw [derivedStage_idempotent ops cfg s hcomm hlog] at h1
    exact h1
  unfold physics_run
  rw [h, residualStage_idempotent]

theorem physics_run_evolved (ops : Ops) (mesh : Mesh) (cfg : Config) (s : State) (t : ℚ) :
    (physics_run ops mesh cfg s t).rho
      = (if cfg.evolve_rho then ops.communicate s.rho else s.rho) ∧
    (cfg.log_density = false →
      (physics_run ops mesh cfg s t).Ni
        = (if cfg.evolve_ni then ops.communicate s.Ni else s.Ni)) ∧
    (cfg.ZeroElMass = false →
      (physics_run ops mesh cfg s t).Ajpar
        = (if cfg.evolve_ajpar then ops.communicate s.Ajpar else s.Ajpar)) :=
  derivedStage_frame ops cfg s

theorem physics_init_options_ajpar (cfg : Config)
    (h : (physics_init_options cfg).evolve_ajpar = true) :
    (physics_init_options cfg).ZeroElMass = false := by
  unfold physics_init_options at h ⊢
  cases h1 : cfg.log_density <;> cases h2 : cfg.ZeroElMass <;> simp_all

end LapdDrift

namespace LapdDrift

end LapdDrift

namespace Gem

/-! ### C6: evolving quantities whose equation is off -/

theorem closure_ev (ops : Ops) (mesh : Mesh) (cfg : Config) (s : State) :
    (closure ops mesh cfg s).ev = (communicateComms ops cfg (adiabaticNe ops cfg s)).ev := by
  unfold closure setRei setJpar jparBndry helmholtz polarisation communicateComms
  split_ifs <;> rfl

theorem closure_ev_get (ops : Ops) (mesh : Mesh) (cfg : Config) (s : State) (v : Var)
    (hflag : cfg.ddtFlag v = false) (hNe : v = Var.Ne → cfg.adiabatic_electrons = false) :
    (closure ops mesh cfg s).ev.get v = s.ev.get v := by
  rw [closure_ev]
  cases v <;> simp only [Config.ddtFlag] at hflag <;>
    simp [communicateComms, commIf, Config.solved, Config.ddtFlag, Evolved.get, hflag,
      adiabaticNe]
  all_goals first | (split_ifs <;> rfl) | simp [hNe rfl]

end Gem

namespace Bout

/-- C6 (as amended). `physics_run` leaves a quantity whose evolve flag is off
unchanged, with three exceptions that the code overwrites on purpose: in
`lapd_drift`, `rho` always, `Ni` unless `log_density` is set and `Ajpar`
unless `ZeroElMass` is set; in `gem`, every quantity whose `*_ddt` flag is
off, `Ne` only when `adiabatic_electrons` is not set. -/
theorem disabled_quantities_held_constant
    (lops : LapdDrift.Ops) (lmesh : LapdDrift.Mesh) (lcfg : LapdDrift.Config)
    (ls : LapdDrift.State) (t : ℚ)
    (gops : Gem.Ops) (gmesh : Gem.Mesh) (gcfg : Gem.Config) (gs : Gem.State) (v : Gem.Var)
    (hflag : gcfg.ddtFlag v = false)
    (hNe : v = Gem.Var.Ne → gcfg.adiabatic_electrons = false) :
    ((lcfg.evolve_rho = false → (LapdDrift.physics_run lops lmesh lcfg ls t).rho = ls.rho) ∧
     (lcfg.evolve_ni = false → lcfg.log_density = false →
        (LapdDrift.physics_run lops lmesh lcfg ls t).Ni = ls.Ni) ∧
     (lcfg.evolve_ajpar = false → lcfg.ZeroElMass = false →
        (LapdDrift.physics_run lops lmesh lcfg ls t).Ajpar = ls.Ajpar)) ∧
    (Gem.physics_run gops gmesh gcfg gs).ev.get v = gs.ev.get v := by
  obtain ⟨h1, h2, h3⟩ := LapdDrift.physics_run_evolved lops lmesh lcfg ls t
  refine ⟨⟨fun h => ?_, fun h hl => ?_, fun h hz => ?_⟩, ?_⟩
  · rw [h1, h]; simp
  · rw [h2 hl, h]; simp
  · rw [h3 hz, h]; simp
  · rw [(Gem.physics_run_frame gops gmesh gcfg gs).1]
    exact Gem.closure_ev_get gops gmesh gcfg gs v hflag hNe

/-- C6 (as amended), at concrete inputs: `lapd_drift` with every evolve flag
off, and `gem` with the ion parallel temperature equation off. -/
theorem disabled_quantities_held_constant_witness :
    (LapdDrift.physics_run LapdDrift.demoOps LapdDrift.demoMesh LapdDrift.demoCfg
        { LapdDrift.zeroState with rho := LapdDrift.demoF, Ni := LapdDrift.demoP } 0).rho
      = LapdDrift.demoF ∧
    (Gem.physics_run Gem.demoOps Gem.demoMesh { Gem.demoCfg with ni_ddt := true }
        { Gem.zeroState with ev := { Gem.zeroEvolved with Tipar := Gem.ySquared } }).ev.get
      Gem.Var.Tipar = Gem.ySquared :=
  have h := disabled_quantities_held_constant LapdDrift.demoOps LapdDrift.demoMesh
    LapdDrift.demoCfg
    { LapdDrift.zeroState with rho := LapdDrift.demoF, Ni := LapdDrift.demoP } 0
    Gem.demoOps Gem.demoMesh { Gem.demoCfg with ni_ddt := true }
    { Gem.zeroState with ev := { Gem.zeroEvolved with Tipar := Gem.ySquared } }
    Gem.Var.Tipar rfl (fun h => Gem.Var.noConfusion h)
  ⟨h.1.1 rfl, h.2⟩

/-- C6, counterexample. In `lapd_drift` with `ZeroElMass = true` (so
`evolve_ajpar = false` after `physics_init`) and `Ni = y`, `physics_run`
overwrites `Ajpar` at `[0][0][0]`: 0 before, -100/51 after. In `gem` with
`adiabatic_electrons = true`, `ne_ddt = false` and `phi = z` before the call,
`physics_run` overwrites `Ne` at `[0][0][0]`: 0 before, -1 after. -/
theorem disabled_quantities_overwritten :
    ((LapdDrift.physics_init_options
        { LapdDrift.demoCfg with ZeroElMass := true }).evolve_ajpar = false ∧
     ({ LapdDrift.zeroState with Ni := fun _ y _ => (y : ℚ) } : LapdDrift.State).Ajpar 0 0 0
        = 0 ∧
     (LapdDrift.physics_run LapdDrift.demoOps LapdDrift.demoMesh
        (LapdDrift.physics_init_options { LapdDrift.demoCfg with ZeroElMass := true })
        { LapdDrift.zeroState with Ni := fun _ y _ => (y : ℚ) } 0).Ajpar 0 0 0
        = -(100/51)) ∧
    (({ Gem.demoCfg with adiabatic_electrons := true } : Gem.Config).ne_ddt = false ∧
     ({ Gem.zeroState with phi := Gem.zLinear } : Gem.State).ev.Ne 0 0 0 = 0 ∧
     (Gem.physics_run Gem.demoOps Gem.demoMesh
        { Gem.demoCfg with adiabatic_electrons := true }
        { Gem.zeroState with phi := Gem.zLinear }).ev.Ne 0 0 0 = -1) := by
  refine ⟨⟨rfl, rfl, ?_⟩, rfl, rfl, ?_⟩
  · simp [LapdDrift.physics_run, LapdDrift.residualStage, LapdDrift.derivedStage,
      LapdDrift.ohmsLaw, LapdDrift.updateCoefficients, LapdDrift.updateProfiles,
      LapdDrift.communicateComms, LapdDrift.invertApar, LapdDrift.invertPhi,
      LapdDrift.convertDensity, LapdDrift.physics_init_options, LapdDrift.demoOps,
      LapdDrift.demoCfg, LapdDrift.zeroState, Field2D.to3D]
  · rw [(Gem.physics_run_frame _ _ _ _).1]
    simp [Gem.closure, Gem.setRei, Gem.communicateComms, Gem.setJpar, Gem.jparBndry,
      Gem.helmholtz, Gem.polarisation, Gem.polarisation_dn, Gem.adiabaticNe, Gem.demoOps,
      Gem.demoMesh, Gem.demoCfg, Gem.zeroState, Gem.zeroEvolved, Gem.demoDC, Field2D.to3D,
      Gem.divS, Gem.zLinear, Gem.commIf, Gem.Config.solved, Gem.Config.ddtFlag]
    norm_num

end Bout

namespace Gem

/-! ### C4, C10: flags that are read but have no effect -/

theorem closure_ignores_apui_parP (ops : Ops) (mesh : Mesh) (cfg : Config) (s : State)
    (b : Bool) :
    closure ops mesh { cfg with apui_parP := b } s = closure ops mesh cfg s := by
  rfl

theorem electronEqs_ignores_apui_parP (ops : Ops) (mesh : Mesh) (cfg : Config) (s : State)
    (b : Bool) :
    electronEqs ops mesh { cfg with apui_parP := b } s = electronEqs ops mesh cfg s := by
  rfl

theorem ionEqs_ignores_apui_parP (ops : Ops) (mesh : Mesh) (cfg : Config) (s : State)
    (b : Bool) :
    ionEqs ops mesh { cfg with apui_parP := b } s = ionEqs ops mesh cfg s := by
  rfl

theorem physics_run_ignores_apui_parP (ops : Ops) (mesh : Mesh) (cfg : Config) (s : State)
    (b : Bool) :
    physics_run ops mesh { cfg with apui_parP := b } s = physics_run ops mesh cfg s := by
  unfold physics_run
  rw [closure_ignores_apui_parP, electronEqs_ignores_apui_parP, ionEqs_ignores_apui_parP]

theorem physics_init_solved_ions (cfg : Config) (s : State)
    (h : cfg.adiabatic_electrons = true) :
    ∀ v ∈ (physics_init cfg s).solved, v.isElectron = false := by
  intro v hv
  simp only [physics_init, h, if_true, registerOrZero] at hv
  cases h1 : cfg.ni_ddt <;> cases h2 : cfg.apui_ddt <;> cases h3 : cfg.tipar_ddt <;>
    cases h4 : cfg.tiperp_ddt <;> cases h5 : cfg.qipar_ddt <;> cases h6 : cfg.qiperp_ddt <;>
    simp [h1, h2, h3, h4, h5, h6] at hv <;>
    rcases hv with rfl | rfl | rfl | rfl | rfl | rfl <;> rfl

/-- C10 (as amended). `physics_init` returns 0 for every combination of
flags; when `adiabatic_electrons` is set the electron equation flags are
ignored: no electron quantity is passed to the solver. -/
theorem physics_init_accepts_all_flags (cfg : Config) (s : State) :
    (physics_init cfg s).code = 0 ∧
    (cfg.adiabatic_electrons = true →
      ∀ v ∈ (physics_init cfg s).solved, v.isElectron = false) :=
  ⟨rfl, physics_init_solved_ions cfg s⟩

/-- C10 (as amended), at a concrete input: adiabatic electrons requested
together with the electron and ion density equations. -/
theorem physics_init_accepts_all_flags_witness :
    (physics_init { demoCfg with adiabatic_electrons := true, ne_ddt := true, ni_ddt := true }
        zeroState).code = 0 ∧
    ∀ v ∈ (physics_init
        { demoCfg with adiabatic_electrons := true, ne_ddt := true, ni_ddt := true }
        zeroState).solved, v.isElectron = false :=
  ⟨(physics_init_accepts_all_flags
      { demoCfg with adiabatic_electrons := true, ne_ddt := true, ni_ddt := true }
      zeroState).1,
   (physics_init_accepts_all_flags
      { demoCfg with adiabatic_electrons := true, ne_ddt := true, ni_ddt := true }
      zeroState).2 rfl⟩

/-- C10, counterexample: with `adiabatic_electrons = true` and all twelve
equation flags true (the defaults of the source), `physics_init` returns 0
and registers the six ion quantities only. -/
theorem physics_init_adiabatic_with_electron_flags :
    (physics_init
        { demoCfg with adiabatic_electrons := true,
                       ne_ddt := true, apue_ddt := true, tepar_ddt := true,
                       teperp_ddt := true, qepar_ddt := true, qeperp_ddt := true,
                       ni_ddt := true, apui_ddt := true, tipar_ddt := true,
                       tiperp_ddt := true, qipar_ddt := true, qiperp_ddt := true }
        zeroState).code = 0 ∧
    (physics_init
        { demoCfg with adiabatic_electrons := true,
                       ne_ddt := true, apue_ddt := true, tepar_ddt := true,
                       teperp_ddt := true, qepar_ddt := true, qeperp_ddt := true,
                       ni_ddt := true, apui_ddt := true, tipar_ddt := true,
                       tiperp_ddt := true, qipar_ddt := true, qiperp_ddt := true }
        zeroState).solved
      = [Var.Ni, Var.ApUi, Var.Tipar, Var.Tiperp, Var.qipar, Var.qiperp] :=
  ⟨rfl, rfl⟩

end Gem

/-! ## Theorems: closure, operators and post-processing of gem.cxx; Arakawa overloads -/

namespace Bout

/-! ### Loops -/

theorem forLoop_natCast_succ {α : Type} (m : Nat) (body : Int → α → α) (init : α) :
    forLoop ((m : Int) + 1) body init = body (m : Int) (forLoop (m : Int) body init) := by
  have h : ((m : Int) + 1).toNat = m + 1 := by omega
  simp [forLoop, h, List.range_succ, List.foldl_append]

theorem forLoop_of_nonpos {α : Type} (n : Int) (hn : n ≤ 0) (body : Int → α → α) (init : α) :
    forLoop n body init = init := by
  have h : n.toNat = 0 := by omega
  simp [forLoop, h]

/-- A loop whose every iteration either zeroes an observed value (`hit`) or
leaves it unchanged: the value is zero after the loop when some iteration
hits, and unchanged when none does. -/
theorem forLoop_hit_or_miss {α : Type} (val : α → ℚ) (body : Int → α → α) (hit : Int → Prop)
    (hhit : ∀ i u, hit i → val (body i u) = 0)
    (hmiss : ∀ i u, ¬ hit i → val (body i u) = val u) (n : Int) (init : α) :
    ((∃ i, 0 ≤ i ∧ i < n ∧ hit i) → val (forLoop n body init) = 0) ∧
    ((∀ i, 0 ≤ i → i < n → ¬ hit i) → val (forLoop n body init) = val init) := by
  by_cases hn : n ≤ 0
  · rw [forLoop_of_nonpos n hn]
    refine ⟨?_, fun _ => rfl⟩
    rintro ⟨i, h0, h1, _⟩
    omega
  · obtain ⟨m, rfl⟩ : ∃ m : Nat, n = (m : Int) := ⟨n.toNat, by omega⟩
    clear hn
    induction m with
    | zero =>
      refine ⟨?_, fun _ => by simp [forLoop]⟩
      rintro ⟨i, h0, h1, _⟩
      simp at h1
      omega
    | succ k ih =>
      have hstep : forLoop (((k + 1 : Nat) : Int)) body init
          = body (k : Int) (forLoop (k : Int) body init) := by
        have := forLoop_natCast_succ k body init
        simpa using this
      rw [hstep]
      by_cases hk : hit (k : Int)
      · refine ⟨fun _ => hhit _ _ hk, fun hno => ?_⟩
        exact absurd hk (hno k (by omega) (by push_cast; omega))
      · rw [hmiss _ _ hk]
        refine ⟨?_, fun hno => ?_⟩
        · rintro ⟨i, h0, h1, hi⟩
          apply ih.1
          refine ⟨i, h0, ?_, hi⟩
          have hne : i ≠ (k : Int) := by
            rintro rfl
            exact hk hi
          push_cast at h1
          omega
        · apply ih.2
          intro i h0 h1
          exact hno i h0 (by push_cast; omega)

end Bout

namespace Gem

/-! ### C11: velocity recovery -/

theorem closure_eq_derivedFields (ops : Ops) (mesh : Mesh) (cfg : Config) (s : State) :
    closure ops mesh cfg s
      = setRei cfg (communicateComms ops cfg (derivedFields ops mesh cfg s)) := rfl

theorem physics_run_derivedFields (ops : Ops) (mesh : Mesh) (cfg : Config) (s : State)
    (hcomm : ∀ f, ops.communicate f = f) :
    (physics_run ops mesh cfg s).ev = (derivedFields ops mesh cfg s).ev ∧
    (physics_run ops mesh cfg s).phi = (derivedFields ops mesh cfg s).phi ∧
    (physics_run ops mesh cfg s).Apar = (derivedFields ops mesh cfg s).Apar ∧
    (physics_run ops mesh cfg s).Ui = (derivedFields ops mesh cfg s).Ui ∧
    (physics_run ops mesh cfg s).Ue = (derivedFields ops mesh cfg s).Ue ∧
    (physics_run ops mesh cfg s).Jpar = (derivedFields ops mesh cfg s).Jpar := by
  obtain ⟨h1, h2, h3, h4, h5, h6⟩ := physics_run_frame ops mesh cfg s
  rw [h1, h2, h3, h4, h5, h6, closure_eq_derivedFields]
  simp [setRei, communicateComms, commIf, hcomm]

theorem derivedFields_velocities (ops : Ops) (mesh : Mesh) (cfg : Config) (s : State)
    (hw : cfg.jpar_bndry_width ≤ 0) :
    (derivedFields ops mesh cfg s).Ui
      = divS ((derivedFields ops mesh cfg s).ev.ApUi
          - cfg.beta_e • (derivedFields ops mesh cfg s).Apar) cfg.mu_i ∧
    (derivedFields ops mesh cfg s).Ue
      = divS ((derivedFields ops mesh cfg s).ev.ApUe
          - cfg.beta_e • (derivedFields ops mesh cfg s).Apar) cfg.mu_e := by
  simp [derivedFields, setJpar, jparBndry, not_lt.mpr hw, helmholtz]

theorem divS_round_trip (A M : Field3D) (beta mu : ℚ) (hmu : mu ≠ 0) :
    beta • A + mu • divS (M - beta • A) mu = M := by
  funext x y z
  simp only [divS, Pi.add_apply, Pi.smul_apply, Pi.sub_apply, smul_eq_mul]
  field_simp

/-- C11. Velocity recovery round trip and current sign. For non-zero `mu_i`,
`mu_e`: with boundary zeroing off (`jpar_bndry_width <= 0`), after line 583 of
`physics_run` `Ui = (ApUi - beta_e*Apar)/mu_i` and `Ue = (ApUe -
beta_e*Apar)/mu_e` at every point, so `beta_e*Apar + mu_i*Ui = ApUi` and
`beta_e*Apar + mu_e*Ue = ApUe`; for every `jpar_bndry_width`,
`Jpar = Ui - Ue`. When the halo exchange leaves field values unchanged the
same holds for the fields left by `physics_run`. -/
theorem velocity_recovery (ops : Ops) (mesh : Mesh) (cfg : Config) (s : State)
    (hmui : cfg.mu_i ≠ 0) (hmue : cfg.mu_e ≠ 0) :
    (cfg.jpar_bndry_width ≤ 0 →
      (derivedFields ops mesh cfg s).Ui
        = divS ((derivedFields ops mesh cfg s).ev.ApUi
            - cfg.beta_e • (derivedFields ops mesh cfg s).Apar) cfg.mu_i ∧
      (derivedFields ops mesh cfg s).Ue
        = divS ((derivedFields ops mesh cfg s).ev.ApUe
            - cfg.beta_e • (derivedFields ops mesh cfg s).Apar) cfg.mu_e ∧
      cfg.beta_e • (derivedFields ops mesh cfg s).Apar
          + cfg.mu_i • (derivedFields ops mesh cfg s).Ui
        = (derivedFields ops mesh cfg s).ev.ApUi ∧
      cfg.beta_e • (derivedFields ops mesh cfg s).Apar
          + cfg.mu_e • (derivedFields ops mesh cfg s).Ue
        = (derivedFields ops mesh cfg s).ev.ApUe) ∧
    (derivedFields ops mesh cfg s).Jpar
      = (derivedFields ops mesh cfg s).Ui - (derivedFields ops mesh cfg s).Ue ∧
    ((∀ f, ops.communicate f = f) →
      (cfg.jpar_bndry_width ≤ 0 →
        (physics_run ops mesh cfg s).Ui
          = divS ((physics_run ops mesh cfg s).ev.ApUi
              - cfg.beta_e • (physics_run ops mesh cfg s).Apar) cfg.mu_i ∧
        (physics_run ops mesh cfg s).Ue
          = divS ((physics_run ops mesh cfg s).ev.ApUe
              - cfg.beta_e • (physics_run ops mesh cfg s).Apar) cfg.mu_e ∧
        cfg.beta_e • (physics_run ops mesh cfg s).Apar
            + cfg.mu_i • (physics_run ops mesh cfg s).Ui
          = (physics_run ops mesh cfg s).ev.ApUi ∧
        cfg.beta_e • (physics_run ops mesh cfg s).Apar
            + cfg.mu_e • (physics_run ops mesh cfg s).Ue
          = (physics_run ops mesh cfg s).ev.ApUe) ∧
      (physics_run ops mesh cfg s).Jpar
        = (physics_run ops mesh cfg s).Ui - (physics_run ops mesh cfg s).Ue) := by
  have hv : cfg.jpar_bndry_width ≤ 0 →
      (derivedFields ops mesh cfg s).Ui
        = divS ((derivedFields ops mesh cfg s).ev.ApUi
            - cfg.beta_e • (derivedFields ops mesh cfg s).Apar) cfg.mu_i ∧
      (derivedFields ops mesh cfg s).Ue
        = divS ((derivedFields ops mesh cfg s).ev.ApUe
            - cfg.beta_e • (derivedFields ops mesh cfg s).Apar) cfg.mu_e ∧
      cfg.beta_e • (derivedFields ops mesh cfg s).Apar
          + cfg.mu_i • (derivedFields ops mesh cfg s).Ui
        = (derivedFields ops mesh cfg s).ev.ApUi ∧
      cfg.beta_e • (derivedFields ops mesh cfg s).Apar
          + cfg.mu_e • (derivedFields ops mesh cfg s).Ue
        = (derivedFields ops mesh cfg s).ev.ApUe := by
    intro hw
    obtain ⟨hUi, hUe⟩ := derivedFields_velocities ops mesh cfg s hw
    refine ⟨hUi, hUe, ?_, ?_⟩
    · rw [hUi]; exact divS_round_trip _ _ _ _ hmui
    · rw [hUe]; exact divS_round_trip _ _ _ _ hmue
  have hJ : (derivedFields ops mesh cfg s).Jpar
      = (derivedFields ops mesh cfg s).Ui - (derivedFields ops mesh cfg s).Ue := rfl
  refine ⟨hv, hJ, fun hcomm => ?_⟩
  obtain ⟨h1, _, h3, h4, h5, h6⟩ := physics_run_derivedFields ops mesh cfg s hcomm
  rw [h1, h3, h4, h5, h6]
  exact ⟨hv, hJ⟩

/-- C11, at a concrete input: `mu_i = 1`, `mu_e = -1`, `beta_e = 1`, no
boundary zeroing, `ApUi = y`. -/
theorem velocity_recovery_witness :
    demoCfg.beta_e • (physics_run demoOps demoMesh demoCfg
          { zeroState with ev := { zeroEvolved with ApUi := yLinear } }).Apar
        + demoCfg.mu_i • (physics_run demoOps demoMesh demoCfg
          { zeroState with ev := { zeroEvolved with ApUi := yLinear } }).Ui
      = (physics_run demoOps demoMesh demoCfg
          { zeroState with ev := { zeroEvolved with ApUi := yLinear } }).ev.ApUi ∧
    (physics_run demoOps demoMesh demoCfg
        { zeroState with ev := { zeroEvolved with ApUi := yLinear } }).Jpar
      = (physics_run demoOps demoMesh demoCfg
          { zeroState with ev := { zeroEvolved with ApUi := yLinear } }).Ui
        - (physics_run demoOps demoMesh demoCfg
          { zeroState with ev := { zeroEvolved with ApUi := yLinear } }).Ue :=
  have h := (velocity_recovery demoOps demoMesh demoCfg
    { zeroState with ev := { zeroEvolved with ApUi := yLinear } }
    (by decide) (by decide)).2.2 (fun _ => rfl)
  ⟨(h.1 (by decide)).2.2.1, h.2⟩

/-! ### C12: boundary zeroing -/

theorem jparBndryBody_point (mesh : Mesh) (x y z i j k : Int) (u : Field3D × Field3D) :
    (jparBndryHit mesh x y z i j k →
      (jparBndryBody mesh i j k u).1 x y z = 0 ∧ (jparBndryBody mesh i j k u).2 x y z = 0) ∧
    (¬ jparBndryHit mesh x y z i j k →
      (jparBndryBody mesh i j k u).1 x y z = u.1 x y z ∧
      (jparBndryBody mesh i j k u).2 x y z = u.2 x y z) := by
  by_cases hA : x = i ∧ y = j ∧ z = k <;>
    by_cases hB : x = mesh.ngx - 1 - i ∧ y = j ∧ z = k <;>
    cases hf : mesh.firstX <;> cases hl : mesh.lastX <;>
    simp [jparBndryHit, jparBndryBody, setAt, hA, hB, hf, hl] <;> tauto


theorem jparBndryWritten_iff (mesh : Mesh) (w x y z : Int) :
    jparBndryWritten mesh w x y z ↔
      ∃ i, 0 ≤ i ∧ i < w ∧ ∃ j, 0 ≤ j ∧ j < mesh.ngy ∧ ∃ k, 0 ≤ k ∧ k < mesh.ngz - 1 ∧
        jparBndryHit mesh x y z i j k := by
  unfold jparBndryWritten jparBndryHit
  constructor
  · rintro ⟨hy0, hy1, hz0, hz1, h | h⟩
    · exact ⟨x, h.2.1, h.2.2, y, hy0, hy1, z, hz0, hz1, Or.inl ⟨h.1, rfl, rfl, rfl⟩⟩
    · exact ⟨mesh.ngx - 1 - x, by omega, by omega, y, hy0, hy1, z, hz0, hz1,
        Or.inr ⟨h.1, by omega, rfl, rfl⟩⟩
  · rintro ⟨i, hi0, hi1, j, hj0, hj1, k, hk0, hk1, h | h⟩
    · obtain ⟨hf, rfl, rfl, rfl⟩ := h
      exact ⟨hj0, hj1, hk0, hk1, Or.inl ⟨hf, hi0, hi1⟩⟩
    · obtain ⟨hl, rfl, rfl, rfl⟩ := h
      exact ⟨hj0, hj1, hk0, hk1, Or.inr ⟨hl, by omega, by omega⟩⟩

/-- The boundary loop in closed form: it zeroes `Ui` and `Ue` at the written
indices and leaves every other value unchanged. -/
theorem jparBndryLoop_point (mesh : Mesh) (w : Int) (u : Field3D × Field3D)
    (x y z : Int) :
    (jparBndryWritten mesh w x y z →
      (jparBndryLoop mesh w u).1 x y z = 0 ∧ (jparBndryLoop mesh w u).2 x y z = 0) ∧
    (¬ jparBndryWritten mesh w x y z →
      (jparBndryLoop mesh w u).1 x y z = u.1 x y z ∧
      (jparBndryLoop mesh w u).2 x y z = u.2 x y z) := by
  have inner : ∀ (sel : Field3D × Field3D → Field3D),
      (∀ i j k v, jparBndryHit mesh x y z i j k → sel (jparBndryBody mesh i j k v) x y z = 0) →
      (∀ i j k v, ¬ jparBndryHit mesh x y z i j k →
        sel (jparBndryBody mesh i j k v) x y z = sel v x y z) →
      (jparBndryWritten mesh w x y z → sel (jparBndryLoop mesh w u) x y z = 0) ∧
      (¬ jparBndryWritten mesh w x y z → sel (jparBndryLoop mesh w u) x y z = sel u x y z) := by
    intro sel h1 h2
    have hk : ∀ i j v,
        ((∃ k, 0 ≤ k ∧ k < mesh.ngz - 1 ∧ jparBndryHit mesh x y z i j k) →
          sel (forLoop (mesh.ngz - 1) (fun k u => jparBndryBody mesh i j k u) v) x y z = 0) ∧
        ((∀ k, 0 ≤ k → k < mesh.ngz - 1 → ¬ jparBndryHit mesh x y z i j k) →
          sel (forLoop (mesh.ngz - 1) (fun k u => jparBndryBody mesh i j k u) v) x y z
            = sel v x y z) :=
      fun i j v => forLoop_hit_or_miss (fun t => sel t x y z)
        (fun k u => jparBndryBody mesh i j k u) (fun k => jparBndryHit mesh x y z i j k)
        (fun k t => h1 i j k t) (fun k t => h2 i j k t) (mesh.ngz - 1) v
    have hj : ∀ i v,
        ((∃ j, 0 ≤ j ∧ j < mesh.ngy ∧
            ∃ k, 0 ≤ k ∧ k < mesh.ngz - 1 ∧ jparBndryHit mesh x y z i j k) →
          sel (forLoop mesh.ngy (fun j u =>
            forLoop (mesh.ngz - 1) (fun k u => jparBndryBody mesh i j k u) u) v) x y z = 0) ∧
        ((∀ j, 0 ≤ j → j < mesh.ngy →
            ¬ ∃ k, 0 ≤ k ∧ k < mesh.ngz - 1 ∧ jparBndryHit mesh x y z i j k) →
          sel (forLoop mesh.ngy (fun j u =>
            forLoop (mesh.ngz - 1) (fun k u => jparBndryBody mesh i j k u) u) v) x y z
            = sel v x y z) :=
      fun i v => forLoop_hit_or_miss (fun t => sel t x y z)
        (fun j u => forLoop (mesh.ngz - 1) (fun k u => jparBndryBody mesh i j k u) u)
        (fun j => ∃ k, 0 ≤ k ∧ k < mesh.ngz - 1 ∧ jparBndryHit mesh x y z i j k)
        (fun j t h => (hk i j t).1 h)
        (fun j t h => (hk i j t).2 (fun k h0 h1 hh => h ⟨k, h0, h1, hh⟩)) mesh.ngy v
    have hi := forLoop_hit_or_miss (fun t => sel t x y z)
        (fun i u => forLoop mesh.ngy (fun j u =>
          forLoop (mesh.ngz - 1) (fun k u => jparBndryBody mesh i j k u) u) u)
        (fun i => ∃ j, 0 ≤ j ∧ j < mesh.ngy ∧
          ∃ k, 0 ≤ k ∧ k < mesh.ngz - 1 ∧ jparBndryHit mesh x y z i j k)
        (fun i t h => (hj i t).1 h)
        (fun i t h => (hj i t).2 (fun j h0 h1 hh => h ⟨j, h0, h1, hh⟩)) w u
    constructor
    · intro hw
      exact hi.1 ((jparBndryWritten_iff mesh w x y z).1 hw)
    · intro hw
      apply hi.2
      intro i h0 h1 hh
      exact hw ((jparBndryWritten_iff mesh w x y z).2 ⟨i, h0, h1, hh⟩)
  have h1 := inner Prod.fst
    (fun i j k v h => ((jparBndryBody_point mesh x y z i j k v).1 h).1)
    (fun i j k v h => ((jparBndryBody_point mesh x y z i j k v).2 h).1)
  have h2 := inner Prod.snd
    (fun i j k v h => ((jparBndryBody_point mesh x y z i j k v).1 h).2)
    (fun i j k v h => ((jparBndryBody_point mesh x y z i j k v).2 h).2)
  exact ⟨fun h => ⟨h1.1 h, h2.1 h⟩, fun h => ⟨h1.2 h, h2.2 h⟩⟩


theorem derivedFields_bndry (ops : Ops) (mesh : Mesh) (cfg : Config) (s : State)
    (hw : 0 < cfg.jpar_bndry_width) (x y z : Int) :
    (jparBndryWritten mesh cfg.jpar_bndry_width x y z →
      (derivedFields ops mesh cfg s).Ui x y z = 0 ∧
      (derivedFields ops mesh cfg s).Ue x y z = 0 ∧
      (derivedFields ops mesh cfg s).Jpar x y z = 0) ∧
    (¬ jparBndryWritten mesh cfg.jpar_bndry_width x y z →
      (derivedFields ops mesh cfg s).Ui x y z
        = (helmholtz ops cfg (polarisation ops cfg (adiabaticNe ops cfg s))).Ui x y z ∧
      (derivedFields ops mesh cfg s).Ue x y z
        = (helmholtz ops cfg (polarisation ops cfg (adiabaticNe ops cfg s))).Ue x y z) := by
  have hL := jparBndryLoop_point mesh cfg.jpar_bndry_width
    ((helmholtz ops cfg (polarisation ops cfg (adiabaticNe ops cfg s))).Ui,
     (helmholtz ops cfg (polarisation ops cfg (adiabaticNe ops cfg s))).Ue) x y z
  have hUi : (derivedFields ops mesh cfg s).Ui
      = (jparBndryLoop mesh cfg.jpar_bndry_width
          ((helmholtz ops cfg (polarisation ops cfg (adiabaticNe ops cfg s))).Ui,
           (helmholtz ops cfg (polarisation ops cfg (adiabaticNe ops cfg s))).Ue)).1 := by
    simp [derivedFields, setJpar, jparBndry, hw, jparBndryLoop]
  have hUe : (derivedFields ops mesh cfg s).Ue
      = (jparBndryLoop mesh cfg.jpar_bndry_width
          ((helmholtz ops cfg (polarisation ops cfg (adiabaticNe ops cfg s))).Ui,
           (helmholtz ops cfg (polarisation ops cfg (adiabaticNe ops cfg s))).Ue)).2 := by
    simp [derivedFields, setJpar, jparBndry, hw, jparBndryLoop]
  have hJ : (derivedFields ops mesh cfg s).Jpar x y z
      = (derivedFields ops mesh cfg s).Ui x y z - (derivedFields ops mesh cfg s).Ue x y z :=
    rfl
  constructor
  · intro h
    obtain ⟨a, b⟩ := hL.1 h
    rw [hJ, hUi, hUe, a, b]
    simp
  · intro h
    obtain ⟨a, b⟩ := hL.2 h
    rw [hUi, hUe]
    exact ⟨a, b⟩

theorem jparBndryWritten_in_grid (mesh : Mesh) (w x y z : Int) (hw : w ≤ mesh.ngx)
    (h : jparBndryWritten mesh w x y z) :
    0 ≤ x ∧ x < mesh.ngx ∧ 0 ≤ y ∧ y < mesh.ngy ∧ 0 ≤ z ∧ z < mesh.ngz := by
  obtain ⟨hy0, hy1, hz0, hz1, h | h⟩ := h
  · exact ⟨h.2.1, by omega, hy0, hy1, hz0, by omega⟩
  · exact ⟨by omega, h.2.2, hy0, hy1, hz0, by omega⟩

/-- C13. Gauge limit: when `beta_e = 0`, for every field `f` and every `Apar`,
`Grad_parP(f)`, `Grad_parP_CtoL(f)` and `Grad_parP_LtoC(f)` equal
`Grad_par(f)`, `Grad_par_CtoL(f)` and `Grad_par_LtoC(f)`. -/
theorem Grad_parP_gauge_limit (ops : Ops) (cfg : Config) (s : State) (f : Field3D)
    (hbeta : cfg.beta_e = 0) :
    Grad_parP ops cfg s f = ops.Grad_par f ∧
    Grad_parP_CtoL ops cfg s f = ops.Grad_par_CtoL f ∧
    Grad_parP_LtoC ops cfg s f = ops.Grad_par_LtoC f := by
  simp [Grad_parP, Grad_parP_CtoL, Grad_parP_LtoC, hbeta]

/-- C13, at a concrete input: `beta_e = 0`, `Apar = z`, `f = y^2`. -/
theorem Grad_parP_gauge_limit_witness :
    Grad_parP demoOps { demoCfg with beta_e := 0 } { zeroState with Apar := zLinear } ySquared
      = demoOps.Grad_par ySquared ∧
    Grad_parP_CtoL demoOps { demoCfg with beta_e := 0 } { zeroState with Apar := zLinear }
      ySquared = demoOps.Grad_par_CtoL ySquared ∧
    Grad_parP_LtoC demoOps { demoCfg with beta_e := 0 } { zeroState with Apar := zLinear }
      ySquared = demoOps.Grad_par_LtoC ySquared :=
  Grad_parP_gauge_limit demoOps { demoCfg with beta_e := 0 } { zeroState with Apar := zLinear }
    ySquared rfl

/-- C14. Flux-form consistency: `Div_parP(f)`, `Div_parP_CtoL(f)` and
`Div_parP_LtoC(f)` equal `Bxy * Grad_parP-variant(f / Bxy)`, and when `Bxy`
is identically 1 they equal `Grad_parP(f)`, `Grad_parP_CtoL(f)` and
`Grad_parP_LtoC(f)`. -/
theorem Div_parP_flux_form (ops : Ops) (mesh : Mesh) (cfg : Config) (s : State)
    (f : Field3D) :
    (Div_parP ops mesh cfg s f = mesh.Bxy.to3D * Grad_parP ops cfg s (f / mesh.Bxy.to3D) ∧
     Div_parP_CtoL ops mesh cfg s f
       = mesh.Bxy.to3D * Grad_parP_CtoL ops cfg s (f / mesh.Bxy.to3D) ∧
     Div_parP_LtoC ops mesh cfg s f
       = mesh.Bxy.to3D * Grad_parP_LtoC ops cfg s (f / mesh.Bxy.to3D)) ∧
    ((∀ x y, mesh.Bxy x y = 1) →
      Div_parP ops mesh cfg s f = Grad_parP ops cfg s f ∧
      Div_parP_CtoL ops mesh cfg s f = Grad_parP_CtoL ops cfg s f ∧
      Div_parP_LtoC ops mesh cfg s f = Grad_parP_LtoC ops cfg s f) := by
  refine ⟨⟨rfl, rfl, rfl⟩, fun hB => ?_⟩
  have h1 : mesh.Bxy.to3D = 1 := by
    funext x y z
    simp [Field2D.to3D, hB]
  simp [Div_parP, Div_parP_CtoL, Div_parP_LtoC, h1]

/-- C14, at a concrete input: `demoMesh` has `Bxy = 1`. -/
theorem Div_parP_flux_form_witness :
    Div_parP demoOps demoMesh demoCfg { zeroState with Apar := zLinear } ySquared
      = Grad_parP demoOps demoCfg { zeroState with Apar := zLinear } ySquared ∧
    Div_parP_CtoL demoOps demoMesh demoCfg { zeroState with Apar := zLinear } ySquared
      = Grad_parP_CtoL demoOps demoCfg { zeroState with Apar := zLinear } ySquared ∧
    Div_parP_LtoC demoOps demoMesh demoCfg { zeroState with Apar := zLinear } ySquared
      = Grad_parP_LtoC demoOps demoCfg { zeroState with Apar := zLinear } ySquared :=
  (Div_parP_flux_form demoOps demoMesh demoCfg { zeroState with Apar := zLinear }
    ySquared).2 (fun _ _ => rfl)

/-! ### C15, C16: curvature -/

theorem log2adic_sq (b : ℚ) (hb : b ≠ 0) : log2adic (b ^ 2) = 2 * log2adic b := by
  simp [log2adic, padicValRat.pow hb]

/-- C15. Curvature equals `-bracket(2*log(B), f)` in both branches. For a
logarithm with `log(b^2) = 2*log(b)` at every non-zero `b` and a background
field `Bxy` without zeros, the default branch `-bracket(log(Bxy^2), f)` is
`-bracket(2*log(Bxy), f)`; when the supplied `logB` equals `log(Bxy)`
pointwise, the branches `curv_logB = true` and `curv_logB = false` of
`curvature(f)` return the same field. -/
theorem curvature_branches_agree (ops : Ops) (mesh : Mesh) (cfg : Config) (f : Field3D)
    (hlog : ∀ b : ℚ, b ≠ 0 → ops.log (b ^ 2) = 2 * ops.log b)
    (hB : ∀ x y, mesh.Bxy x y ≠ 0) :
    curvature ops mesh { cfg with curv_logB := false } f
      = -ops.bracket (Field2D.to3D ((2 : ℚ) • fun x y => ops.log (mesh.Bxy x y))) f ∧
    (cfg.logB = (fun x y => ops.log (mesh.Bxy x y)) →
      curvature ops mesh { cfg with curv_logB := true } f
        = curvature ops mesh { cfg with curv_logB := false } f) := by
  have h : (fun x y => ops.log ((mesh.Bxy ^ 2) x y))
      = ((2 : ℚ) • fun x y => ops.log (mesh.Bxy x y) : Field2D) := by
    funext x y
    simp [hlog _ (hB x y)]
  constructor
  · simp only [curvature, Bool.false_eq_true, if_false, h]
  · intro hsup
    simp only [curvature, Bool.false_eq_true, if_false, if_true, h, hsup]

/-- C15, at a concrete input: `Bxy` is 2 or 4, the logarithm is to base 2,
`logB = log(Bxy)`, `f = z`. -/
theorem curvature_branches_agree_witness :
    curvature demoOpsLog2 demoMeshB
        { demoCfg with curv_logB := true,
                       logB := fun x y => demoOpsLog2.log (demoMeshB.Bxy x y) } zLinear
      = curvature demoOpsLog2 demoMeshB
        { demoCfg with curv_logB := false,
                       logB := fun x y => demoOpsLog2.log (demoMeshB.Bxy x y) } zLinear :=
  (curvature_branches_agree demoOpsLog2 demoMeshB
    { demoCfg with logB := fun x y => demoOpsLog2.log (demoMeshB.Bxy x y) } zLinear
    log2adic_sq
    (by intro x y; simp only [demoMeshB]; split_ifs <;> norm_num)).2 rfl

/-- C16. Zero-curvature degeneracy. For a bracket that returns zero whenever
its first argument is spatially constant: if the supplied `logB` is constant
(when `curv_logB`), or `mesh->Bxy` is constant (otherwise), `curvature(f)` is
the zero field for every `f`. -/
theorem curvature_zero_of_constant_logB (ops : Ops) (mesh : Mesh) (cfg : Config)
    (f : Field3D)
    (hbracket : ∀ (c : ℚ) (g : Field3D), ops.bracket (fun _ _ _ => c) g = 0)
    (hsupplied : cfg.curv_logB = true → ∃ c, cfg.logB = fun _ _ => c)
    (hmesh : cfg.curv_logB = false → ∃ b, mesh.Bxy = fun _ _ => b) :
    curvature ops mesh cfg f = 0 := by
  unfold curvature
  cases hc : cfg.curv_logB
  · obtain ⟨b, hb⟩ := hmesh hc
    have h : (Field2D.to3D (fun x y => ops.log ((mesh.Bxy ^ 2) x y)))
        = fun _ _ _ => ops.log (b ^ 2) := by
      funext x y z
      simp [Field2D.to3D, hb]
    simp only [Bool.false_eq_true, if_false, h, hbracket, neg_zero]
  · obtain ⟨c, hcst⟩ := hsupplied hc
    have h : ((2 : ℚ) • cfg.logB).to3D = fun _ _ _ => 2 * c := by
      funext x y z
      simp [Field2D.to3D, hcst]
    simp only [if_true, h, hbracket, neg_zero]

/-- C16, at concrete inputs: the central-difference bracket of `demoOps`
vanishes on constants; `demoMesh` has constant `Bxy`, and the second
configuration supplies a constant `logB`. -/
theorem curvature_zero_of_constant_logB_witness :
    curvature demoOps demoMesh demoCfg ySquared = 0 ∧
    curvature demoOps demoMesh { demoCfg with curv_logB := true, logB := fun _ _ => 3 }
      zLinear = 0 :=
  ⟨curvature_zero_of_constant_logB demoOps demoMesh demoCfg ySquared
      (by intro c g; funext x y z; simp [demoOps])
      (fun h => Bool.noConfusion h) (fun _ => ⟨1, rfl⟩),
   curvature_zero_of_constant_logB demoOps demoMesh
      { demoCfg with curv_logB := true, logB := fun _ _ => 3 } zLinear
      (by intro c g; funext x y z; simp [demoOps])
      (fun _ => ⟨3, rfl⟩) (fun h => Bool.noConfusion h)⟩

/-! ### C17: the polarisation equation -/

theorem closure_phi (ops : Ops) (mesh : Mesh) (cfg : Config) (s : State) :
    (closure ops mesh cfg s).phi
      = ops.communicate (polarisation ops cfg (adiabaticNe ops cfg s)).phi := by
  unfold closure setRei communicateComms setJpar jparBndry helmholtz
  split_ifs <;> rfl

theorem polarisation_phi (ops : Ops) (cfg : Config) (s : State) :
    (polarisation ops cfg s).phi = phiOfDn ops cfg (polarisation_dn ops cfg s) := by
  unfold polarisation phiOfDn
  split_ifs <;> simp [pow_two]

theorem gyroAveragedDn_limit (ops : Ops) (cfg : Config) (s : State)
    (hg1 : ∀ f, ops.gyroPade1 f cfg.rho_e ops.gyroFlagsDefault = f)
    (hg2 : ∀ f, ops.gyroPade2 f cfg.rho_e ops.gyroFlagsDefault = 0) :
    gyroAveragedDn ops cfg s = directDn ops cfg s := by
  simp [gyroAveragedDn, directDn, hg1, hg2]

theorem polarisation_phi_limit (ops : Ops) (cfg : Config) (s : State)
    (hg1 : ∀ f, ops.gyroPade1 f cfg.rho_e ops.gyroFlagsDefault = f)
    (hg2 : ∀ f, ops.gyroPade2 f cfg.rho_e ops.gyroFlagsDefault = 0) :
    (polarisation ops { cfg with small_rho_e := false } s).phi
        = phiOfDn ops cfg (directDn ops cfg s) ∧
    (polarisation ops { cfg with small_rho_e := true } s).phi
        = phiOfDn ops cfg (directDn ops cfg s) := by
  have hT : polarisation_dn ops { cfg with small_rho_e := true } s = directDn ops cfg s := rfl
  have hF : polarisation_dn ops { cfg with small_rho_e := false } s
      = gyroAveragedDn ops cfg s := rfl
  constructor
  · rw [polarisation_phi, hF, gyroAveragedDn_limit ops cfg s hg1 hg2]; rfl
  · rw [polarisation_phi, hT]; rfl

theorem physics_run_ddt_solved (ops : Ops) (mesh : Mesh) (cfg : Config) (s : State)
    (v : Var) (hv : cfg.solved v = true) :
    (physics_run ops mesh cfg s).ddt.get v
      = postProcess ops cfg (residual ops mesh cfg s v) := by
  cases ha : cfg.adiabatic_electrons <;> cases v <;>
    simp [Config.solved, Config.ddtFlag, Var.isElectron, ha] at hv <;>
    simp [physics_run, ionEqs, electronEqs, ionPotentials, residual, Evolved.get, hv, ha]

/-- C18. Post-processing order. For each of the twelve quantities whose
equation block runs (its `*_ddt` flag is set and, for the electron
quantities, `adiabatic_electrons` is not), with `R` the flag-gated sum of
terms of the block, `physics_run` stores `R` when `low_pass_z <= 0` and
`fix_profiles` is off, `lowPass(R, low_pass_z)` when only `low_pass_z > 0`,
`R - DC(R)` when only `fix_profiles`, and `L - DC(L)` with
`L = lowPass(R, low_pass_z)` when both are on. -/
theorem post_processing_order (ops : Ops) (mesh : Mesh) (cfg : Config) (s : State)
    (v : Var) (hv : cfg.solved v = true) :
    (cfg.low_pass_z ≤ 0 → cfg.fix_profiles = false →
      (physics_run ops mesh cfg s).ddt.get v = residual ops mesh cfg s v) ∧
    (cfg.low_pass_z > 0 → cfg.fix_profiles = false →
      (physics_run ops mesh cfg s).ddt.get v
        = ops.lowPass (residual ops mesh cfg s v) cfg.low_pass_z) ∧
    (cfg.low_pass_z ≤ 0 → cfg.fix_profiles = true →
      (physics_run ops mesh cfg s).ddt.get v
        = residual ops mesh cfg s v - (ops.DC (residual ops mesh cfg s v)).to3D) ∧
    (cfg.low_pass_z > 0 → cfg.fix_profiles = true →
      (physics_run ops mesh cfg s).ddt.get v
        = ops.lowPass (residual ops mesh cfg s v) cfg.low_pass_z
          - (ops.DC (ops.lowPass (residual ops mesh cfg s v) cfg.low_pass_z)).to3D) := by
  rw [physics_run_ddt_solved ops mesh cfg s v hv]
  refine ⟨fun h1 h2 => ?_, fun h1 h2 => ?_, fun h1 h2 => ?_, fun h1 h2 => ?_⟩
  · simp [postProcess, not_lt.mpr h1, h2]
  · simp [postProcess, h1, h2]
  · simp [postProcess, not_lt.mpr h1, h2]
  · simp [postProcess, h1, h2]

/-- C18, at a concrete input: ion parallel temperature equation with
`low_pass_z = 1` and `fix_profiles` on. -/
theorem post_processing_order_witness :
    (physics_run demoOps demoMesh
        { demoCfg with tipar_ddt := true, low_pass_z := 1, fix_profiles := true }
        { zeroState with ev := { zeroEvolved with Tipar := zLinear } }).ddt.get Var.Tipar
      = demoOps.lowPass (residual demoOps demoMesh
          { demoCfg with tipar_ddt := true, low_pass_z := 1, fix_profiles := true }
          { zeroState with ev := { zeroEvolved with Tipar := zLinear } } Var.Tipar) 1
        - (demoOps.DC (demoOps.lowPass (residual demoOps demoMesh
          { demoCfg with tipar_ddt := true, low_pass_z := 1, fix_profiles := true }
          { zeroState with ev := { zeroEvolved with Tipar := zLinear } } Var.Tipar) 1)).to3D :=
  (post_processing_order demoOps demoMesh
    { demoCfg with tipar_ddt := true, low_pass_z := 1, fix_profiles := true }
    { zeroState with ev := { zeroEvolved with Tipar := zLinear } } Var.Tipar rfl).2.2.2
    (by decide) rfl

/-! ### C19: the dissipation step without dissipation -/

theorem UE_Grad_D_zero (ops : Ops) (mesh : Mesh) (cfg : Config) (f p : Field3D)
    (hperp : cfg.nu_perp = 0) (hpar : cfg.nu_par = 0) :
    UE_Grad_D ops mesh cfg f p = 0 := by
  simp [UE_Grad_D, hperp, hpar]

/-- C19. The dissipation step contains only artificial-dissipation
contributions: when `nu_perp = 0` and `nu_par = 0`, `UE_Grad_D` returns the
zero field and every time derivative written by `physics_dissipation` (that
of every registered quantity) is zero, for every state and flag setting. -/
theorem dissipation_only_artificial (ops : Ops) (mesh : Mesh) (cfg : Config) (s : State)
    (hperp : cfg.nu_perp = 0) (hpar : cfg.nu_par = 0) :
    (∀ f p, UE_Grad_D ops mesh cfg f p = 0) ∧
    (∀ v, cfg.solved v = true → (physics_dissipation ops mesh cfg s).ddt.get v = 0) := by
  refine ⟨fun f p => UE_Grad_D_zero ops mesh cfg f p hperp hpar, fun v hv => ?_⟩
  cases ha : cfg.adiabatic_electrons <;> cases v <;>
    simp [Config.solved, Config.ddtFlag, Var.isElectron, ha] at hv <;>
    simp [physics_dissipation, dissipationIons, dissipationElectrons,
      UE_Grad_D_zero ops mesh cfg _ _ hperp hpar, Evolved.get, hv, ha]

/-- C19, at a concrete input: both coefficients zero, the ion parallel
temperature equation enabled, `Tipar = y^2`. -/
theorem dissipation_only_artificial_witness :
    UE_Grad_D demoOps demoMesh { demoCfg with nu_perp := 0, nu_par := 0, tipar_ddt := true }
      ySquared 0 = 0 ∧
    (physics_dissipation demoOps demoMesh
        { demoCfg with nu_perp := 0, nu_par := 0, tipar_ddt := true }
        { zeroState with ev := { zeroEvolved with Tipar := ySquared } }).ddt.get Var.Tipar
      = 0 :=
  have h := dissipation_only_artificial demoOps demoMesh
    { demoCfg with nu_perp := 0, nu_par := 0, tipar_ddt := true }
    { zeroState with ev := { zeroEvolved with Tipar := ySquared } } rfl rfl
  ⟨h.1 ySquared 0, h.2 Var.Tipar rfl⟩

end Gem

namespace LapdDrift

/-! ### C20: the 2D and 3D Arakawa overloads -/

theorem arakawa23_eq_arakawa33 (mesh : Mesh) (f : Field2D) (p : Field3D) (jx jy jz : Int) :
    arakawa23 mesh f p jx jy jz = arakawa33 mesh f.to3D p jx jy jz := by
  simp only [arakawa23, arakawa33, Field2D.to3D]
  ring

/-- C20. The 2D and 3D Arakawa overloads agree: with `arakawa = true`, at
every point of the loop nest, `vE_Grad(const Field2D &f, const Field3D &p)`
applied to `f2` equals `vE_Grad(const Field3D &f, const Field3D &p)` applied
to the 3D field with `f3[jx][jy][jz] = f2[jx][jy]`. -/
theorem vE_Grad_overloads_agree (ops : Ops) (mesh : Mesh) (cfg : Config)
    (f2 : Field2D) (p : Field3D) (jx jy jz : Int) (harakawa : cfg.arakawa = true)
    (hx : mesh.xstart ≤ jx ∧ jx ≤ mesh.xend) (hy : mesh.ystart ≤ jy ∧ jy ≤ mesh.yend)
    (hz : 0 ≤ jz ∧ jz < mesh.ngz - 1) :
    vE_Grad23 ops mesh cfg f2 p jx jy jz = vE_Grad33 ops mesh cfg f2.to3D p jx jy jz := by
  have hin : inArakawaLoop mesh jx jy jz := ⟨hx.1, hx.2, hy.1, hy.2, hz.1, hz.2⟩
  simp only [vE_Grad23, vE_Grad33, harakawa, if_true, hin]
  exact arakawa23_eq_arakawa33 mesh f2 p jx jy jz

/-- C20, at a concrete point: on `demoMesh` at `[2][1][1]` both overloads give
25/3 for `f2 = x^2` and `p = x z`. -/
theorem vE_Grad_overloads_agree_witness :
    vE_Grad23 demoOps demoMesh { demoCfg with arakawa := true } demoF2 demoP 2 1 1
      = vE_Grad33 demoOps demoMesh { demoCfg with arakawa := true } demoF2.to3D demoP 2 1 1
    ∧ vE_Grad23 demoOps demoMesh { demoCfg with arakawa := true } demoF2 demoP 2 1 1
      = 25/3 := by
  refine ⟨vE_Grad_overloads_agree demoOps demoMesh { demoCfg with arakawa := true }
    demoF2 demoP 2 1 1 rfl (by decide) (by decide) (by decide), ?_⟩
  simp [vE_Grad23, inArakawaLoop, arakawa23, demoMesh, demoCfg, demoF2, demoP, Int.tmod]
  norm_num

end LapdDrift

/-! ## Theorems: Ampere's law, Ohm's law and the unperturbed state -/

namespace Gem

/-! ### C21: the Helmholtz equation for `Apar` -/

theorem derivedFields_Apar (ops : Ops) (mesh : Mesh) (cfg : Config) (s : State) :
    (derivedFields ops mesh cfg s).Apar
      = ops.invert_laplace (helmholtzB cfg s) cfg.apar_flags (some (helmholtzA cfg)) := by
  unfold derivedFields setJpar jparBndry helmholtz polarisation adiabaticNe helmholtzB
    helmholtzA
  split_ifs <;> rfl

theorem derivedFields_ev (ops : Ops) (mesh : Mesh) (cfg : Config) (s : State) :
    (derivedFields ops mesh cfg s).ev.ApUi = s.ev.ApUi ∧
    (derivedFields ops mesh cfg s).ev.ApUe = s.ev.ApUe := by
  unfold derivedFields setJpar jparBndry helmholtz polarisation adiabaticNe
  split_ifs <;> exact ⟨rfl, rfl⟩

/-- The algebra behind Ampere's law: the difference of the two recovered
velocities is the source minus the coefficient times `Apar`. -/
theorem velocity_difference (Ai Ae A : Field3D) (beta mu_i mu_e : ℚ) :
    divS (Ae - beta • A) mu_e - divS (Ai - beta • A) mu_i
      = (divS Ae mu_e - divS Ai mu_i)
        - Field2D.to3D (fun _ _ => beta * (1 / mu_e - 1 / mu_i)) * A := by
  funext x y z
  simp only [divS, Field2D.to3D, Pi.sub_apply, Pi.smul_apply, Pi.mul_apply, smul_eq_mul]
  ring

/-- C21. The Helmholtz closure reproduces Ampere's law. With
`a = beta_e*(1/mu_e - 1/mu_i)` and `b = ApUe/mu_e - ApUi/mu_i`, if the field
`x` returned by `invert_laplace(b, apar_flags, &a)` satisfies
`Delp2(x) + a*x = b`, then for non-zero `mu_e`, `mu_i` and with boundary
zeroing off the fields `Apar`, `Ui`, `Ue`, `Jpar` after line 583 of
`physics_run` satisfy `Delp2(Apar) = Ue - Ui = -Jpar` at every point. When
the halo exchange leaves field values unchanged the same holds for the
fields left by `physics_run`. -/
theorem helmholtz_ampere (ops : Ops) (mesh : Mesh) (cfg : Config) (s : State)
    (hmui : cfg.mu_i ≠ 0) (hmue : cfg.mu_e ≠ 0) (hw : cfg.jpar_bndry_width ≤ 0)
    (hsolve : ops.Delp2 (ops.invert_laplace (helmholtzB cfg s) cfg.apar_flags
                (some (helmholtzA cfg)))
              + (helmholtzA cfg).to3D * ops.invert_laplace (helmholtzB cfg s) cfg.apar_flags
                  (some (helmholtzA cfg))
              = helmholtzB cfg s) :
    (ops.Delp2 (derivedFields ops mesh cfg s).Apar
        = (derivedFields ops mesh cfg s).Ue - (derivedFields ops mesh cfg s).Ui ∧
      (derivedFields ops mesh cfg s).Ue - (derivedFields ops mesh cfg s).Ui
        = -(derivedFields ops mesh cfg s).Jpar) ∧
    ((∀ f, ops.communicate f = f) →
      ops.Delp2 (physics_run ops mesh cfg s).Apar
        = (physics_run ops mesh cfg s).Ue - (physics_run ops mesh cfg s).Ui ∧
      (physics_run ops mesh cfg s).Ue - (physics_run ops mesh cfg s).Ui
        = -(physics_run ops mesh cfg s).Jpar) := by
  have hd : ops.Delp2 (derivedFields ops mesh cfg s).Apar
        = (derivedFields ops mesh cfg s).Ue - (derivedFields ops mesh cfg s).Ui ∧
      (derivedFields ops mesh cfg s).Ue - (derivedFields ops mesh cfg s).Ui
        = -(derivedFields ops mesh cfg s).Jpar := by
    obtain ⟨hUi, hUe⟩ := derivedFields_velocities ops mesh cfg s hw
    obtain ⟨hAi, hAe⟩ := derivedFields_ev ops mesh cfg s
    have hJ : (derivedFields ops mesh cfg s).Jpar
        = (derivedFields ops mesh cfg s).Ui - (derivedFields ops mesh cfg s).Ue := rfl
    refine ⟨?_, by rw [hJ, neg_sub]⟩
    rw [hUi, hUe, hAi, hAe, velocity_difference, derivedFields_Apar]
    exact eq_sub_of_add_eq hsolve
  refine ⟨hd, fun hcomm => ?_⟩
  obtain ⟨_, _, h3, h4, h5, h6⟩ := physics_run_derivedFields ops mesh cfg s hcomm
  rw [h3, h4, h5, h6]
  exact hd

/-- C21, at a concrete input: `beta_e = 1`, `mu_i = 1`, `mu_e = -1` (so
`a = -2`), `ApUi = y` (so `b = -y`); the solver of `demoOps` returns
`x = y/2`, and `Delp2(x) - 2 x = -y`. -/
theorem helmholtz_ampere_witness :
    demoOps.Delp2 (physics_run demoOps demoMesh demoCfg
        { zeroState with ev := { zeroEvolved with ApUi := yLinear } }).Apar
      = (physics_run demoOps demoMesh demoCfg
          { zeroState with ev := { zeroEvolved with ApUi := yLinear } }).Ue
        - (physics_run demoOps demoMesh demoCfg
          { zeroState with ev := { zeroEvolved with ApUi := yLinear } }).Ui ∧
    (physics_run demoOps demoMesh demoCfg
        { zeroState with ev := { zeroEvolved with ApUi := yLinear } }).Ue
      - (physics_run demoOps demoMesh demoCfg
          { zeroState with ev := { zeroEvolved with ApUi := yLinear } }).Ui
      = -(physics_run demoOps demoMesh demoCfg
          { zeroState with ev := { zeroEvolved with ApUi := yLinear } }).Jpar :=
  (helmholtz_ampere demoOps demoMesh demoCfg
    { zeroState with ev := { zeroEvolved with ApUi := yLinear } }
    (by decide) (by decide) (by decide)
    (by
      funext x y z
      simp [helmholtzA, helmholtzB, demoOps, demoCfg, zeroState, zeroEvolved, yLinear, divS,
        Field2D.to3D]
      ring)).2 (fun _ => rfl)

end Gem

namespace LapdDrift

/-! ### C22: the zero-electron-mass current -/

theorem derivedStage_eq_ohmsLaw (ops : Ops) (cfg : Config) (s : State) :
    derivedStage ops cfg s = ohmsLaw ops cfg (preOhm ops cfg s) := rfl

theorem ohmsLaw_zero_mass (ops : Ops) (cfg : Config) (s : State)
    (hZ : cfg.ZeroElMass = true) :
    (ohmsLaw ops cfg s).jpar = ops.communicate (ops.applyBoundary (jparZeroElMass ops cfg s)) ∧
    (ohmsLaw ops cfg s).phi = s.phi ∧ (ohmsLaw ops cfg s).Ni = s.Ni ∧
    (ohmsLaw ops cfg s).Tet = s.Tet ∧ (ohmsLaw ops cfg s).Nit = s.Nit ∧
    (ohmsLaw ops cfg s).nu = s.nu := by
  simp [ohmsLaw, hZ, jparZeroElMass]

theorem rhsAjpar_eq_ajparTerms (ops : Ops) (cfg : Config) (s : State)
    (h : cfg.evolve_ajpar = true) :
    rhsAjpar ops cfg s = ajparTerms ops cfg s s.jpar := by
  simp [rhsAjpar, ajparTerms, h]

theorem preOhm_Nit (ops : Ops) (cfg : Config) (s : State) (h : cfg.nonlinear = false) :
    (preOhm ops cfg s).Nit = cfg.Ni0.to3D := by
  simp [preOhm, updateCoefficients, updateProfiles, h]

/-- The sum of the terms of the `Ajpar` equation at the current of line 401,
in closed form. -/
theorem ajparTerms_jparZeroElMass (ops : Ops) (cfg : Config) (s : State) (x y z : Int)
    (hf : cfg.fmei ≠ 0) (hnu : s.nu x y z ≠ 0) (hNit : s.Nit x y z ≠ 0)
    (hNi0 : cfg.Ni0 x y ≠ 0) :
    ajparTerms ops cfg s (jparZeroElMass ops cfg s) x y z
      = (1 / cfg.fmei) * (s.Tet x y z * ops.Grad_par_LtoC s.Ni x y z
            - s.Nit x y z * ops.Grad_par_LtoC s.phi x y z)
          * (1 / cfg.Ni0 x y - 1 / s.Nit x y z) := by
  simp only [ajparTerms, jparZeroElMass, Field2D.to3D, Pi.add_apply, Pi.sub_apply,
    Pi.mul_apply, Pi.div_apply, Pi.smul_apply, Pi.zero_apply, smul_eq_mul]
  field_simp
  ring

/-- The terms of the `Ajpar` equation read the fields `phi`, `Ni`, `Tet`,
`Nit`, `nu` only. -/
theorem ajparTerms_congr (ops : Ops) (cfg : Config) (s s' : State) (j : Field3D)
    (h1 : s'.phi = s.phi) (h2 : s'.Ni = s.Ni) (h3 : s'.Tet = s.Tet) (h4 : s'.Nit = s.Nit)
    (h5 : s'.nu = s.nu) :
    ajparTerms ops cfg s' j = ajparTerms ops cfg s j := by
  simp only [ajparTerms, h1, h2, h3, h4, h5]

/-- C22 (as amended). Zero-electron-mass current and the `Ajpar` equation.
In `physics_run` with `ZeroElMass = true`, `jpar` is the current of line 401
followed by its boundary condition and halo exchange. At every point where
`fmei`, `nu`, `Nit` and `Ni0` are non-zero and `Nit = Ni0` (every such point
in linear mode), the current of line 401 makes the right-hand side of the
`Ajpar` equation vanish: `(1/fmei)*Grad_par_LtoC(phi) -
(1/fmei)*(Tet/Nit)*Grad_par_LtoC(Ni) + 0.51*nu*jpar/Ni0 = 0`. When the
boundary condition and the halo exchange leave field values unchanged, the
same holds for the `jpar` left by lines 335-415. -/
theorem zero_mass_ohms_law (ops : Ops) (cfg : Config) (s : State) (x y z : Int)
    (hZ : cfg.ZeroElMass = true) (hf : cfg.fmei ≠ 0)
    (hnu : (preOhm ops cfg s).nu x y z ≠ 0) (hNit : (preOhm ops cfg s).Nit x y z ≠ 0)
    (hNi0 : cfg.Ni0 x y ≠ 0) :
    (derivedStage ops cfg s).jpar
      = ops.communicate (ops.applyBoundary (jparZeroElMass ops cfg (preOhm ops cfg s))) ∧
    ((preOhm ops cfg s).Nit x y z = cfg.Ni0 x y →
      ajparTerms ops cfg (preOhm ops cfg s)
        (jparZeroElMass ops cfg (preOhm ops cfg s)) x y z = 0) ∧
    (cfg.nonlinear = false →
      ajparTerms ops cfg (preOhm ops cfg s)
        (jparZeroElMass ops cfg (preOhm ops cfg s)) x y z = 0) ∧
    (cfg.nonlinear = false → (∀ f, ops.applyBoundary f = f) → (∀ f, ops.communicate f = f) →
      ajparTerms ops cfg (derivedStage ops cfg s) (derivedStage ops cfg s).jpar x y z = 0) := by
  have hsame : (preOhm ops cfg s).Nit x y z = cfg.Ni0 x y →
      ajparTerms ops cfg (preOhm ops cfg s)
        (jparZeroElMass ops cfg (preOhm ops cfg s)) x y z = 0 := by
    intro h
    rw [ajparTerms_jparZeroElMass ops cfg _ x y z hf hnu hNit hNi0, h, sub_self, mul_zero]
  have hlin : cfg.nonlinear = false →
      ajparTerms ops cfg (preOhm ops cfg s)
        (jparZeroElMass ops cfg (preOhm ops cfg s)) x y z = 0 := by
    intro h
    apply hsame
    rw [preOhm_Nit ops cfg s h]
    rfl
  obtain ⟨hj, h1, h2, h3, h4, h5⟩ := ohmsLaw_zero_mass ops cfg (preOhm ops cfg s) hZ
  refine ⟨by rw [derivedStage_eq_ohmsLaw]; exact hj, hsame, hlin, fun h hb hc => ?_⟩
  rw [derivedStage_eq_ohmsLaw, hj, hb, hc,
    ajparTerms_congr ops cfg (preOhm ops cfg s) _ _ h1 h2 h3 h4 h5]
  exact hlin h

/-- C22 (as amended), at a concrete input: linear mode, `Ni = y`, unit
parameters; at `[0][1][0]` the current of line 401 is `100/51` and the terms
of the `Ajpar` equation add up to 0. -/
theorem zero_mass_ohms_law_witness :
    jparZeroElMass demoOps { demoCfg with ZeroElMass := true }
      (preOhm demoOps { demoCfg with ZeroElMass := true }
        { zeroState with Ni := demoNi }) 0 1 0 = 100/51 ∧
    ajparTerms demoOps { demoCfg with ZeroElMass := true }
      (preOhm demoOps { demoCfg with ZeroElMass := true } { zeroState with Ni := demoNi })
      (jparZeroElMass demoOps { demoCfg with ZeroElMass := true }
        (preOhm demoOps { demoCfg with ZeroElMass := true }
          { zeroState with Ni := demoNi })) 0 1 0 = 0 :=
  ⟨by
    simp [jparZeroElMass, preOhm, updateCoefficients, updateProfiles, communicateComms,
      invertApar, invertPhi, convertDensity, demoOps, demoCfg, zeroState, demoNi,
      Field2D.to3D],
   (zero_mass_ohms_law demoOps { demoCfg with ZeroElMass := true }
      { zeroState with Ni := demoNi } 0 1 0 rfl (by decide)
      (by
        simp [preOhm, updateCoefficients, updateProfiles, communicateComms,
          invertApar, invertPhi, convertDensity, demoOps, demoCfg, zeroState, demoNi,
          Field2D.to3D])
      (by
        simp [preOhm, updateCoefficients, updateProfiles, communicateComms,
          invertApar, invertPhi, convertDensity, demoOps, demoCfg, zeroState, demoNi,
          Field2D.to3D])
      (by simp [demoCfg])).2.2.1 rfl⟩

/-- C22, counterexample: nonlinear mode with `ZeroElMass = true`, unit
parameters and `Ni = y`. At `[0][1][0]` `fmei = 1`, `nu = 2`, `Nit = 2` and
`Ni0 = 1` are non-zero, the current `jpar` is `50/51`, and the
right-hand side of the `Ajpar` equation is `1/2`, not 0. -/
theorem ajpar_terms_nonlinear_nonzero :
    ({ demoCfg with ZeroElMass := true, nonlinear := true } : Config).fmei = 1 ∧
    (preOhm demoOps { demoCfg with ZeroElMass := true, nonlinear := true }
      { zeroState with Ni := demoNi }).nu 0 1 0 = 2 ∧
    (preOhm demoOps { demoCfg with ZeroElMass := true, nonlinear := true }
      { zeroState with Ni := demoNi }).Nit 0 1 0 = 2 ∧
    ({ demoCfg with ZeroElMass := true, nonlinear := true } : Config).Ni0 0 1 = 1 ∧
    (physics_run demoOps demoMesh { demoCfg with ZeroElMass := true, nonlinear := true }
      { zeroState with Ni := demoNi } 0).jpar 0 1 0 = 50/51 ∧
    jparZeroElMass demoOps { demoCfg with ZeroElMass := true, nonlinear := true }
      (preOhm demoOps { demoCfg with ZeroElMass := true, nonlinear := true }
        { zeroState with Ni := demoNi }) 0 1 0 = 50/51 ∧
    ajparTerms demoOps { demoCfg with ZeroElMass := true, nonlinear := true }
      (preOhm demoOps { demoCfg with ZeroElMass := true, nonlinear := true }
        { zeroState with Ni := demoNi })
      (jparZeroElMass demoOps { demoCfg with ZeroElMass := true, nonlinear := true }
        (preOhm demoOps { demoCfg with ZeroElMass := true, nonlinear := true }
          { zeroState with Ni := demoNi })) 0 1 0 = 1/2 := by
  refine ⟨rfl, ?_, ?_, rfl, ?_, ?_, ?_⟩
  · simp [preOhm, updateCoefficients, updateProfiles, communicateComms,
      invertApar, invertPhi, convertDensity, demoOps, demoCfg, zeroState, demoNi,
      Field2D.to3D]
    norm_num
  · simp [preOhm, updateCoefficients, updateProfiles, communicateComms,
      invertApar, invertPhi, convertDensity, demoOps, demoCfg, zeroState, demoNi,
      Field2D.to3D]
    norm_num
  · simp [physics_run, residualStage, derivedStage, ohmsLaw, updateCoefficients,
      updateProfiles, communicateComms, invertApar, invertPhi, convertDensity, demoOps,
      demoCfg, zeroState, demoNi, Field2D.to3D]
    norm_num
  · simp [jparZeroElMass, preOhm, updateCoefficients, updateProfiles, communicateComms,
      invertApar, invertPhi, convertDensity, demoOps, demoCfg, zeroState, demoNi,
      Field2D.to3D]
    norm_num
  · simp [ajparTerms, jparZeroElMass, preOhm, updateCoefficients, updateProfiles,
      communicateComms, invertApar, invertPhi, convertDensity, demoOps, demoCfg, zeroState,
      demoNi, Field2D.to3D]
    norm_num

end LapdDrift

namespace Gem

/-! ### C23: the unperturbed state -/

theorem field_to3D_const (c : ℚ) : Field2D.to3D (fun _ _ => c) = fun _ _ _ => c := rfl

theorem field_const_add_const (a b : ℚ) :
    ((fun _ _ _ => a) + (fun _ _ _ => b) : Field3D) = fun _ _ _ => a + b := rfl

theorem field_smul_const (a b : ℚ) : (a • (fun _ _ _ => b) : Field3D) = fun _ _ _ => a * b := rfl

/-- The twelve sums of terms on a state with zero evolved fields, zero
potentials, zero `Apar`, velocities, current and friction, for uniform
equilibrium profiles and `Grad_par_logB = 0`: all vanish except that of the
electron parallel heat flux, which is the constant `-Landau*(tau_e/mu_e)`. -/
theorem rhs_unperturbed (ops : Ops) (mesh : Mesh) (cfg : Config) (t : State)
    (hbl : ∀ f, ops.bracket 0 f = 0) (hbr : ∀ p, ops.bracket p 0 = 0)
    (hgC : ∀ c : ℚ, ops.Grad_par_CtoL (fun _ _ _ => c) = 0)
    (hgL : ops.Grad_par_LtoC 0 = 0) (hg2 : ops.Grad2_par2 0 = 0)
    (hNe0 : ∃ c, cfg.Ne0 = fun _ _ => c) (hNi0 : ∃ c, cfg.Ni0 = fun _ _ => c)
    (hTe0 : ∃ c, cfg.Te0 = fun _ _ => c) (hTi0 : ∃ c, cfg.Ti0 = fun _ _ => c)
    (hG : cfg.Grad_par_logB = 0)
    (hev : t.ev = zeroEvolved) (hpG : t.phi_G = 0) (hPG : t.Phi_G = 0) (hA : t.Apar = 0)
    (hUi : t.Ui = 0) (hUe : t.Ue = 0) (hJ : t.Jpar = 0) (hR : t.Rei = 0) :
    rhsNe ops mesh cfg t = 0 ∧ rhsApUe ops mesh cfg t = 0 ∧ rhsTepar ops mesh cfg t = 0 ∧
    rhsTeperp ops mesh cfg t = 0 ∧
    rhsQepar ops mesh cfg t = (fun _ _ _ => -(cfg.Landau * (cfg.tau_e / cfg.mu_e))) ∧
    rhsQeperp ops mesh cfg t = 0 ∧
    rhsNi ops mesh cfg t = 0 ∧ rhsApUi ops mesh cfg t = 0 ∧ rhsTipar ops mesh cfg t = 0 ∧
    rhsTiperp ops mesh cfg t = 0 ∧ rhsQipar ops mesh cfg t = 0 ∧
    rhsQiperp ops mesh cfg t = 0 := by
  obtain ⟨ev, ddt, phi, Apar, Ui, Ue, Jpar, phi_G, Phi_G, Rei⟩ := t
  simp only at hev hpG hPG hA hUi hUe hJ hR
  subst hev hpG hPG hA hUi hUe hJ hR
  obtain ⟨cNe, hNe0⟩ := hNe0
  obtain ⟨cNi, hNi0⟩ := hNi0
  obtain ⟨cTe, hTe0⟩ := hTe0
  obtain ⟨cTi, hTi0⟩ := hTi0
  have hcurv : curvature ops mesh cfg 0 = 0 := by
    unfold curvature
    split_ifs <;> simp [hbr]
  have hz : ∀ f : Field3D, (0 : Field3D) / f = 0 := by
    intro f; funext x y z; simp
  have hdiv : ∀ t : State, t.Apar = 0 → Div_parP_LtoC ops mesh cfg t 0 = 0 := by
    intro t ht
    simp [Div_parP_LtoC, Grad_parP_LtoC, hgL, hbl, hz, ht]
  have hgrad : ∀ (t : State) (c : ℚ), t.Apar = 0 →
      Grad_parP_CtoL ops cfg t (fun _ _ _ => c) = 0 := by
    intro t c ht
    simp [Grad_parP_CtoL, hgC, hbl, ht]
  have hgrad0 : ∀ t : State, t.Apar = 0 → Grad_parP_CtoL ops cfg t 0 = 0 :=
    fun t ht => hgrad t 0 ht
  refine ⟨?_, ?_, ?_, ?_, ?_, ?_, ?_, ?_, ?_, ?_, ?_, ?_⟩
  · simp [rhsNe, UE_Grad, WE_Grad, zeroEvolved, hbl, hcurv, hdiv]
  · simp [rhsApUe, UE_Grad, WE_Grad, zeroEvolved, hbl, hcurv, hgrad0, hG, hNe0, hTe0,
      field_to3D_const, field_const_add_const, hgrad]
  · simp [rhsTepar, UE_Grad, WE_Grad, S_D_e, zeroEvolved, hbl, hcurv, hdiv, hG]
  · simp [rhsTeperp, UE_Grad, WE_Grad, S_D_e, zeroEvolved, hbl, hcurv, hdiv, hG]
  · simp [rhsQepar, UE_Grad, WE_Grad, K_par_e, K_D_e, zeroEvolved, hbl, hcurv, hG, hTe0,
      field_to3D_const, field_smul_const, hgrad, hg2]
    funext x y z
    simp
  · simp [rhsQeperp, UE_Grad, WE_Grad, K_perp_e, K_D_e, zeroEvolved, hbl, hcurv, hG, hTe0,
      field_to3D_const, field_smul_const, hgrad]
  · simp [rhsNi, UE_Grad, WE_Grad, zeroEvolved, hbl, hcurv, hdiv]
  · simp [rhsApUi, UE_Grad, WE_Grad, zeroEvolved, hbl, hcurv, hgrad0, hG, hNi0, hTi0,
      field_to3D_const, field_const_add_const, hgrad]
  · simp [rhsTipar, UE_Grad, WE_Grad, S_D_i, zeroEvolved, hbl, hcurv, hdiv, hG]
  · simp [rhsTiperp, UE_Grad, WE_Grad, S_D_i, zeroEvolved, hbl, hcurv, hdiv, hG]
  · simp [rhsQipar, UE_Grad, WE_Grad, K_par_i, K_D_i, zeroEvolved, hbl, hcurv, hG, hTi0,
      field_to3D_const, field_smul_const, hgrad]
  · simp [rhsQiperp, UE_Grad, WE_Grad, K_perp_i, K_D_i, zeroEvolved, hbl, hcurv, hG, hTi0,
      field_to3D_const, field_smul_const, hgrad]

theorem electronEqs_Rei (ops : Ops) (mesh : Mesh) (cfg : Config) (s : State) :
    (electronEqs ops mesh cfg s).Rei = s.Rei := by
  unfold electronEqs electronPotentials
  cases cfg.adiabatic_electrons <;> cases cfg.small_rho_e <;> simp

/-- The closure on a state with zero evolved fields, without adiabatic
electrons and boundary zeroing, for operators that return zero on zero. -/
theorem closure_unperturbed (ops : Ops) (mesh : Mesh) (cfg : Config) (s : State)
    (hp1 : ∀ r fl, ops.gyroPade1 0 r fl = 0) (hp2 : ∀ r fl, ops.gyroPade2 0 r fl = 0)
    (hinv : ∀ fl a, ops.invert_laplace 0 fl a = 0) (hcomm : ops.communicate 0 = 0)
    (hade : cfg.adiabatic_electrons = false) (hw : cfg.jpar_bndry_width ≤ 0)
    (hev : s.ev = zeroEvolved) :
    (closure ops mesh cfg s).ev = zeroEvolved ∧ (closure ops mesh cfg s).phi = 0 ∧
    (closure ops mesh cfg s).Apar = 0 ∧ (closure ops mesh cfg s).Ui = 0 ∧
    (closure ops mesh cfg s).Ue = 0 ∧ (closure ops mesh cfg s).Jpar = 0 ∧
    (closure ops mesh cfg s).Rei = 0 := by
  obtain ⟨ev, ddt, phi, Apar, Ui, Ue, Jpar, phi_G, Phi_G, Rei⟩ := s
  simp only at hev
  subst hev
  have h0 : ∀ c : ℚ, divS (0 : Field3D) c = 0 := by
    intro c; funext x y z; simp [divS]
  have hci : ∀ v, commIf ops cfg v 0 = 0 := by
    intro v; unfold commIf; split_ifs <;> simp [hcomm]
  cases hs : cfg.small_rho_e <;>
    simp [closure, setRei, communicateComms, setJpar, jparBndry, helmholtz, polarisation,
      polarisation_dn, adiabaticNe, zeroEvolved, h0, hci, hp1, hp2, hinv, hcomm, hade, hs,
      not_lt.mpr hw]

theorem electronPotentials_unperturbed (ops : Ops) (cfg : Config) (s : State)
    (hp1 : ∀ r fl, ops.gyroPade1 0 r fl = 0) (hp2 : ∀ r fl, ops.gyroPade2 0 r fl = 0)
    (hcomm : ops.communicate 0 = 0) (hphi : s.phi = 0) :
    (electronPotentials ops cfg s).phi_G = 0 ∧ (electronPotentials ops cfg s).Phi_G = 0 ∧
    (electronPotentials ops cfg s).ev = s.ev ∧ (electronPotentials ops cfg s).Apar = s.Apar ∧
    (electronPotentials ops cfg s).Ui = s.Ui ∧ (electronPotentials ops cfg s).Ue = s.Ue ∧
    (electronPotentials ops cfg s).Jpar = s.Jpar ∧
    (electronPotentials ops cfg s).Rei = s.Rei := by
  unfold electronPotentials
  cases cfg.small_rho_e <;> simp [hphi, hp1, hp2, hcomm]

theorem ionPotentials_unperturbed (ops : Ops) (cfg : Config) (s : State)
    (hp1 : ∀ r fl, ops.gyroPade1 0 r fl = 0) (hp2 : ∀ r fl, ops.gyroPade2 0 r fl = 0)
    (hcomm : ops.communicate 0 = 0) (hphi : s.phi = 0) :
    (ionPotentials ops cfg s).phi_G = 0 ∧ (ionPotentials ops cfg s).Phi_G = 0 ∧
    (ionPotentials ops cfg s).ev = s.ev ∧ (ionPotentials ops cfg s).Apar = s.Apar ∧
    (ionPotentials ops cfg s).Ui = s.Ui ∧ (ionPotentials ops cfg s).Ue = s.Ue ∧
    (ionPotentials ops cfg s).Jpar = s.Jpar ∧ (ionPotentials ops cfg s).Rei = s.Rei := by
  unfold ionPotentials
  simp [hphi, hp1, hp2, hcomm]

/-- The sums of terms of `physics_run` on the unperturbed state: zero evolved
fields, uniform equilibrium profiles, `Grad_par_logB = 0`, no adiabatic
electrons and no boundary zeroing, for operators that return zero on the zero
field and a `Grad_par_CtoL` that vanishes on constant fields. Every sum
vanishes except that of the electron parallel heat flux, which is the
constant `-Landau*(tau_e/mu_e)`. -/
theorem residual_unperturbed (ops : Ops) (mesh : Mesh) (cfg : Config) (s : State)
    (hbl : ∀ f, ops.bracket 0 f = 0) (hbr : ∀ p, ops.bracket p 0 = 0)
    (hgC : ∀ c : ℚ, ops.Grad_par_CtoL (fun _ _ _ => c) = 0)
    (hgL : ops.Grad_par_LtoC 0 = 0) (hg2 : ops.Grad2_par2 0 = 0)
    (hp1 : ∀ r fl, ops.gyroPade1 0 r fl = 0) (hp2 : ∀ r fl, ops.gyroPade2 0 r fl = 0)
    (hinv : ∀ fl a, ops.invert_laplace 0 fl a = 0) (hcomm : ops.communicate 0 = 0)
    (hNe0 : ∃ c, cfg.Ne0 = fun _ _ => c) (hNi0 : ∃ c, cfg.Ni0 = fun _ _ => c)
    (hTe0 : ∃ c, cfg.Te0 = fun _ _ => c) (hTi0 : ∃ c, cfg.Ti0 = fun _ _ => c)
    (hG : cfg.Grad_par_logB = 0)
    (hade : cfg.adiabatic_electrons = false) (hw : cfg.jpar_bndry_width ≤ 0)
    (hev : s.ev = zeroEvolved) (v : Var) :
    residual ops mesh cfg s v
      = if v = Var.qepar then ((fun _ _ _ => -(cfg.Landau * (cfg.tau_e / cfg.mu_e))) : Field3D)
        else 0 := by
  obtain ⟨c1, c2, c3, c4, c5, c6, c7⟩ :=
    closure_unperturbed ops mesh cfg s hp1 hp2 hinv hcomm hade hw hev
  obtain ⟨e1, e2, e3, e4, e5, e6, e7, e8⟩ :=
    electronPotentials_unperturbed ops cfg (closure ops mesh cfg s) hp1 hp2 hcomm c2
  obtain ⟨f1, f2, f3, f4, f5, f6⟩ := electronEqs_frame ops mesh cfg (closure ops mesh cfg s)
  have f7 := electronEqs_Rei ops mesh cfg (closure ops mesh cfg s)
  obtain ⟨i1, i2, i3, i4, i5, i6, i7, i8⟩ :=
    ionPotentials_unperturbed ops cfg (electronEqs ops mesh cfg (closure ops mesh cfg s))
      hp1 hp2 hcomm (f2.trans c2)
  have he := rhs_unperturbed ops mesh cfg (electronPotentials ops cfg (closure ops mesh cfg s))
    hbl hbr hgC hgL hg2 hNe0 hNi0 hTe0 hTi0 hG (e3.trans c1) e1 e2 (e4.trans c3)
    (e5.trans c4) (e6.trans c5) (e7.trans c6) (e8.trans c7)
  have hi := rhs_unperturbed ops mesh cfg
    (ionPotentials ops cfg (electronEqs ops mesh cfg (closure ops mesh cfg s)))
    hbl hbr hgC hgL hg2 hNe0 hNi0 hTe0 hTi0 hG (i3.trans (f1.trans c1)) i1 i2
    (i4.trans (f3.trans c3)) (i5.trans (f4.trans c4)) (i6.trans (f5.trans c5))
    (i7.trans (f6.trans c6)) (i8.trans (f7.trans c7))
  obtain ⟨a1, a2, a3, a4, a5, a6, _, _, _, _, _, _⟩ := he
  obtain ⟨_, _, _, _, _, _, b7, b8, b9, b10, b11, b12⟩ := hi
  cases v <;> simp [residual, a1, a2, a3, a4, a5, a6, b7, b8, b9, b10, b11, b12]

/-- C23, evaluation at the failing input: `physics_run` on the state with
every field zero, with every option and term flag at its default
(`Landau = 1`, `mu_e = -1/3720`, `tau_e = -1`), unit equilibrium profiles and
unit magnetic field (`Grad_par_logB = 0`), and finite-difference operators
that vanish on zero and constant fields. Eleven time derivatives are the zero
field; `ddt(qepar)` is the constant `-Landau*(tau_e/mu_e) = -3720`. -/
theorem unperturbed_state_drives_qepar :
    (steadyCfg.Landau = 1 ∧ steadyCfg.tau_e = -1 ∧ steadyCfg.mu_e = -1/3720 ∧
      steadyCfg.Grad_par_logB = 0) ∧
    (physics_run demoOps demoMesh steadyCfg zeroState).ddt.qepar = (fun _ _ _ => -3720) ∧
    (physics_run demoOps demoMesh steadyCfg zeroState).ddt.Ne = 0 ∧
    (physics_run demoOps demoMesh steadyCfg zeroState).ddt.ApUe = 0 ∧
    (physics_run demoOps demoMesh steadyCfg zeroState).ddt.Tepar = 0 ∧
    (physics_run demoOps demoMesh steadyCfg zeroState).ddt.Teperp = 0 ∧
    (physics_run demoOps demoMesh steadyCfg zeroState).ddt.qeperp = 0 ∧
    (physics_run demoOps demoMesh steadyCfg zeroState).ddt.Ni = 0 ∧
    (physics_run demoOps demoMesh steadyCfg zeroState).ddt.ApUi = 0 ∧
    (physics_run demoOps demoMesh steadyCfg zeroState).ddt.Tipar = 0 ∧
    (physics_run demoOps demoMesh steadyCfg zeroState).ddt.Tiperp = 0 ∧
    (physics_run demoOps demoMesh steadyCfg zeroState).ddt.qipar = 0 ∧
    (physics_run demoOps demoMesh steadyCfg zeroState).ddt.qiperp = 0 := by
  have hmu : steadyCfg.mu_e = -1/3720 := by
    simp [steadyCfg, physics_init_config]; norm_num
  have hG : steadyCfg.Grad_par_logB = 0 := by
    funext x y
    simp [steadyCfg, physics_init_config, defaultTermFlags, defaultOptions, demoCfg, demoOps,
      demoMesh]
  have hL : steadyCfg.Landau = 1 := rfl
  have ht : steadyCfg.tau_e = -1 := rfl
  have key : ∀ v, (physics_run demoOps demoMesh steadyCfg zeroState).ddt.get v
      = if v = Var.qepar then ((fun _ _ _ => -3720) : Field3D) else 0 := by
    intro v
    rw [physics_run_ddt_solved demoOps demoMesh steadyCfg zeroState v (by cases v <;> rfl),
      postProcess_off demoOps steadyCfg _ (by decide) rfl,
      residual_unperturbed demoOps demoMesh steadyCfg zeroState
        (by intro f; funext x y z; simp [demoOps])
        (by intro p; funext x y z; simp [demoOps])
        (by intro c; funext x y z; simp [demoOps])
        (by funext x y z; simp [demoOps])
        (by funext x y z; simp [demoOps])
        (by intro r fl; rfl) (by intro r fl; rfl)
        (by intro fl a; cases a <;> (funext x y z; simp [demoOps]))
        rfl ⟨1, rfl⟩ ⟨1, rfl⟩ ⟨1, rfl⟩ ⟨1, rfl⟩ hG rfl (by decide) rfl v,
      hL, ht, hmu]
    norm_num
  exact ⟨⟨hL, ht, hmu, hG⟩, key .qepar, key .Ne, key .ApUe, key .Tepar, key .Teperp,
    key .qeperp, key .Ni, key .ApUi, key .Tipar, key .Tiperp, key .qipar, key .qiperp⟩

end Gem
